import Mathlib

set_option maxHeartbeats 1000000
set_option maxRecDepth 8000

/-!
Shallow embedding of the MOSe 6502 emulator core (the `mose` class of the
current release).  Every definition below mirrors one JavaScript method of
that class; the mutable `this` of the JS code is threaded explicitly as a
`Mose` value.  JS numbers are modelled as `Nat` (all reachable values are
non-negative integers); the few places where the JS arithmetic can go
negative before a masking `& 0xFF` / `& 0xFFFF` are modelled either with
`Int` and `emod` (which agrees with the two's-complement low bits the JS
bitwise operators produce) or with an equivalent added-modulus form, noted
at each spot.
-/

/-- Record returned by the addressing-mode resolvers, mirroring the JS
object literal `{ address, value, pageCrossed, isWrite }`. -/
structure AddrRes where
  address : Nat
  value : Nat
  pageCrossed : Bool
  isWrite : Bool
deriving Repr, DecidableEq

/-- Processor state: all mutable fields of the JS class `mose`.
`ramLen`/`ram` model the `Uint8Array` backing store (`ram.length` and its
contents), the registers and the seven flags are stored as numbers exactly
as in JS (flags as 0/1 numbers), and `breakFlag`, `nmiPending`, `nmiEdge`
model the private `_breakFlag`, `_nmiPending`, `_nmiEdge` latches. -/
@[ext]
structure Mose where
  ramLen : Nat
  ram : Nat → Nat
  A : Nat
  X : Nat
  Y : Nat
  PC : Nat
  S : Nat
  C : Nat
  Z : Nat
  I : Nat
  D : Nat
  B : Nat
  V : Nat
  N : Nat
  opcode : Nat
  cycles : Nat
  totalCycles : Nat
  emulateIndirectJMPBug : Bool
  breakFlag : Bool
  nmiPending : Bool
  nmiEdge : Bool

namespace Mose

/-- Memory read, JS `read(addr)`: mask the address to 16 bits, return the
backing byte inside the configured region and the fill value 0xFF outside
it. -/
def read (s : Mose) (addr : Nat) : Nat :=
  let a := addr &&& 0xFFFF
  if a < s.ramLen then s.ram a &&& 0xFF else 0xFF

/-- Memory write, JS `write(addr, val)`: mask address and value, store
inside the configured region, silently do nothing outside it. -/
def write (s : Mose) (addr val : Nat) : Mose :=
  let a := addr &&& 0xFFFF
  let v := val &&& 0xFF
  if a < s.ramLen then { s with ram := fun i => if i = a then v else s.ram i } else s

/-- Stack push, JS `push(v)`.  `(S - 1) & 0xFF` on a non-negative JS number
equals `(S + 0xFF) % 0x100`. -/
def push (s : Mose) (v : Nat) : Mose :=
  let s1 := s.write (0x100 + (s.S &&& 0xFF)) (v &&& 0xFF)
  { s1 with S := (s1.S + 0xFF) % 0x100 }

/-- Stack pop, JS `pop()`: increments S first, then reads. -/
def pop (s : Mose) : Nat × Mose :=
  let s1 := { s with S := (s.S + 1) &&& 0xFF }
  (s1.read (0x100 + (s1.S &&& 0xFF)), s1)

/-- JS `setZN(v)`: Z from the masked value being zero, N from its bit 7. -/
def setZN (s : Mose) (v : Nat) : Mose :=
  let v := v &&& 0xFF
  { s with Z := if v = 0 then 1 else 0, N := if v &&& 0x80 ≠ 0 then 1 else 0 }

/-- JS `getStatus()`: pack the seven flags, with bit 5 hardwired to 1. -/
def getStatus (s : Mose) : Nat :=
  (s.N <<< 7) ||| (s.V <<< 6) ||| (1 <<< 5) ||| (s.B <<< 4) |||
    (s.D <<< 3) ||| (s.I <<< 2) ||| (s.Z <<< 1) ||| s.C

/-- JS `setStatus(v)`: unpack the status byte into the flags; bit 5 is
discarded. -/
def setStatus (s : Mose) (v : Nat) : Mose :=
  { s with
    N := (v >>> 7) &&& 1
    V := (v >>> 6) &&& 1
    B := (v >>> 4) &&& 1
    D := (v >>> 3) &&& 1
    I := (v >>> 2) &&& 1
    Z := (v >>> 1) &&& 1
    C := v &&& 1 }

/-- JS `bcdToBinary(bcd)` (helper, unused by the dispatch table). -/
def bcdToBinary (bcd : Nat) : Nat :=
  ((bcd >>> 4) * 10) + (bcd &&& 0x0F)

/-- JS `binaryToBCD(bin)` (helper, unused by the dispatch table). -/
def binaryToBCD (bin : Nat) : Nat :=
  (((bin / 10) <<< 4) ||| (bin % 10)) &&& 0xFF

/-- JS `checkPageCross(a, b)`: true iff the high bytes differ. -/
def checkPageCross (a b : Nat) : Bool :=
  (a &&& 0xFF00) != (b &&& 0xFF00)

/-- JS `triggerNMI()`: latch an NMI edge. -/
def triggerNMI (s : Mose) : Mose :=
  { s with nmiEdge := true }

/-- JS `triggerBreak()`: latch the break flag consumed by the next step. -/
def triggerBreak (s : Mose) : Mose :=
  { s with breakFlag := true }

/-- JS `handleNMI()`: when an edge is latched, clear it, push PC high, PC
low, then the status byte with the B bit (bit 4) cleared (`& ~0x10` on a
byte is `& 0xEF`), set I, load PC from the vector at 0xFFFA/0xFFFB and
charge 7 cycles.  `some` plays the role of the JS `return true`. -/
def handleNMI (s : Mose) : Option Mose :=
  if s.nmiEdge then
    let s := { s with nmiEdge := false, nmiPending := false }
    let s := s.push ((s.PC >>> 8) &&& 0xFF)
    let s := s.push (s.PC &&& 0xFF)
    let s := s.push (s.getStatus &&& 0xEF)
    let s := { s with I := 1 }
    let lo := s.read 0xFFFA
    let hi := s.read 0xFFFB
    let s := { s with PC := ((hi <<< 8) ||| lo) &&& 0xFFFF }
    some { s with cycles := 7, totalCycles := s.totalCycles + 7 }
  else
    none

/-- Immediate mode, JS `imm()`. -/
def imm (s : Mose) : AddrRes × Mose :=
  let addr := s.PC
  ({ address := addr, value := s.read addr, pageCrossed := false, isWrite := false },
   { s with PC := s.PC + 1 })

/-- Zero-page mode, JS `zp()`. -/
def zp (s : Mose) : AddrRes × Mose :=
  let zpAddr := s.read s.PC
  ({ address := zpAddr, value := s.read zpAddr, pageCrossed := false, isWrite := false },
   { s with PC := s.PC + 1 })

/-- Zero-page,X mode, JS `zpx()`. -/
def zpx (s : Mose) : AddrRes × Mose :=
  let zpAddr := (s.read s.PC + s.X) &&& 0xFF
  ({ address := zpAddr, value := s.read zpAddr, pageCrossed := false, isWrite := false },
   { s with PC := s.PC + 1 })

/-- Zero-page,Y mode, JS `zpy()`. -/
def zpy (s : Mose) : AddrRes × Mose :=
  let zpAddr := (s.read s.PC + s.Y) &&& 0xFF
  ({ address := zpAddr, value := s.read zpAddr, pageCrossed := false, isWrite := false },
   { s with PC := s.PC + 1 })

/-- Absolute mode, JS `abs()`. -/
def abs (s : Mose) : AddrRes × Mose :=
  let lo := s.read s.PC
  let hi := s.read (s.PC + 1)
  let addr := ((hi <<< 8) ||| lo) &&& 0xFFFF
  ({ address := addr, value := s.read addr, pageCrossed := false, isWrite := false },
   { s with PC := s.PC + 2 })

/-- Absolute,X mode, JS `absx()`: records whether the indexed address
crossed a page. -/
def absx (s : Mose) : AddrRes × Mose :=
  let lo := s.read s.PC
  let hi := s.read (s.PC + 1)
  let base := ((hi <<< 8) ||| lo) &&& 0xFFFF
  let addr := (base + s.X) &&& 0xFFFF
  ({ address := addr, value := s.read addr, pageCrossed := checkPageCross base addr,
     isWrite := false },
   { s with PC := s.PC + 2 })

/-- Absolute,Y mode, JS `absy()`. -/
def absy (s : Mose) : AddrRes × Mose :=
  let lo := s.read s.PC
  let hi := s.read (s.PC + 1)
  let base := ((hi <<< 8) ||| lo) &&& 0xFFFF
  let addr := (base + s.Y) &&& 0xFFFF
  ({ address := addr, value := s.read addr, pageCrossed := checkPageCross base addr,
     isWrite := false },
   { s with PC := s.PC + 2 })

/-- Indirect mode, JS `ind()`: when the hardware-bug toggle is on and the
pointer low byte is 0xFF, the high byte of the target is fetched from the
start of the same page (`ptr & 0xFF00`); otherwise from `(ptr + 1) & 0xFFFF`. -/
def ind (s : Mose) : AddrRes × Mose :=
  let lo := s.read s.PC
  let hi := s.read (s.PC + 1)
  let ptr := ((hi <<< 8) ||| lo) &&& 0xFFFF
  let low := s.read ptr
  let high :=
    if s.emulateIndirectJMPBug ∧ ptr &&& 0xFF = 0xFF then s.read (ptr &&& 0xFF00)
    else s.read ((ptr + 1) &&& 0xFFFF)
  let addr := ((high <<< 8) ||| low) &&& 0xFFFF
  ({ address := addr, value := 0, pageCrossed := false, isWrite := false },
   { s with PC := s.PC + 2 })

/-- Indexed-indirect mode, JS `indx()`. -/
def indx (s : Mose) : AddrRes × Mose :=
  let z := (s.read s.PC + s.X) &&& 0xFF
  let lo := s.read (z &&& 0xFF)
  let hi := s.read ((z + 1) &&& 0xFF)
  let addr := ((hi <<< 8) ||| lo) &&& 0xFFFF
  ({ address := addr, value := s.read addr, pageCrossed := false, isWrite := false },
   { s with PC := s.PC + 1 })

/-- Indirect-indexed mode, JS `indy()`. -/
def indy (s : Mose) : AddrRes × Mose :=
  let z := s.read s.PC &&& 0xFF
  let lo := s.read z
  let hi := s.read ((z + 1) &&& 0xFF)
  let base := ((hi <<< 8) ||| lo) &&& 0xFFFF
  let addr := (base + s.Y) &&& 0xFFFF
  ({ address := addr, value := s.read addr, pageCrossed := checkPageCross base addr,
     isWrite := false },
   { s with PC := s.PC + 1 })

/-- Relative mode, JS `rel()`.  For a negative offset the JS computes
`(PC + off - 0x100) & 0xFFFF`; on non-negative numbers that equals
`(PC + off + 0xFF00) % 0x10000`. -/
def rel (s : Mose) : AddrRes × Mose :=
  let off := s.read s.PC
  let s := { s with PC := s.PC + 1 }
  let target :=
    if off &&& 0x80 ≠ 0 then (s.PC + off + 0xFF00) % 0x10000
    else (s.PC + off) &&& 0xFFFF
  ({ address := target, value := 0, pageCrossed := false, isWrite := false }, s)

/-- JS `LDA(v)`. -/
def LDA (v : Nat) (s : Mose) : Mose :=
  let s := { s with A := v &&& 0xFF }
  s.setZN s.A

/-- JS `STA(a)`. -/
def STA (a : Nat) (s : Mose) : Mose := s.write a s.A

/-- JS `LDX(v)`. -/
def LDX (v : Nat) (s : Mose) : Mose :=
  let s := { s with X := v &&& 0xFF }
  s.setZN s.X

/-- JS `STX(a)`. -/
def STX (a : Nat) (s : Mose) : Mose := s.write a s.X

/-- JS `LDY(v)`. -/
def LDY (v : Nat) (s : Mose) : Mose :=
  let s := { s with Y := v &&& 0xFF }
  s.setZN s.Y

/-- JS `STY(a)`. -/
def STY (a : Nat) (s : Mose) : Mose := s.write a s.Y

/-- JS `TAX()`. -/
def TAX (s : Mose) : Mose :=
  let s := { s with X := s.A &&& 0xFF }
  s.setZN s.X

/-- JS `TXA()`. -/
def TXA (s : Mose) : Mose :=
  let s := { s with A := s.X &&& 0xFF }
  s.setZN s.A

/-- JS `TAY()`. -/
def TAY (s : Mose) : Mose :=
  let s := { s with Y := s.A &&& 0xFF }
  s.setZN s.Y

/-- JS `TYA()`. -/
def TYA (s : Mose) : Mose :=
  let s := { s with A := s.Y &&& 0xFF }
  s.setZN s.A

/-- JS `TSX()`. -/
def TSX (s : Mose) : Mose :=
  let s := { s with X := s.S &&& 0xFF }
  s.setZN s.X

/-- JS `TXS()`. -/
def TXS (s : Mose) : Mose := { s with S := s.X &&& 0xFF }

/-- JS `PHA()`. -/
def PHA (s : Mose) : Mose := s.push s.A

/-- JS `PLA()`. -/
def PLA (s : Mose) : Mose :=
  let (v, s) := s.pop
  let s := { s with A := v }
  s.setZN s.A

/-- JS `PHP()`: pushes the status with the B bit forced to 1. -/
def PHP (s : Mose) : Mose := s.push (s.getStatus ||| 0x10)

/-- JS `PLP()`. -/
def PLP (s : Mose) : Mose :=
  let (v, s) := s.pop
  s.setStatus v

/-- JS `INX()`. -/
def INX (s : Mose) : Mose :=
  let s := { s with X := (s.X + 1) &&& 0xFF }
  s.setZN s.X

/-- JS `DEX()`.  `(X - 1) & 0xFF` on a non-negative JS number equals
`(X + 0xFF) % 0x100`. -/
def DEX (s : Mose) : Mose :=
  let s := { s with X := (s.X + 0xFF) % 0x100 }
  s.setZN s.X

/-- JS `INY()`. -/
def INY (s : Mose) : Mose :=
  let s := { s with Y := (s.Y + 1) &&& 0xFF }
  s.setZN s.Y

/-- JS `DEY()`. -/
def DEY (s : Mose) : Mose :=
  let s := { s with Y := (s.Y + 0xFF) % 0x100 }
  s.setZN s.Y

/-- JS `INC(a)`. -/
def INC (a : Nat) (s : Mose) : Mose :=
  let v := (s.read a + 1) &&& 0xFF
  let s := s.write a v
  s.setZN v

/-- JS `DEC(a)`: `(read(a) - 1) & 0xFF` with `read(a) - 1` possibly `-1`,
modelled as `(read(a) + 0xFF) % 0x100`. -/
def DEC (a : Nat) (s : Mose) : Mose :=
  let v := (s.read a + 0xFF) % 0x100
  let s := s.write a v
  s.setZN v

/-- JS `CLC()`. -/
def CLC (s : Mose) : Mose := { s with C := 0 }

/-- JS `SEC()`. -/
def SEC (s : Mose) : Mose := { s with C := 1 }

/-- JS `CLI()`. -/
def CLI (s : Mose) : Mose := { s with I := 0 }

/-- JS `SEI()`. -/
def SEI (s : Mose) : Mose := { s with I := 1 }

/-- JS `CLV()`. -/
def CLV (s : Mose) : Mose := { s with V := 0 }

/-- JS `CLD()`. -/
def CLD (s : Mose) : Mose := { s with D := 0 }

/-- JS `SED()`. -/
def SED (s : Mose) : Mose := { s with D := 1 }

/-- JS `NOP()`. -/
def NOP (s : Mose) : Mose := s

/-- JS `JMP(a)`. -/
def JMP (a : Nat) (s : Mose) : Mose := { s with PC := a &&& 0xFFFF }

/-- JS `JSR(a)`: the return address is `(PC - 1) & 0xFFFF`; on the
non-negative PC this equals `(PC + 0xFFFF) % 0x10000`. -/
def JSR (a : Nat) (s : Mose) : Mose :=
  let ret := (s.PC + 0xFFFF) % 0x10000
  let s := s.push ((ret >>> 8) &&& 0xFF)
  let s := s.push (ret &&& 0xFF)
  { s with PC := a &&& 0xFFFF }

/-- JS `RTS()`. -/
def RTS (s : Mose) : Mose :=
  let (lo, s) := s.pop
  let (hi, s) := s.pop
  { s with PC := (((hi <<< 8) ||| lo) + 1) &&& 0xFFFF }

/-- JS `BRK()`: pushes the incremented PC and the status with B forced to
1 and jumps through the vector at 0xFFFE/0xFFFF. -/
def BRK (s : Mose) : Mose :=
  let s := { s with B := 1 }
  let s := { s with PC := (s.PC + 1) &&& 0xFFFF }
  let s := s.push ((s.PC >>> 8) &&& 0xFF)
  let s := s.push (s.PC &&& 0xFF)
  let s := s.push (s.getStatus ||| 0x10)
  let s := { s with I := 1 }
  let lo := s.read 0xFFFE
  let hi := s.read 0xFFFF
  { s with PC := ((hi <<< 8) ||| lo) &&& 0xFFFF }

/-- JS `RTI()`: pops the status, then PC low/high. -/
def RTI (s : Mose) : Mose :=
  let (p, s) := s.pop
  let s := s.setStatus p
  let (lo, s) := s.pop
  let (hi, s) := s.pop
  { s with PC := ((hi <<< 8) ||| lo) &&& 0xFFFF }

/-- JS `BCC(target)`: branch taken costs one extra cycle, plus one more on
a page cross. -/
def BCC (target : Nat) (s : Mose) : Mose :=
  if s.C = 0 then
    let pageCrossed := checkPageCross s.PC target
    let s := { s with cycles := s.cycles + 1 }
    let s := if pageCrossed then { s with cycles := s.cycles + 1 } else s
    { s with PC := target }
  else s

/-- JS `BCS(target)`. -/
def BCS (target : Nat) (s : Mose) : Mose :=
  if s.C = 1 then
    let pageCrossed := checkPageCross s.PC target
    let s := { s with cycles := s.cycles + 1 }
    let s := if pageCrossed then { s with cycles := s.cycles + 1 } else s
    { s with PC := target }
  else s

/-- JS `BEQ(target)`. -/
def BEQ (target : Nat) (s : Mose) : Mose :=
  if s.Z = 1 then
    let pageCrossed := checkPageCross s.PC target
    let s := { s with cycles := s.cycles + 1 }
    let s := if pageCrossed then { s with cycles := s.cycles + 1 } else s
    { s with PC := target }
  else s

/-- JS `BNE(target)`. -/
def BNE (target : Nat) (s : Mose) : Mose :=
  if s.Z = 0 then
    let pageCrossed := checkPageCross s.PC target
    let s := { s with cycles := s.cycles + 1 }
    let s := if pageCrossed then { s with cycles := s.cycles + 1 } else s
    { s with PC := target }
  else s

/-- JS `BPL(target)`. -/
def BPL (target : Nat) (s : Mose) : Mose :=
  if s.N = 0 then
    let pageCrossed := checkPageCross s.PC target
    let s := { s with cycles := s.cycles + 1 }
    let s := if pageCrossed then { s with cycles := s.cycles + 1 } else s
    { s with PC := target }
  else s

/-- JS `BMI(target)`. -/
def BMI (target : Nat) (s : Mose) : Mose :=
  if s.N = 1 then
    let pageCrossed := checkPageCross s.PC target
    let s := { s with cycles := s.cycles + 1 }
    let s := if pageCrossed then { s with cycles := s.cycles + 1 } else s
    { s with PC := target }
  else s

/-- JS `BVC(target)`. -/
def BVC (target : Nat) (s : Mose) : Mose :=
  if s.V = 0 then
    let pageCrossed := checkPageCross s.PC target
    let s := { s with cycles := s.cycles + 1 }
    let s := if pageCrossed then { s with cycles := s.cycles + 1 } else s
    { s with PC := target }
  else s

/-- JS `BVS(target)`. -/
def BVS (target : Nat) (s : Mose) : Mose :=
  if s.V = 1 then
    let pageCrossed := checkPageCross s.PC target
    let s := { s with cycles := s.cycles + 1 }
    let s := if pageCrossed then { s with cycles := s.cycles + 1 } else s
    { s with PC := target }
  else s

/-- JS `ADC(v)` with decimal-mode support.  The JS expression
`(~(A ^ v) & (A ^ sum)) & 0x80` is non-zero exactly when bit 7 of `A ^ v`
is 0 and bit 7 of `A ^ sum` is 1, which is how V is written here.  The JS
truthiness test `this.C ? 1 : 0` on the 0/1 flag is `if s.C = 0 then 0
else 1`. -/
def ADC (v : Nat) (s : Mose) : Mose :=
  let v := v &&& 0xFF
  if s.D = 0 then
    let sum := s.A + v + (if s.C = 0 then 0 else 1)
    let s1 := { s with
      C := if sum > 0xFF then 1 else 0
      V := if (s.A ^^^ v) &&& 0x80 = 0 ∧ (s.A ^^^ sum) &&& 0x80 ≠ 0 then 1 else 0 }
    let s2 := { s1 with A := sum &&& 0xFF }
    s2.setZN s2.A
  else
    let al := (s.A &&& 0x0F) + (v &&& 0x0F) + (if s.C = 0 then 0 else 1)
    let ah := (s.A >>> 4) + (v >>> 4)
    let al2 := if al > 9 then al + 6 else al
    let ah2 := if al > 9 then ah + 1 else ah
    let binaryResult := s.A + v + (if s.C = 0 then 0 else 1)
    let s1 := s.setZN (binaryResult &&& 0xFF)
    let s2 := { s1 with
      V := if (s.A ^^^ v) &&& 0x80 = 0 ∧ (s.A ^^^ binaryResult) &&& 0x80 ≠ 0 then 1 else 0 }
    let ah3 := if ah2 > 9 then ah2 + 6 else ah2
    let s3 := { s2 with C := if ah3 > 15 then 1 else 0 }
    { s3 with A := ((ah3 <<< 4) ||| (al2 &&& 0x0F)) &&& 0xFF }

/-- JS `SBC(v)`: binary mode is ADC of the one's complement; decimal mode
uses signed nibble arithmetic, modelled with `Int` (`Int` `%` is `emod`,
whose result on a positive modulus is the two's-complement low bits the JS
`&` masks produce).  `binaryResult & 0xFF` of a possibly negative JS number
is `(binaryResult).emod 256`, and bit 7 of the JS 32-bit `A ^ binaryResult`
is set iff bit 7 of `A` and bit 7 of that low byte differ. -/
def SBC (v : Nat) (s : Mose) : Mose :=
  let v := v &&& 0xFF
  if s.D = 0 then
    ADC ((v ^^^ 0xFF) &&& 0xFF) s
  else
    let borrow : Int := if s.C = 0 then 1 else 0
    let al : Int := ((s.A &&& 0x0F : Nat) : Int) - ((v &&& 0x0F : Nat) : Int) - borrow
    let ah : Int := ((s.A >>> 4 : Nat) : Int) - ((v >>> 4 : Nat) : Int)
    let al2 := if al < 0 then al - 6 else al
    let ah2 := if al < 0 then ah - 1 else ah
    let binaryResult : Int := (s.A : Int) - (v : Int) - borrow
    let binByte : Nat := (binaryResult % 256).toNat
    let s1 := s.setZN binByte
    let s2 := { s1 with
      V := if (s.A ^^^ v) &&& 0x80 ≠ 0 ∧ (s.A &&& 0x80) ≠ (binByte &&& 0x80) then 1 else 0 }
    let ah3 := if ah2 < 0 then ah2 - 6 else ah2
    let s3 := { s2 with C := if 0 ≤ ah3 then 1 else 0 }
    { s3 with A := ((ah3 % 16).toNat <<< 4) ||| (al2 % 16).toNat }

/-- JS `AND(v)`. -/
def AND (v : Nat) (s : Mose) : Mose :=
  let s := { s with A := s.A &&& (v &&& 0xFF) }
  s.setZN s.A

/-- JS `ORA(v)`. -/
def ORA (v : Nat) (s : Mose) : Mose :=
  let s := { s with A := s.A ||| (v &&& 0xFF) }
  s.setZN s.A

/-- JS `EOR(v)`. -/
def EOR (v : Nat) (s : Mose) : Mose :=
  let s := { s with A := s.A ^^^ (v &&& 0xFF) }
  s.setZN s.A

/-- JS `CMP(v)`: `(A - v) & 0x1FF` of the possibly negative difference,
i.e. the 9-bit two's-complement low bits, is `emod 512` on `Int`. -/
def CMP (v : Nat) (s : Mose) : Mose :=
  let r : Nat := (((s.A : Int) - ((v &&& 0xFF : Nat) : Int)) % 512).toNat
  let s := { s with C := if r < 0x100 then 1 else 0 }
  s.setZN (r &&& 0xFF)

/-- JS `CPX(v)`. -/
def CPX (v : Nat) (s : Mose) : Mose :=
  let r : Nat := (((s.X : Int) - ((v &&& 0xFF : Nat) : Int)) % 512).toNat
  let s := { s with C := if r < 0x100 then 1 else 0 }
  s.setZN (r &&& 0xFF)

/-- JS `CPY(v)`. -/
def CPY (v : Nat) (s : Mose) : Mose :=
  let r : Nat := (((s.Y : Int) - ((v &&& 0xFF : Nat) : Int)) % 512).toNat
  let s := { s with C := if r < 0x100 then 1 else 0 }
  s.setZN (r &&& 0xFF)

/-- JS `BIT(v)`: Z from `A & v` being zero, N and V copied from bits 7 and
6 of the operand. -/
def BIT (v : Nat) (s : Mose) : Mose :=
  let v := v &&& 0xFF
  { s with
    Z := if s.A &&& v ≠ 0 then 0 else 1
    N := if v &&& 0x80 ≠ 0 then 1 else 0
    V := if v &&& 0x40 ≠ 0 then 1 else 0 }

/-- JS `ASL_A()`. -/
def ASL_A (s : Mose) : Mose :=
  let s := { s with C := (s.A >>> 7) &&& 1 }
  let s := { s with A := (s.A <<< 1) &&& 0xFF }
  s.setZN s.A

/-- JS `ASL(a)`. -/
def ASL (a : Nat) (s : Mose) : Mose :=
  let v := s.read a
  let s := { s with C := (v >>> 7) &&& 1 }
  let v := (v <<< 1) &&& 0xFF
  let s := s.write a v
  s.setZN v

/-- JS `LSR_A()`. -/
def LSR_A (s : Mose) : Mose :=
  let s := { s with C := s.A &&& 1 }
  let s := { s with A := (s.A >>> 1) &&& 0xFF }
  s.setZN s.A

/-- JS `LSR(a)`. -/
def LSR (a : Nat) (s : Mose) : Mose :=
  let v := s.read a
  let s := { s with C := v &&& 1 }
  let v := (v >>> 1) &&& 0xFF
  let s := s.write a v
  s.setZN v

/-- JS `ROL_A()`. -/
def ROL_A (s : Mose) : Mose :=
  let oldC := s.C
  let s := { s with C := (s.A >>> 7) &&& 1 }
  let s := { s with A := ((s.A <<< 1) ||| oldC) &&& 0xFF }
  s.setZN s.A

/-- JS `ROL(a)`. -/
def ROL (a : Nat) (s : Mose) : Mose :=
  let v := s.read a
  let oldC := s.C
  let s := { s with C := (v >>> 7) &&& 1 }
  let v := ((v <<< 1) ||| oldC) &&& 0xFF
  let s := s.write a v
  s.setZN v

/-- JS `ROR_A()`. -/
def ROR_A (s : Mose) : Mose :=
  let oldC := s.C
  let s := { s with C := s.A &&& 1 }
  let s := { s with A := ((s.A >>> 1) ||| (oldC <<< 7)) &&& 0xFF }
  s.setZN s.A

/-- JS `ROR(a)`. -/
def ROR (a : Nat) (s : Mose) : Mose :=
  let v := s.read a
  let oldC := s.C
  let s := { s with C := v &&& 1 }
  let v := ((v >>> 1) ||| (oldC <<< 7)) &&& 0xFF
  let s := s.write a v
  s.setZN v

/-- JS `LAX(v)`. -/
def LAX (v : Nat) (s : Mose) : Mose :=
  let s := { s with A := v &&& 0xFF, X := v &&& 0xFF }
  s.setZN s.A

/-- JS `SAX(a)`. -/
def SAX (a : Nat) (s : Mose) : Mose := s.write a (s.A &&& s.X)

/-- JS `DCP(a)`. -/
def DCP (a : Nat) (s : Mose) : Mose :=
  let s := DEC a s
  CMP (s.read a) s

/-- JS `ISC(a)`. -/
def ISC (a : Nat) (s : Mose) : Mose :=
  let s := INC a s
  SBC (s.read a) s

/-- JS `SLO(a)`. -/
def SLO (a : Nat) (s : Mose) : Mose :=
  let s := ASL a s
  ORA (s.read a) s

/-- JS `RLA(a)`. -/
def RLA (a : Nat) (s : Mose) : Mose :=
  let s := ROL a s
  AND (s.read a) s

/-- JS `SRE(a)`. -/
def SRE (a : Nat) (s : Mose) : Mose :=
  let s := LSR a s
  EOR (s.read a) s

/-- JS `RRA(a)`. -/
def RRA (a : Nat) (s : Mose) : Mose :=
  let s := ROR a s
  ADC (s.read a) s

/-- JS `ANC(v)`. -/
def ANC (v : Nat) (s : Mose) : Mose :=
  let s := AND v s
  { s with C := s.N }

/-- JS `ALR(v)`. -/
def ALR (v : Nat) (s : Mose) : Mose :=
  let s := AND v s
  LSR_A s

/-- JS `ARR(v)`. -/
def ARR (v : Nat) (s : Mose) : Mose :=
  let s := AND v s
  let s := ROR_A s
  let s := { s with C := (s.A >>> 6) &&& 1 }
  { s with V := ((s.A >>> 6) ^^^ (s.A >>> 5)) &&& 1 }

/-- JS `XAA(v)`. -/
def XAA (v : Nat) (s : Mose) : Mose :=
  let s := { s with A := s.X &&& (v &&& 0xFF) }
  s.setZN s.A

/-- JS `AXS(v)`: `result = temp - v8` may be negative; with both operands
below 256, `result & 0xFF` is `(temp + 0x100 - v8) % 0x100` and
`result >= 0` is `v8 ≤ temp`. -/
def AXS (v : Nat) (s : Mose) : Mose :=
  let temp := (s.A &&& s.X) &&& 0xFF
  let v8 := v &&& 0xFF
  let s := { s with X := (temp + 0x100 - v8) % 0x100 }
  let s := { s with C := if v8 ≤ temp then 1 else 0 }
  s.setZN s.X

/-- JS `SHY(a)`. -/
def SHY (a : Nat) (s : Mose) : Mose :=
  let val := s.Y &&& (((a >>> 8) + 1) &&& 0xFF)
  s.write a val

/-- JS `SHX(a)`. -/
def SHX (a : Nat) (s : Mose) : Mose :=
  let val := s.X &&& (((a >>> 8) + 1) &&& 0xFF)
  s.write a val

/-- Inline page-cross penalty used by the read-instruction handlers, JS
`if (m.pageCrossed) this.cycles++;`. -/
def pxBump (m : AddrRes) (s : Mose) : Mose :=
  if m.pageCrossed then { s with cycles := s.cycles + 1 } else s

/-- Base cycle-cost entries, JS `setupCycleTiming()` (256 entries). -/
def cycleList : List Nat :=
  [7,6,2,8,3,3,5,5,3,2,2,2,4,4,6,6,2,5,2,8,4,4,6,6,2,4,2,7,4,4,7,7,
   6,6,2,8,3,3,5,5,4,2,2,2,4,4,6,6,2,5,2,8,4,4,6,6,2,4,2,7,4,4,7,7,
   6,6,2,8,3,3,5,5,3,2,2,2,3,4,6,6,2,5,2,8,4,4,6,6,2,4,2,7,4,4,7,7,
   6,6,2,8,3,3,5,5,4,2,2,2,5,4,6,6,2,5,2,8,4,4,6,6,2,4,2,7,4,4,7,7,
   2,6,2,6,3,3,3,3,2,2,2,2,4,4,4,4,2,6,2,6,4,4,4,4,2,5,2,5,5,5,5,5,
   2,6,2,6,3,3,3,3,2,2,2,2,4,4,4,4,2,5,2,5,4,4,4,4,2,4,2,4,4,4,4,4,
   2,6,2,8,3,3,5,5,2,2,2,2,4,4,6,6,2,5,2,8,4,4,6,6,2,4,2,7,4,4,7,7,
   2,6,2,8,3,3,5,5,2,2,2,2,4,4,6,6,2,5,2,8,4,4,6,6,2,4,2,7,4,4,7,7]

/-- Cycle-table lookup, JS `this.cycleTable[this.opcode] || 2`: a missing
entry falls back to 2. -/
def cycleTable (op : Nat) : Nat :=
  cycleList.getD op 2

/-- Rows of the instruction dispatch table, JS `setupInstructions()`.
Each arm below is one `this.instructionMap[op] = ...` assignment of the JS
source; `none` stands for the opcodes that are left at their initial KIL
handler.  The 256-entry table is presented as 16 row functions indexed by
the low nibble of the opcode (one row per high nibble) so that each match
stays small; `execAssigned` below reassembles the flat table. -/
def execRow0 (lo : Nat) (s : Mose) : Option Mose :=
  match lo with
  | 0x0 => some (BRK s)  -- opcode 0x00
  | 0x1 => some (let (m, s) := indx s; ORA m.value s)  -- opcode 0x01
  | 0x3 => some (let (m, s) := indx s; SLO m.address s)  -- opcode 0x03
  | 0x4 => some (let (_, s) := zp s; NOP s)  -- opcode 0x04
  | 0x5 => some (let (m, s) := zp s; ORA m.value s)  -- opcode 0x05
  | 0x6 => some (let (m, s) := zp s; ASL m.address s)  -- opcode 0x06
  | 0x7 => some (let (m, s) := zp s; SLO m.address s)  -- opcode 0x07
  | 0x8 => some (PHP s)  -- opcode 0x08
  | 0x9 => some (let (m, s) := imm s; ORA m.value s)  -- opcode 0x09
  | 0xA => some (ASL_A s)  -- opcode 0x0A
  | 0xB => some (let (m, s) := imm s; ANC m.value s)  -- opcode 0x0B
  | 0xC => some (let (_, s) := abs s; NOP s)  -- opcode 0x0C
  | 0xD => some (let (m, s) := abs s; ORA m.value s)  -- opcode 0x0D
  | 0xE => some (let (m, s) := abs s; ASL m.address s)  -- opcode 0x0E
  | 0xF => some (let (m, s) := abs s; SLO m.address s)  -- opcode 0x0F
  | _ => none

def execRow1 (lo : Nat) (s : Mose) : Option Mose :=
  match lo with
  | 0x0 => some (let (m, s) := rel s; BPL m.address s)  -- opcode 0x10
  | 0x1 => some (let (m, s) := indy s; ORA m.value (pxBump m s))  -- opcode 0x11
  | 0x3 => some (let (m, s) := indy s; SLO m.address s)  -- opcode 0x13
  | 0x4 => some (let (_, s) := zpx s; NOP s)  -- opcode 0x14
  | 0x5 => some (let (m, s) := zpx s; ORA m.value s)  -- opcode 0x15
  | 0x6 => some (let (m, s) := zpx s; ASL m.address s)  -- opcode 0x16
  | 0x7 => some (let (m, s) := zpx s; SLO m.address s)  -- opcode 0x17
  | 0x8 => some (CLC s)  -- opcode 0x18
  | 0x9 => some (let (m, s) := absy s; ORA m.value (pxBump m s))  -- opcode 0x19
  | 0xA => some (NOP s)  -- opcode 0x1A
  | 0xB => some (let (m, s) := absy s; SLO m.address s)  -- opcode 0x1B
  | 0xC => some (let (m, s) := absx s; NOP (pxBump m s))  -- opcode 0x1C
  | 0xD => some (let (m, s) := absx s; ORA m.value (pxBump m s))  -- opcode 0x1D
  | 0xE => some (let (m, s) := absx s; ASL m.address s)  -- opcode 0x1E
  | 0xF => some (let (m, s) := absx s; SLO m.address s)  -- opcode 0x1F
  | _ => none

def execRow2 (lo : Nat) (s : Mose) : Option Mose :=
  match lo with
  | 0x0 => some (let (m, s) := abs s; JSR m.address s)  -- opcode 0x20
  | 0x1 => some (let (m, s) := indx s; AND m.value s)  -- opcode 0x21
  | 0x3 => some (let (m, s) := indx s; RLA m.address s)  -- opcode 0x23
  | 0x4 => some (let (m, s) := zp s; BIT m.value s)  -- opcode 0x24
  | 0x5 => some (let (m, s) := zp s; AND m.value s)  -- opcode 0x25
  | 0x6 => some (let (m, s) := zp s; ROL m.address s)  -- opcode 0x26
  | 0x7 => some (let (m, s) := zp s; RLA m.address s)  -- opcode 0x27
  | 0x8 => some (PLP s)  -- opcode 0x28
  | 0x9 => some (let (m, s) := imm s; AND m.value s)  -- opcode 0x29
  | 0xA => some (ROL_A s)  -- opcode 0x2A
  | 0xB => some (let (m, s) := imm s; ANC m.value s)  -- opcode 0x2B
  | 0xC => some (let (m, s) := abs s; BIT m.value s)  -- opcode 0x2C
  | 0xD => some (let (m, s) := abs s; AND m.value s)  -- opcode 0x2D
  | 0xE => some (let (m, s) := abs s; ROL m.address s)  -- opcode 0x2E
  | 0xF => some (let (m, s) := abs s; RLA m.address s)  -- opcode 0x2F
  | _ => none

def execRow3 (lo : Nat) (s : Mose) : Option Mose :=
  match lo with
  | 0x0 => some (let (m, s) := rel s; BMI m.address s)  -- opcode 0x30
  | 0x1 => some (let (m, s) := indy s; AND m.value (pxBump m s))  -- opcode 0x31
  | 0x3 => some (let (m, s) := indy s; RLA m.address s)  -- opcode 0x33
  | 0x4 => some (let (_, s) := zpx s; NOP s)  -- opcode 0x34
  | 0x5 => some (let (m, s) := zpx s; AND m.value s)  -- opcode 0x35
  | 0x6 => some (let (m, s) := zpx s; ROL m.address s)  -- opcode 0x36
  | 0x7 => some (let (m, s) := zpx s; RLA m.address s)  -- opcode 0x37
  | 0x8 => some (SEC s)  -- opcode 0x38
  | 0x9 => some (let (m, s) := absy s; AND m.value (pxBump m s))  -- opcode 0x39
  | 0xA => some (NOP s)  -- opcode 0x3A
  | 0xB => some (let (m, s) := absy s; RLA m.address s)  -- opcode 0x3B
  | 0xC => some (let (m, s) := absx s; NOP (pxBump m s))  -- opcode 0x3C
  | 0xD => some (let (m, s) := absx s; AND m.value (pxBump m s))  -- opcode 0x3D
  | 0xE => some (let (m, s) := absx s; ROL m.address s)  -- opcode 0x3E
  | 0xF => some (let (m, s) := absx s; RLA m.address s)  -- opcode 0x3F
  | _ => none

def execRow4 (lo : Nat) (s : Mose) : Option Mose :=
  match lo with
  | 0x0 => some (RTI s)  -- opcode 0x40
  | 0x1 => some (let (m, s) := indx s; EOR m.value s)  -- opcode 0x41
  | 0x3 => some (let (m, s) := indx s; SRE m.address s)  -- opcode 0x43
  | 0x4 => some (let (_, s) := zp s; NOP s)  -- opcode 0x44
  | 0x5 => some (let (m, s) := zp s; EOR m.value s)  -- opcode 0x45
  | 0x6 => some (let (m, s) := zp s; LSR m.address s)  -- opcode 0x46
  | 0x7 => some (let (m, s) := zp s; SRE m.address s)  -- opcode 0x47
  | 0x8 => some (PHA s)  -- opcode 0x48
  | 0x9 => some (let (m, s) := imm s; EOR m.value s)  -- opcode 0x49
  | 0xA => some (LSR_A s)  -- opcode 0x4A
  | 0xB => some (let (m, s) := imm s; ALR m.value s)  -- opcode 0x4B
  | 0xC => some (let (m, s) := abs s; JMP m.address s)  -- opcode 0x4C
  | 0xD => some (let (m, s) := abs s; EOR m.value s)  -- opcode 0x4D
  | 0xE => some (let (m, s) := abs s; LSR m.address s)  -- opcode 0x4E
  | 0xF => some (let (m, s) := abs s; SRE m.address s)  -- opcode 0x4F
  | _ => none

def execRow5 (lo : Nat) (s : Mose) : Option Mose :=
  match lo with
  | 0x0 => some (let (m, s) := rel s; BVC m.address s)  -- opcode 0x50
  | 0x1 => some (let (m, s) := indy s; EOR m.value (pxBump m s))  -- opcode 0x51
  | 0x3 => some (let (m, s) := indy s; SRE m.address s)  -- opcode 0x53
  | 0x4 => some (let (_, s) := zpx s; NOP s)  -- opcode 0x54
  | 0x5 => some (let (m, s) := zpx s; EOR m.value s)  -- opcode 0x55
  | 0x6 => some (let (m, s) := zpx s; LSR m.address s)  -- opcode 0x56
  | 0x7 => some (let (m, s) := zpx s; SRE m.address s)  -- opcode 0x57
  | 0x8 => some (CLI s)  -- opcode 0x58
  | 0x9 => some (let (m, s) := absy s; EOR m.value (pxBump m s))  -- opcode 0x59
  | 0xA => some (NOP s)  -- opcode 0x5A
  | 0xB => some (let (m, s) := absy s; SRE m.address s)  -- opcode 0x5B
  | 0xC => some (let (m, s) := absx s; NOP (pxBump m s))  -- opcode 0x5C
  | 0xD => some (let (m, s) := absx s; EOR m.value (pxBump m s))  -- opcode 0x5D
  | 0xE => some (let (m, s) := absx s; LSR m.address s)  -- opcode 0x5E
  | 0xF => some (let (m, s) := absx s; SRE m.address s)  -- opcode 0x5F
  | _ => none

def execRow6 (lo : Nat) (s : Mose) : Option Mose :=
  match lo with
  | 0x0 => some (RTS s)  -- opcode 0x60
  | 0x1 => some (let (m, s) := indx s; ADC m.value s)  -- opcode 0x61
  | 0x3 => some (let (m, s) := indx s; RRA m.address s)  -- opcode 0x63
  | 0x4 => some (let (_, s) := zp s; NOP s)  -- opcode 0x64
  | 0x5 => some (let (m, s) := zp s; ADC m.value s)  -- opcode 0x65
  | 0x6 => some (let (m, s) := zp s; ROR m.address s)  -- opcode 0x66
  | 0x7 => some (let (m, s) := zp s; RRA m.address s)  -- opcode 0x67
  | 0x8 => some (PLA s)  -- opcode 0x68
  | 0x9 => some (let (m, s) := imm s; ADC m.value s)  -- opcode 0x69
  | 0xA => some (ROR_A s)  -- opcode 0x6A
  | 0xB => some (let (m, s) := imm s; ARR m.value s)  -- opcode 0x6B
  | 0xC => some (let (m, s) := ind s; JMP m.address s)  -- opcode 0x6C
  | 0xD => some (let (m, s) := abs s; ADC m.value s)  -- opcode 0x6D
  | 0xE => some (let (m, s) := abs s; ROR m.address s)  -- opcode 0x6E
  | 0xF => some (let (m, s) := abs s; RRA m.address s)  -- opcode 0x6F
  | _ => none

def execRow7 (lo : Nat) (s : Mose) : Option Mose :=
  match lo with
  | 0x0 => some (let (m, s) := rel s; BVS m.address s)  -- opcode 0x70
  | 0x1 => some (let (m, s) := indy s; ADC m.value (pxBump m s))  -- opcode 0x71
  | 0x3 => some (let (m, s) := indy s; RRA m.address s)  -- opcode 0x73
  | 0x4 => some (let (_, s) := zpx s; NOP s)  -- opcode 0x74
  | 0x5 => some (let (m, s) := zpx s; ADC m.value s)  -- opcode 0x75
  | 0x6 => some (let (m, s) := zpx s; ROR m.address s)  -- opcode 0x76
  | 0x7 => some (let (m, s) := zpx s; RRA m.address s)  -- opcode 0x77
  | 0x8 => some (SEI s)  -- opcode 0x78
  | 0x9 => some (let (m, s) := absy s; ADC m.value (pxBump m s))  -- opcode 0x79
  | 0xA => some (NOP s)  -- opcode 0x7A
  | 0xB => some (let (m, s) := absy s; RRA m.address s)  -- opcode 0x7B
  | 0xC => some (let (m, s) := absx s; NOP (pxBump m s))  -- opcode 0x7C
  | 0xD => some (let (m, s) := absx s; ADC m.value (pxBump m s))  -- opcode 0x7D
  | 0xE => some (let (m, s) := absx s; ROR m.address s)  -- opcode 0x7E
  | 0xF => some (let (m, s) := absx s; RRA m.address s)  -- opcode 0x7F
  | _ => none

def execRow8 (lo : Nat) (s : Mose) : Option Mose :=
  match lo with
  | 0x0 => some (let (_, s) := imm s; NOP s)  -- opcode 0x80
  | 0x1 => some (let (m, s) := indx s; STA m.address s)  -- opcode 0x81
  | 0x2 => some (let (_, s) := imm s; NOP s)  -- opcode 0x82
  | 0x3 => some (let (m, s) := indx s; SAX m.address s)  -- opcode 0x83
  | 0x4 => some (let (m, s) := zp s; STY m.address s)  -- opcode 0x84
  | 0x5 => some (let (m, s) := zp s; STA m.address s)  -- opcode 0x85
  | 0x6 => some (let (m, s) := zp s; STX m.address s)  -- opcode 0x86
  | 0x7 => some (let (m, s) := zp s; SAX m.address s)  -- opcode 0x87
  | 0x8 => some (DEY s)  -- opcode 0x88
  | 0x9 => some (let (_, s) := imm s; NOP s)  -- opcode 0x89
  | 0xA => some (TXA s)  -- opcode 0x8A
  | 0xB => some (let (m, s) := imm s; XAA m.value s)  -- opcode 0x8B
  | 0xC => some (let (m, s) := abs s; STY m.address s)  -- opcode 0x8C
  | 0xD => some (let (m, s) := abs s; STA m.address s)  -- opcode 0x8D
  | 0xE => some (let (m, s) := abs s; STX m.address s)  -- opcode 0x8E
  | 0xF => some (let (m, s) := abs s; SAX m.address s)  -- opcode 0x8F
  | _ => none

def execRow9 (lo : Nat) (s : Mose) : Option Mose :=
  match lo with
  | 0x0 => some (let (m, s) := rel s; BCC m.address s)  -- opcode 0x90
  | 0x1 => some (let (m, s) := indy s; STA m.address s)  -- opcode 0x91
  | 0x4 => some (let (m, s) := zpx s; STY m.address s)  -- opcode 0x94
  | 0x5 => some (let (m, s) := zpx s; STA m.address s)  -- opcode 0x95
  | 0x6 => some (let (m, s) := zpy s; STX m.address s)  -- opcode 0x96
  | 0x7 => some (let (m, s) := zpy s; SAX m.address s)  -- opcode 0x97
  | 0x8 => some (TYA s)  -- opcode 0x98
  | 0x9 => some (let (m, s) := absy s; STA m.address s)  -- opcode 0x99
  | 0xA => some (TXS s)  -- opcode 0x9A
  | 0xC => some (let (m, s) := absx s; SHY m.address s)  -- opcode 0x9C
  | 0xD => some (let (m, s) := absx s; STA m.address s)  -- opcode 0x9D
  | 0xE => some (let (m, s) := absy s; SHX m.address s)  -- opcode 0x9E
  | _ => none

def execRowA (lo : Nat) (s : Mose) : Option Mose :=
  match lo with
  | 0x0 => some (let (m, s) := imm s; LDY m.value s)  -- opcode 0xA0
  | 0x1 => some (let (m, s) := indx s; LDA m.value s)  -- opcode 0xA1
  | 0x2 => some (let (m, s) := imm s; LDX m.value s)  -- opcode 0xA2
  | 0x3 => some (let (m, s) := indx s; LAX m.value s)  -- opcode 0xA3
  | 0x4 => some (let (m, s) := zp s; LDY m.value s)  -- opcode 0xA4
  | 0x5 => some (let (m, s) := zp s; LDA m.value s)  -- opcode 0xA5
  | 0x6 => some (let (m, s) := zp s; LDX m.value s)  -- opcode 0xA6
  | 0x7 => some (let (m, s) := zp s; LAX m.value s)  -- opcode 0xA7
  | 0x8 => some (TAY s)  -- opcode 0xA8
  | 0x9 => some (let (m, s) := imm s; LDA m.value s)  -- opcode 0xA9
  | 0xA => some (TAX s)  -- opcode 0xAA
  | 0xC => some (let (m, s) := abs s; LDY m.value s)  -- opcode 0xAC
  | 0xD => some (let (m, s) := abs s; LDA m.value s)  -- opcode 0xAD
  | 0xE => some (let (m, s) := abs s; LDX m.value s)  -- opcode 0xAE
  | 0xF => some (let (m, s) := abs s; LAX m.value s)  -- opcode 0xAF
  | _ => none

def execRowB (lo : Nat) (s : Mose) : Option Mose :=
  match lo with
  | 0x0 => some (let (m, s) := rel s; BCS m.address s)  -- opcode 0xB0
  | 0x1 => some (let (m, s) := indy s; LDA m.value (pxBump m s))  -- opcode 0xB1
  | 0x3 => some (let (m, s) := indy s; LAX m.value (pxBump m s))  -- opcode 0xB3
  | 0x4 => some (let (m, s) := zpx s; LDY m.value s)  -- opcode 0xB4
  | 0x5 => some (let (m, s) := zpx s; LDA m.value s)  -- opcode 0xB5
  | 0x6 => some (let (m, s) := zpy s; LDX m.value s)  -- opcode 0xB6
  | 0x7 => some (let (m, s) := zpy s; LAX m.value s)  -- opcode 0xB7
  | 0x8 => some (CLV s)  -- opcode 0xB8
  | 0x9 => some (let (m, s) := absy s; LDA m.value (pxBump m s))  -- opcode 0xB9
  | 0xA => some (TSX s)  -- opcode 0xBA
  | 0xC => some (let (m, s) := absx s; LDY m.value (pxBump m s))  -- opcode 0xBC
  | 0xD => some (let (m, s) := absx s; LDA m.value (pxBump m s))  -- opcode 0xBD
  | 0xE => some (let (m, s) := absy s; LDX m.value (pxBump m s))  -- opcode 0xBE
  | 0xF => some (let (m, s) := absy s; LAX m.value (pxBump m s))  -- opcode 0xBF
  | _ => none

def execRowC (lo : Nat) (s : Mose) : Option Mose :=
  match lo with
  | 0x0 => some (let (m, s) := imm s; CPY m.value s)  -- opcode 0xC0
  | 0x1 => some (let (m, s) := indx s; CMP m.value s)  -- opcode 0xC1
  | 0x2 => some (let (_, s) := imm s; NOP s)  -- opcode 0xC2
  | 0x3 => some (let (m, s) := indx s; DCP m.address s)  -- opcode 0xC3
  | 0x4 => some (let (m, s) := zp s; CPY m.value s)  -- opcode 0xC4
  | 0x5 => some (let (m, s) := zp s; CMP m.value s)  -- opcode 0xC5
  | 0x6 => some (let (m, s) := zp s; DEC m.address s)  -- opcode 0xC6
  | 0x7 => some (let (m, s) := zp s; DCP m.address s)  -- opcode 0xC7
  | 0x8 => some (INY s)  -- opcode 0xC8
  | 0x9 => some (let (m, s) := imm s; CMP m.value s)  -- opcode 0xC9
  | 0xA => some (DEX s)  -- opcode 0xCA
  | 0xB => some (let (m, s) := imm s; AXS m.value s)  -- opcode 0xCB
  | 0xC => some (let (m, s) := abs s; CPY m.value s)  -- opcode 0xCC
  | 0xD => some (let (m, s) := abs s; CMP m.value s)  -- opcode 0xCD
  | 0xE => some (let (m, s) := abs s; DEC m.address s)  -- opcode 0xCE
  | 0xF => some (let (m, s) := abs s; DCP m.address s)  -- opcode 0xCF
  | _ => none

def execRowD (lo : Nat) (s : Mose) : Option Mose :=
  match lo with
  | 0x0 => some (let (m, s) := rel s; BNE m.address s)  -- opcode 0xD0
  | 0x1 => some (let (m, s) := indy s; CMP m.value (pxBump m s))  -- opcode 0xD1
  | 0x3 => some (let (m, s) := indy s; DCP m.address s)  -- opcode 0xD3
  | 0x4 => some (let (_, s) := zpx s; NOP s)  -- opcode 0xD4
  | 0x5 => some (let (m, s) := zpx s; CMP m.value s)  -- opcode 0xD5
  | 0x6 => some (let (m, s) := zpx s; DEC m.address s)  -- opcode 0xD6
  | 0x7 => some (let (m, s) := zpx s; DCP m.address s)  -- opcode 0xD7
  | 0x8 => some (CLD s)  -- opcode 0xD8
  | 0x9 => some (let (m, s) := absy s; CMP m.value (pxBump m s))  -- opcode 0xD9
  | 0xA => some (NOP s)  -- opcode 0xDA
  | 0xB => some (let (m, s) := absy s; DCP m.address s)  -- opcode 0xDB
  | 0xC => some (let (m, s) := absx s; NOP (pxBump m s))  -- opcode 0xDC
  | 0xD => some (let (m, s) := absx s; CMP m.value (pxBump m s))  -- opcode 0xDD
  | 0xE => some (let (m, s) := absx s; DEC m.address s)  -- opcode 0xDE
  | 0xF => some (let (m, s) := absx s; DCP m.address s)  -- opcode 0xDF
  | _ => none

def execRowE (lo : Nat) (s : Mose) : Option Mose :=
  match lo with
  | 0x0 => some (let (m, s) := imm s; CPX m.value s)  -- opcode 0xE0
  | 0x1 => some (let (m, s) := indx s; SBC m.value s)  -- opcode 0xE1
  | 0x2 => some (let (_, s) := imm s; NOP s)  -- opcode 0xE2
  | 0x3 => some (let (m, s) := indx s; ISC m.address s)  -- opcode 0xE3
  | 0x4 => some (let (m, s) := zp s; CPX m.value s)  -- opcode 0xE4
  | 0x5 => some (let (m, s) := zp s; SBC m.value s)  -- opcode 0xE5
  | 0x6 => some (let (m, s) := zp s; INC m.address s)  -- opcode 0xE6
  | 0x7 => some (let (m, s) := zp s; ISC m.address s)  -- opcode 0xE7
  | 0x8 => some (INX s)  -- opcode 0xE8
  | 0x9 => some (let (m, s) := imm s; SBC m.value s)  -- opcode 0xE9
  | 0xA => some (NOP s)  -- opcode 0xEA
  | 0xC => some (let (m, s) := abs s; CPX m.value s)  -- opcode 0xEC
  | 0xD => some (let (m, s) := abs s; SBC m.value s)  -- opcode 0xED
  | 0xE => some (let (m, s) := abs s; INC m.address s)  -- opcode 0xEE
  | 0xF => some (let (m, s) := abs s; ISC m.address s)  -- opcode 0xEF
  | _ => none

def execRowF (lo : Nat) (s : Mose) : Option Mose :=
  match lo with
  | 0x0 => some (let (m, s) := rel s; BEQ m.address s)  -- opcode 0xF0
  | 0x1 => some (let (m, s) := indy s; SBC m.value (pxBump m s))  -- opcode 0xF1
  | 0x3 => some (let (m, s) := indy s; ISC m.address s)  -- opcode 0xF3
  | 0x4 => some (let (_, s) := zpx s; NOP s)  -- opcode 0xF4
  | 0x5 => some (let (m, s) := zpx s; SBC m.value s)  -- opcode 0xF5
  | 0x6 => some (let (m, s) := zpx s; INC m.address s)  -- opcode 0xF6
  | 0x7 => some (let (m, s) := zpx s; ISC m.address s)  -- opcode 0xF7
  | 0x8 => some (SED s)  -- opcode 0xF8
  | 0x9 => some (let (m, s) := absy s; SBC m.value (pxBump m s))  -- opcode 0xF9
  | 0xA => some (NOP s)  -- opcode 0xFA
  | 0xB => some (let (m, s) := absy s; ISC m.address s)  -- opcode 0xFB
  | 0xC => some (let (m, s) := absx s; NOP (pxBump m s))  -- opcode 0xFC
  | 0xD => some (let (m, s) := absx s; SBC m.value (pxBump m s))  -- opcode 0xFD
  | 0xE => some (let (m, s) := absx s; INC m.address s)  -- opcode 0xFE
  | 0xF => some (let (m, s) := absx s; ISC m.address s)  -- opcode 0xFF
  | _ => none

/-- The instruction dispatch lookup, JS
`this.instructionMap[this.opcode & 0xFF]`, split by high nibble. -/
def execAssigned (op : Nat) (s : Mose) : Option Mose :=
  match op >>> 4 with
  | 0x0 => execRow0 (op &&& 0xF) s
  | 0x1 => execRow1 (op &&& 0xF) s
  | 0x2 => execRow2 (op &&& 0xF) s
  | 0x3 => execRow3 (op &&& 0xF) s
  | 0x4 => execRow4 (op &&& 0xF) s
  | 0x5 => execRow5 (op &&& 0xF) s
  | 0x6 => execRow6 (op &&& 0xF) s
  | 0x7 => execRow7 (op &&& 0xF) s
  | 0x8 => execRow8 (op &&& 0xF) s
  | 0x9 => execRow9 (op &&& 0xF) s
  | 0xA => execRowA (op &&& 0xF) s
  | 0xB => execRowB (op &&& 0xF) s
  | 0xC => execRowC (op &&& 0xF) s
  | 0xD => execRowD (op &&& 0xF) s
  | 0xE => execRowE (op &&& 0xF) s
  | 0xF => execRowF (op &&& 0xF) s
  | _ => none

/-- One-below on a 16-bit value: JS `(x - 1) & 0xFFFF` on a non-negative
number equals `(x + 0xFFFF) % 0x10000`. -/
def dec16 (x : Nat) : Nat :=
  (x + 0xFFFF) % 0x10000

/-- The fetch-decode-execute part of JS `step()`, run when no break is
latched and no NMI is serviced: fetch the opcode, load the base cycle
cost, run the handler (KIL handlers rewind PC), then accumulate the
cycles into `totalCycles`. -/
def stepNormal (s : Mose) : Mose :=
  let op := s.read s.PC
  let s := { s with opcode := op, PC := s.PC + 1 }
  let s := { s with cycles := cycleTable op }
  let s :=
    match execAssigned (op &&& 0xFF) s with
    | some t => t
    | none => { s with PC := dec16 s.PC }
  { s with totalCycles := s.totalCycles + s.cycles }

/-- JS `step()`: consume a latched break, else service a latched NMI,
else run one instruction.  The JS return value is the `cycles` field of
the resulting state. -/
def step (s : Mose) : Mose :=
  if s.breakFlag then { s with breakFlag := false }
  else
    match s.handleNMI with
    | some t => t
    | none => stepNormal s

/-- Fuel-indexed image of the JS `runCycles(target)` while loop; the fuel
only bounds the number of iterations, and the lemmas below show the loop
in fact always exits by its own condition within the supplied fuel. -/
def runCyclesAux (goal : Nat) : Nat -> Mose -> Mose
  | 0, s => s
  | fuel + 1, s => if s.totalCycles < goal then runCyclesAux goal fuel (step s) else s

/-- JS `runCycles(target)`: step until `totalCycles` reaches
`start + target`.  The JS return value `totalCycles - start` is read off
the resulting state.  The fuel `target + 1` never binds: at most the
first iteration can consume a pending break latch without advancing
`totalCycles` (`step` clears the latch and never sets it), and every
other iteration advances `totalCycles` by at least 2, so the loop exits
by its own condition within `target + 1` iterations from every state. -/
def runCycles (target : Nat) (s : Mose) : Mose :=
  runCyclesAux (s.totalCycles + target) (target + 1) s

/-- JS `reset()`: zero the registers and flags, force I = 1, load PC from
the reset vector at 0xFFFC/0xFFFD, charge 7 cycles and clear the break
and NMI latches. -/
def reset (s : Mose) : Mose :=
  let s := { s with A := 0, X := 0, Y := 0, S := 0xFF,
                    C := 0, Z := 0, I := 0, D := 0, B := 0, V := 0, N := 0 }
  let s := { s with I := 1 }
  let s := { s with B := 0 }
  let lo := s.read 0xFFFC
  let hi := s.read 0xFFFD
  let s := { s with PC := ((hi <<< 8) ||| lo) &&& 0xFFFF }
  { s with cycles := 7, totalCycles := s.totalCycles + 7,
           breakFlag := false, nmiPending := false, nmiEdge := false }

end Mose

/-- Constructor state, JS `new mose(64)`: a zeroed 64KB `Uint8Array`,
zeroed registers and flags, S = 0xFF, the JMP-bug toggle on and all
latches clear. -/
def initMose : Mose :=
  { ramLen := 0x10000, ram := fun _ => 0,
    A := 0, X := 0, Y := 0, PC := 0, S := 0xFF,
    C := 0, Z := 0, I := 0, D := 0, B := 0, V := 0, N := 0,
    opcode := 0, cycles := 0, totalCycles := 0,
    emulateIndirectJMPBug := true,
    breakFlag := false, nmiPending := false, nmiEdge := false }


/-- Pointer word fetched by the indirect addressing mode: the little-endian
word at PC/PC+1, masked to 16 bits (the `ptr` local of JS `ind()`). -/
def Mose.indPtr (s : Mose) : Nat :=
  ((s.read (s.PC + 1)) <<< 8 ||| s.read s.PC) &&& 0xFFFF

/-- Frame property of a dispatch handler: it never lowers `cycles` and
never touches `breakFlag`, `nmiEdge` or `totalCycles`. -/
def Mose.KeepsFrame (s t : Mose) : Prop :=
  s.cycles ≤ t.cycles ∧ t.breakFlag = s.breakFlag ∧ t.nmiEdge = s.nmiEdge ∧
    t.totalCycles = s.totalCycles

/-- Test memory holding an NMI vector of 0x1234 at 0xFFFA/0xFFFB. -/
def nmiTestRam : Nat → Nat := fun a =>
  if a = 0xFFFA then 0x34 else if a = 0xFFFB then 0x12 else 0

/-- Fresh CPU with the program counter at 0x0600 and `nmiTestRam`. -/
def c1State : Mose := { initMose with PC := 0x0600, ram := nmiTestRam }

/-- Test memory holding `ADC #$01` at 0x0600. -/
def c2Ram : Nat → Nat := fun a =>
  if a = 0x0600 then 0x69 else if a = 0x0601 then 0x01 else 0

/-- CPU about to execute `ADC #$01` with A = 0x09 in decimal mode. -/
def c2State : Mose := { initMose with A := 0x09, D := 1, PC := 0x0600, ram := c2Ram }

/-- Test memory holding `JMP ($02FF)` at 0x0600 with pointer bytes 0x11 at
0x02FF, 0x22 at 0x0300 and 0x33 at 0x0200. -/
def c3Ram : Nat → Nat := fun a =>
  if a = 0x0600 then 0x6C else if a = 0x0601 then 0xFF else if a = 0x0602 then 0x02
  else if a = 0x02FF then 0x11 else if a = 0x0300 then 0x22
  else if a = 0x0200 then 0x33 else 0

/-- CPU running the indirect jump of `c3Ram`, as seen by the `ind`
resolver itself: the JMP opcode at 0x0600 has been fetched, so PC points
at the pointer bytes. -/
def c3State : Mose := { initMose with PC := 0x0601, ram := c3Ram }

/-- Test memory holding `LDA $12F0,X` at 0x0600 and 0x77 at 0x1310. -/
def c4LdaRam : Nat → Nat := fun a =>
  if a = 0x0600 then 0xBD else if a = 0x0601 then 0xF0 else if a = 0x0602 then 0x12
  else if a = 0x1310 then 0x77 else 0

/-- CPU with X = 0x20 about to run the page-crossing `LDA $12F0,X`. -/
def c4LdaState : Mose := { initMose with PC := 0x0600, X := 0x20, ram := c4LdaRam }

/-- Test memory holding `STA $12F0,X` at 0x0600. -/
def c4StaRam : Nat → Nat := fun a =>
  if a = 0x0600 then 0x9D else if a = 0x0601 then 0xF0 else if a = 0x0602 then 0x12 else 0

/-- CPU with X = 0x20 about to run the page-crossing `STA $12F0,X`. -/
def c4StaState : Mose := { initMose with PC := 0x0600, X := 0x20, ram := c4StaRam }

/-- Test memory holding a NOP (0xEA) at the very last address 0xFFFF. -/
def c7Ram : Nat → Nat := fun a => if a = 0xFFFF then 0xEA else 0

/-- CPU about to fetch the NOP sitting at 0xFFFF. -/
def c7State : Mose := { initMose with PC := 0xFFFF, ram := c7Ram }

/-- CPU about to fetch the unassigned (KIL) opcode 0x02 at 0x0700. -/
def c8State : Mose :=
  { initMose with PC := 0x0700, ram := fun a => if a = 0x0700 then 0x02 else 0 }

/-- Test memory with the reset vector pointing at 0x0600 and a PHA (0x48)
there. -/
def c10Ram : Nat → Nat := fun a =>
  if a = 0xFFFC then 0x00 else if a = 0xFFFD then 0x06
  else if a = 0x0600 then 0x48 else 0

/-- CPU whose reset vector leads to a PHA instruction. -/
def c10State : Mose := { initMose with ram := c10Ram, A := 0x42 }

/-- Test memory with the reset vector pointing at 0x0600 and a NOP (0xEA)
there. -/
def c10NopRam : Nat → Nat := fun a =>
  if a = 0xFFFC then 0x00 else if a = 0xFFFD then 0x06
  else if a = 0x0600 then 0xEA else 0

/-- CPU whose reset vector leads to a NOP instruction. -/
def c10NopState : Mose := { initMose with ram := c10NopRam }

namespace Mose

/-!
Projection lemmas: none of the primitive state helpers or instruction
operations touches the `cycles`, `breakFlag`, `nmiEdge` or `totalCycles`
fields, except for the branch operations and the page-cross bump, which
only ever increase `cycles`.  These feed the frame lemma for the dispatch
table used by the `runCycles` analysis.
-/

@[simp] theorem write_ramLen (s : Mose) (a v : Nat) :
    (s.write a v).ramLen = s.ramLen := by simp only [write]; split <;> rfl

@[simp] theorem write_A (s : Mose) (a v : Nat) :
    (s.write a v).A = s.A := by simp only [write]; split <;> rfl

@[simp] theorem write_X (s : Mose) (a v : Nat) :
    (s.write a v).X = s.X := by simp only [write]; split <;> rfl

@[simp] theorem write_Y (s : Mose) (a v : Nat) :
    (s.write a v).Y = s.Y := by simp only [write]; split <;> rfl

@[simp] theorem write_PC (s : Mose) (a v : Nat) :
    (s.write a v).PC = s.PC := by simp only [write]; split <;> rfl

@[simp] theorem write_S (s : Mose) (a v : Nat) :
    (s.write a v).S = s.S := by simp only [write]; split <;> rfl

@[simp] theorem write_C (s : Mose) (a v : Nat) :
    (s.write a v).C = s.C := by simp only [write]; split <;> rfl

@[simp] theorem write_Z (s : Mose) (a v : Nat) :
    (s.write a v).Z = s.Z := by simp only [write]; split <;> rfl

@[simp] theorem write_I (s : Mose) (a v : Nat) :
    (s.write a v).I = s.I := by simp only [write]; split <;> rfl

@[simp] theorem write_D (s : Mose) (a v : Nat) :
    (s.write a v).D = s.D := by simp only [write]; split <;> rfl

@[simp] theorem write_B (s : Mose) (a v : Nat) :
    (s.write a v).B = s.B := by simp only [write]; split <;> rfl

@[simp] theorem write_V (s : Mose) (a v : Nat) :
    (s.write a v).V = s.V := by simp only [write]; split <;> rfl

@[simp] theorem write_N (s : Mose) (a v : Nat) :
    (s.write a v).N = s.N := by simp only [write]; split <;> rfl

@[simp] theorem write_opcode (s : Mose) (a v : Nat) :
    (s.write a v).opcode = s.opcode := by simp only [write]; split <;> rfl

@[simp] theorem write_cycles (s : Mose) (a v : Nat) :
    (s.write a v).cycles = s.cycles := by simp only [write]; split <;> rfl

@[simp] theorem write_totalCycles (s : Mose) (a v : Nat) :
    (s.write a v).totalCycles = s.totalCycles := by simp only [write]; split <;> rfl

@[simp] theorem write_emulateIndirectJMPBug (s : Mose) (a v : Nat) :
    (s.write a v).emulateIndirectJMPBug = s.emulateIndirectJMPBug := by simp only [write]; split <;> rfl

@[simp] theorem write_breakFlag (s : Mose) (a v : Nat) :
    (s.write a v).breakFlag = s.breakFlag := by simp only [write]; split <;> rfl

@[simp] theorem write_nmiPending (s : Mose) (a v : Nat) :
    (s.write a v).nmiPending = s.nmiPending := by simp only [write]; split <;> rfl

@[simp] theorem write_nmiEdge (s : Mose) (a v : Nat) :
    (s.write a v).nmiEdge = s.nmiEdge := by simp only [write]; split <;> rfl

@[simp] theorem push_ramLen (s : Mose) (v : Nat) :
    (s.push v).ramLen = s.ramLen := by simp [push]

@[simp] theorem push_A (s : Mose) (v : Nat) :
    (s.push v).A = s.A := by simp [push]

@[simp] theorem push_X (s : Mose) (v : Nat) :
    (s.push v).X = s.X := by simp [push]

@[simp] theorem push_Y (s : Mose) (v : Nat) :
    (s.push v).Y = s.Y := by simp [push]

@[simp] theorem push_PC (s : Mose) (v : Nat) :
    (s.push v).PC = s.PC := by simp [push]

@[simp] theorem push_C (s : Mose) (v : Nat) :
    (s.push v).C = s.C := by simp [push]

@[simp] theorem push_Z (s : Mose) (v : Nat) :
    (s.push v).Z = s.Z := by simp [push]

@[simp] theorem push_I (s : Mose) (v : Nat) :
    (s.push v).I = s.I := by simp [push]

@[simp] theorem push_D (s : Mose) (v : Nat) :
    (s.push v).D = s.D := by simp [push]

@[simp] theorem push_B (s : Mose) (v : Nat) :
    (s.push v).B = s.B := by simp [push]

@[simp] theorem push_V (s : Mose) (v : Nat) :
    (s.push v).V = s.V := by simp [push]

@[simp] theorem push_N (s : Mose) (v : Nat) :
    (s.push v).N = s.N := by simp [push]

@[simp] theorem push_opcode (s : Mose) (v : Nat) :
    (s.push v).opcode = s.opcode := by simp [push]

@[simp] theorem push_cycles (s : Mose) (v : Nat) :
    (s.push v).cycles = s.cycles := by simp [push]

@[simp] theorem push_totalCycles (s : Mose) (v : Nat) :
    (s.push v).totalCycles = s.totalCycles := by simp [push]

@[simp] theorem push_emulateIndirectJMPBug (s : Mose) (v : Nat) :
    (s.push v).emulateIndirectJMPBug = s.emulateIndirectJMPBug := by simp [push]

@[simp] theorem push_breakFlag (s : Mose) (v : Nat) :
    (s.push v).breakFlag = s.breakFlag := by simp [push]

@[simp] theorem push_nmiPending (s : Mose) (v : Nat) :
    (s.push v).nmiPending = s.nmiPending := by simp [push]

@[simp] theorem push_nmiEdge (s : Mose) (v : Nat) :
    (s.push v).nmiEdge = s.nmiEdge := by simp [push]

@[simp] theorem pop_snd_ramLen (s : Mose) :
    (s.pop.2).ramLen = s.ramLen := by simp [pop]

@[simp] theorem pop_snd_A (s : Mose) :
    (s.pop.2).A = s.A := by simp [pop]

@[simp] theorem pop_snd_X (s : Mose) :
    (s.pop.2).X = s.X := by simp [pop]

@[simp] theorem pop_snd_Y (s : Mose) :
    (s.pop.2).Y = s.Y := by simp [pop]

@[simp] theorem pop_snd_PC (s : Mose) :
    (s.pop.2).PC = s.PC := by simp [pop]

@[simp] theorem pop_snd_C (s : Mose) :
    (s.pop.2).C = s.C := by simp [pop]

@[simp] theorem pop_snd_Z (s : Mose) :
    (s.pop.2).Z = s.Z := by simp [pop]

@[simp] theorem pop_snd_I (s : Mose) :
    (s.pop.2).I = s.I := by simp [pop]

@[simp] theorem pop_snd_D (s : Mose) :
    (s.pop.2).D = s.D := by simp [pop]

@[simp] theorem pop_snd_B (s : Mose) :
    (s.pop.2).B = s.B := by simp [pop]

@[simp] theorem pop_snd_V (s : Mose) :
    (s.pop.2).V = s.V := by simp [pop]

@[simp] theorem pop_snd_N (s : Mose) :
    (s.pop.2).N = s.N := by simp [pop]

@[simp] theorem pop_snd_opcode (s : Mose) :
    (s.pop.2).opcode = s.opcode := by simp [pop]

@[simp] theorem pop_snd_cycles (s : Mose) :
    (s.pop.2).cycles = s.cycles := by simp [pop]

@[simp] theorem pop_snd_totalCycles (s : Mose) :
    (s.pop.2).totalCycles = s.totalCycles := by simp [pop]

@[simp] theorem pop_snd_emulateIndirectJMPBug (s : Mose) :
    (s.pop.2).emulateIndirectJMPBug = s.emulateIndirectJMPBug := by simp [pop]

@[simp] theorem pop_snd_breakFlag (s : Mose) :
    (s.pop.2).breakFlag = s.breakFlag := by simp [pop]

@[simp] theorem pop_snd_nmiPending (s : Mose) :
    (s.pop.2).nmiPending = s.nmiPending := by simp [pop]

@[simp] theorem pop_snd_nmiEdge (s : Mose) :
    (s.pop.2).nmiEdge = s.nmiEdge := by simp [pop]

@[simp] theorem setZN_ramLen (s : Mose) (v : Nat) :
    (s.setZN v).ramLen = s.ramLen := by simp [setZN]

@[simp] theorem setZN_A (s : Mose) (v : Nat) :
    (s.setZN v).A = s.A := by simp [setZN]

@[simp] theorem setZN_X (s : Mose) (v : Nat) :
    (s.setZN v).X = s.X := by simp [setZN]

@[simp] theorem setZN_Y (s : Mose) (v : Nat) :
    (s.setZN v).Y = s.Y := by simp [setZN]

@[simp] theorem setZN_PC (s : Mose) (v : Nat) :
    (s.setZN v).PC = s.PC := by simp [setZN]

@[simp] theorem setZN_S (s : Mose) (v : Nat) :
    (s.setZN v).S = s.S := by simp [setZN]

@[simp] theorem setZN_C (s : Mose) (v : Nat) :
    (s.setZN v).C = s.C := by simp [setZN]

@[simp] theorem setZN_I (s : Mose) (v : Nat) :
    (s.setZN v).I = s.I := by simp [setZN]

@[simp] theorem setZN_D (s : Mose) (v : Nat) :
    (s.setZN v).D = s.D := by simp [setZN]

@[simp] theorem setZN_B (s : Mose) (v : Nat) :
    (s.setZN v).B = s.B := by simp [setZN]

@[simp] theorem setZN_V (s : Mose) (v : Nat) :
    (s.setZN v).V = s.V := by simp [setZN]

@[simp] theorem setZN_opcode (s : Mose) (v : Nat) :
    (s.setZN v).opcode = s.opcode := by simp [setZN]

@[simp] theorem setZN_cycles (s : Mose) (v : Nat) :
    (s.setZN v).cycles = s.cycles := by simp [setZN]

@[simp] theorem setZN_totalCycles (s : Mose) (v : Nat) :
    (s.setZN v).totalCycles = s.totalCycles := by simp [setZN]

@[simp] theorem setZN_emulateIndirectJMPBug (s : Mose) (v : Nat) :
    (s.setZN v).emulateIndirectJMPBug = s.emulateIndirectJMPBug := by simp [setZN]

@[simp] theorem setZN_breakFlag (s : Mose) (v : Nat) :
    (s.setZN v).breakFlag = s.breakFlag := by simp [setZN]

@[simp] theorem setZN_nmiPending (s : Mose) (v : Nat) :
    (s.setZN v).nmiPending = s.nmiPending := by simp [setZN]

@[simp] theorem setZN_nmiEdge (s : Mose) (v : Nat) :
    (s.setZN v).nmiEdge = s.nmiEdge := by simp [setZN]

@[simp] theorem setStatus_ramLen (s : Mose) (v : Nat) :
    (s.setStatus v).ramLen = s.ramLen := by simp [setStatus]

@[simp] theorem setStatus_A (s : Mose) (v : Nat) :
    (s.setStatus v).A = s.A := by simp [setStatus]

@[simp] theorem setStatus_X (s : Mose) (v : Nat) :
    (s.setStatus v).X = s.X := by simp [setStatus]

@[simp] theorem setStatus_Y (s : Mose) (v : Nat) :
    (s.setStatus v).Y = s.Y := by simp [setStatus]

@[simp] theorem setStatus_PC (s : Mose) (v : Nat) :
    (s.setStatus v).PC = s.PC := by simp [setStatus]

@[simp] theorem setStatus_S (s : Mose) (v : Nat) :
    (s.setStatus v).S = s.S := by simp [setStatus]

@[simp] theorem setStatus_opcode (s : Mose) (v : Nat) :
    (s.setStatus v).opcode = s.opcode := by simp [setStatus]

@[simp] theorem setStatus_cycles (s : Mose) (v : Nat) :
    (s.setStatus v).cycles = s.cycles := by simp [setStatus]

@[simp] theorem setStatus_totalCycles (s : Mose) (v : Nat) :
    (s.setStatus v).totalCycles = s.totalCycles := by simp [setStatus]

@[simp] theorem setStatus_emulateIndirectJMPBug (s : Mose) (v : Nat) :
    (s.setStatus v).emulateIndirectJMPBug = s.emulateIndirectJMPBug := by simp [setStatus]

@[simp] theorem setStatus_breakFlag (s : Mose) (v : Nat) :
    (s.setStatus v).breakFlag = s.breakFlag := by simp [setStatus]

@[simp] theorem setStatus_nmiPending (s : Mose) (v : Nat) :
    (s.setStatus v).nmiPending = s.nmiPending := by simp [setStatus]

@[simp] theorem setStatus_nmiEdge (s : Mose) (v : Nat) :
    (s.setStatus v).nmiEdge = s.nmiEdge := by simp [setStatus]

@[simp] theorem TAX_cycles (s : Mose) :
    (TAX s).cycles = s.cycles := by simp [TAX, pop]

@[simp] theorem TAX_breakFlag (s : Mose) :
    (TAX s).breakFlag = s.breakFlag := by simp [TAX, pop]

@[simp] theorem TAX_nmiEdge (s : Mose) :
    (TAX s).nmiEdge = s.nmiEdge := by simp [TAX, pop]

@[simp] theorem TAX_totalCycles (s : Mose) :
    (TAX s).totalCycles = s.totalCycles := by simp [TAX, pop]

@[simp] theorem TXA_cycles (s : Mose) :
    (TXA s).cycles = s.cycles := by simp [TXA, pop]

@[simp] theorem TXA_breakFlag (s : Mose) :
    (TXA s).breakFlag = s.breakFlag := by simp [TXA, pop]

@[simp] theorem TXA_nmiEdge (s : Mose) :
    (TXA s).nmiEdge = s.nmiEdge := by simp [TXA, pop]

@[simp] theorem TXA_totalCycles (s : Mose) :
    (TXA s).totalCycles = s.totalCycles := by simp [TXA, pop]

@[simp] theorem TAY_cycles (s : Mose) :
    (TAY s).cycles = s.cycles := by simp [TAY, pop]

@[simp] theorem TAY_breakFlag (s : Mose) :
    (TAY s).breakFlag = s.breakFlag := by simp [TAY, pop]

@[simp] theorem TAY_nmiEdge (s : Mose) :
    (TAY s).nmiEdge = s.nmiEdge := by simp [TAY, pop]

@[simp] theorem TAY_totalCycles (s : Mose) :
    (TAY s).totalCycles = s.totalCycles := by simp [TAY, pop]

@[simp] theorem TYA_cycles (s : Mose) :
    (TYA s).cycles = s.cycles := by simp [TYA, pop]

@[simp] theorem TYA_breakFlag (s : Mose) :
    (TYA s).breakFlag = s.breakFlag := by simp [TYA, pop]

@[simp] theorem TYA_nmiEdge (s : Mose) :
    (TYA s).nmiEdge = s.nmiEdge := by simp [TYA, pop]

@[simp] theorem TYA_totalCycles (s : Mose) :
    (TYA s).totalCycles = s.totalCycles := by simp [TYA, pop]

@[simp] theorem TSX_cycles (s : Mose) :
    (TSX s).cycles = s.cycles := by simp [TSX, pop]

@[simp] theorem TSX_breakFlag (s : Mose) :
    (TSX s).breakFlag = s.breakFlag := by simp [TSX, pop]

@[simp] theorem TSX_nmiEdge (s : Mose) :
    (TSX s).nmiEdge = s.nmiEdge := by simp [TSX, pop]

@[simp] theorem TSX_totalCycles (s : Mose) :
    (TSX s).totalCycles = s.totalCycles := by simp [TSX, pop]

@[simp] theorem TXS_cycles (s : Mose) :
    (TXS s).cycles = s.cycles := by simp [TXS, pop]

@[simp] theorem TXS_breakFlag (s : Mose) :
    (TXS s).breakFlag = s.breakFlag := by simp [TXS, pop]

@[simp] theorem TXS_nmiEdge (s : Mose) :
    (TXS s).nmiEdge = s.nmiEdge := by simp [TXS, pop]

@[simp] theorem TXS_totalCycles (s : Mose) :
    (TXS s).totalCycles = s.totalCycles := by simp [TXS, pop]

@[simp] theorem PHA_cycles (s : Mose) :
    (PHA s).cycles = s.cycles := by simp [PHA, pop]

@[simp] theorem PHA_breakFlag (s : Mose) :
    (PHA s).breakFlag = s.breakFlag := by simp [PHA, pop]

@[simp] theorem PHA_nmiEdge (s : Mose) :
    (PHA s).nmiEdge = s.nmiEdge := by simp [PHA, pop]

@[simp] theorem PHA_totalCycles (s : Mose) :
    (PHA s).totalCycles = s.totalCycles := by simp [PHA, pop]

@[simp] theorem PLA_cycles (s : Mose) :
    (PLA s).cycles = s.cycles := by simp [PLA, pop]

@[simp] theorem PLA_breakFlag (s : Mose) :
    (PLA s).breakFlag = s.breakFlag := by simp [PLA, pop]

@[simp] theorem PLA_nmiEdge (s : Mose) :
    (PLA s).nmiEdge = s.nmiEdge := by simp [PLA, pop]

@[simp] theorem PLA_totalCycles (s : Mose) :
    (PLA s).totalCycles = s.totalCycles := by simp [PLA, pop]

@[simp] theorem PHP_cycles (s : Mose) :
    (PHP s).cycles = s.cycles := by simp [PHP, pop]

@[simp] theorem PHP_breakFlag (s : Mose) :
    (PHP s).breakFlag = s.breakFlag := by simp [PHP, pop]

@[simp] theorem PHP_nmiEdge (s : Mose) :
    (PHP s).nmiEdge = s.nmiEdge := by simp [PHP, pop]

@[simp] theorem PHP_totalCycles (s : Mose) :
    (PHP s).totalCycles = s.totalCycles := by simp [PHP, pop]

@[simp] theorem PLP_cycles (s : Mose) :
    (PLP s).cycles = s.cycles := by simp [PLP, pop]

@[simp] theorem PLP_breakFlag (s : Mose) :
    (PLP s).breakFlag = s.breakFlag := by simp [PLP, pop]

@[simp] theorem PLP_nmiEdge (s : Mose) :
    (PLP s).nmiEdge = s.nmiEdge := by simp [PLP, pop]

@[simp] theorem PLP_totalCycles (s : Mose) :
    (PLP s).totalCycles = s.totalCycles := by simp [PLP, pop]

@[simp] theorem INX_cycles (s : Mose) :
    (INX s).cycles = s.cycles := by simp [INX, pop]

@[simp] theorem INX_breakFlag (s : Mose) :
    (INX s).breakFlag = s.breakFlag := by simp [INX, pop]

@[simp] theorem INX_nmiEdge (s : Mose) :
    (INX s).nmiEdge = s.nmiEdge := by simp [INX, pop]

@[simp] theorem INX_totalCycles (s : Mose) :
    (INX s).totalCycles = s.totalCycles := by simp [INX, pop]

@[simp] theorem DEX_cycles (s : Mose) :
    (DEX s).cycles = s.cycles := by simp [DEX, pop]

@[simp] theorem DEX_breakFlag (s : Mose) :
    (DEX s).breakFlag = s.breakFlag := by simp [DEX, pop]

@[simp] theorem DEX_nmiEdge (s : Mose) :
    (DEX s).nmiEdge = s.nmiEdge := by simp [DEX, pop]

@[simp] theorem DEX_totalCycles (s : Mose) :
    (DEX s).totalCycles = s.totalCycles := by simp [DEX, pop]

@[simp] theorem INY_cycles (s : Mose) :
    (INY s).cycles = s.cycles := by simp [INY, pop]

@[simp] theorem INY_breakFlag (s : Mose) :
    (INY s).breakFlag = s.breakFlag := by simp [INY, pop]

@[simp] theorem INY_nmiEdge (s : Mose) :
    (INY s).nmiEdge = s.nmiEdge := by simp [INY, pop]

@[simp] theorem INY_totalCycles (s : Mose) :
    (INY s).totalCycles = s.totalCycles := by simp [INY, pop]

@[simp] theorem DEY_cycles (s : Mose) :
    (DEY s).cycles = s.cycles := by simp [DEY, pop]

@[simp] theorem DEY_breakFlag (s : Mose) :
    (DEY s).breakFlag = s.breakFlag := by simp [DEY, pop]

@[simp] theorem DEY_nmiEdge (s : Mose) :
    (DEY s).nmiEdge = s.nmiEdge := by simp [DEY, pop]

@[simp] theorem DEY_totalCycles (s : Mose) :
    (DEY s).totalCycles = s.totalCycles := by simp [DEY, pop]

@[simp] theorem CLC_cycles (s : Mose) :
    (CLC s).cycles = s.cycles := by simp [CLC, pop]

@[simp] theorem CLC_breakFlag (s : Mose) :
    (CLC s).breakFlag = s.breakFlag := by simp [CLC, pop]

@[simp] theorem CLC_nmiEdge (s : Mose) :
    (CLC s).nmiEdge = s.nmiEdge := by simp [CLC, pop]

@[simp] theorem CLC_totalCycles (s : Mose) :
    (CLC s).totalCycles = s.totalCycles := by simp [CLC, pop]

@[simp] theorem SEC_cycles (s : Mose) :
    (SEC s).cycles = s.cycles := by simp [SEC, pop]

@[simp] theorem SEC_breakFlag (s : Mose) :
    (SEC s).breakFlag = s.breakFlag := by simp [SEC, pop]

@[simp] theorem SEC_nmiEdge (s : Mose) :
    (SEC s).nmiEdge = s.nmiEdge := by simp [SEC, pop]

@[simp] theorem SEC_totalCycles (s : Mose) :
    (SEC s).totalCycles = s.totalCycles := by simp [SEC, pop]

@[simp] theorem CLI_cycles (s : Mose) :
    (CLI s).cycles = s.cycles := by simp [CLI, pop]

@[simp] theorem CLI_breakFlag (s : Mose) :
    (CLI s).breakFlag = s.breakFlag := by simp [CLI, pop]

@[simp] theorem CLI_nmiEdge (s : Mose) :
    (CLI s).nmiEdge = s.nmiEdge := by simp [CLI, pop]

@[simp] theorem CLI_totalCycles (s : Mose) :
    (CLI s).totalCycles = s.totalCycles := by simp [CLI, pop]

@[simp] theorem SEI_cycles (s : Mose) :
    (SEI s).cycles = s.cycles := by simp [SEI, pop]

@[simp] theorem SEI_breakFlag (s : Mose) :
    (SEI s).breakFlag = s.breakFlag := by simp [SEI, pop]

@[simp] theorem SEI_nmiEdge (s : Mose) :
    (SEI s).nmiEdge = s.nmiEdge := by simp [SEI, pop]

@[simp] theorem SEI_totalCycles (s : Mose) :
    (SEI s).totalCycles = s.totalCycles := by simp [SEI, pop]

@[simp] theorem CLV_cycles (s : Mose) :
    (CLV s).cycles = s.cycles := by simp [CLV, pop]

@[simp] theorem CLV_breakFlag (s : Mose) :
    (CLV s).breakFlag = s.breakFlag := by simp [CLV, pop]

@[simp] theorem CLV_nmiEdge (s : Mose) :
    (CLV s).nmiEdge = s.nmiEdge := by simp [CLV, pop]

@[simp] theorem CLV_totalCycles (s : Mose) :
    (CLV s).totalCycles = s.totalCycles := by simp [CLV, pop]

@[simp] theorem CLD_cycles (s : Mose) :
    (CLD s).cycles = s.cycles := by simp [CLD, pop]

@[simp] theorem CLD_breakFlag (s : Mose) :
    (CLD s).breakFlag = s.breakFlag := by simp [CLD, pop]

@[simp] theorem CLD_nmiEdge (s : Mose) :
    (CLD s).nmiEdge = s.nmiEdge := by simp [CLD, pop]

@[simp] theorem CLD_totalCycles (s : Mose) :
    (CLD s).totalCycles = s.totalCycles := by simp [CLD, pop]

@[simp] theorem SED_cycles (s : Mose) :
    (SED s).cycles = s.cycles := by simp [SED, pop]

@[simp] theorem SED_breakFlag (s : Mose) :
    (SED s).breakFlag = s.breakFlag := by simp [SED, pop]

@[simp] theorem SED_nmiEdge (s : Mose) :
    (SED s).nmiEdge = s.nmiEdge := by simp [SED, pop]

@[simp] theorem SED_totalCycles (s : Mose) :
    (SED s).totalCycles = s.totalCycles := by simp [SED, pop]

@[simp] theorem NOP_cycles (s : Mose) :
    (NOP s).cycles = s.cycles := by simp [NOP, pop]

@[simp] theorem NOP_breakFlag (s : Mose) :
    (NOP s).breakFlag = s.breakFlag := by simp [NOP, pop]

@[simp] theorem NOP_nmiEdge (s : Mose) :
    (NOP s).nmiEdge = s.nmiEdge := by simp [NOP, pop]

@[simp] theorem NOP_totalCycles (s : Mose) :
    (NOP s).totalCycles = s.totalCycles := by simp [NOP, pop]

@[simp] theorem RTS_cycles (s : Mose) :
    (RTS s).cycles = s.cycles := by simp [RTS, pop]

@[simp] theorem RTS_breakFlag (s : Mose) :
    (RTS s).breakFlag = s.breakFlag := by simp [RTS, pop]

@[simp] theorem RTS_nmiEdge (s : Mose) :
    (RTS s).nmiEdge = s.nmiEdge := by simp [RTS, pop]

@[simp] theorem RTS_totalCycles (s : Mose) :
    (RTS s).totalCycles = s.totalCycles := by simp [RTS, pop]

@[simp] theorem BRK_cycles (s : Mose) :
    (BRK s).cycles = s.cycles := by simp [BRK, pop]

@[simp] theorem BRK_breakFlag (s : Mose) :
    (BRK s).breakFlag = s.breakFlag := by simp [BRK, pop]

@[simp] theorem BRK_nmiEdge (s : Mose) :
    (BRK s).nmiEdge = s.nmiEdge := by simp [BRK, pop]

@[simp] theorem BRK_totalCycles (s : Mose) :
    (BRK s).totalCycles = s.totalCycles := by simp [BRK, pop]

@[simp] theorem RTI_cycles (s : Mose) :
    (RTI s).cycles = s.cycles := by simp [RTI, pop]

@[simp] theorem RTI_breakFlag (s : Mose) :
    (RTI s).breakFlag = s.breakFlag := by simp [RTI, pop]

@[simp] theorem RTI_nmiEdge (s : Mose) :
    (RTI s).nmiEdge = s.nmiEdge := by simp [RTI, pop]

@[simp] theorem RTI_totalCycles (s : Mose) :
    (RTI s).totalCycles = s.totalCycles := by simp [RTI, pop]

@[simp] theorem ASL_A_cycles (s : Mose) :
    (ASL_A s).cycles = s.cycles := by simp [ASL_A]

@[simp] theorem ASL_A_breakFlag (s : Mose) :
    (ASL_A s).breakFlag = s.breakFlag := by simp [ASL_A]

@[simp] theorem ASL_A_nmiEdge (s : Mose) :
    (ASL_A s).nmiEdge = s.nmiEdge := by simp [ASL_A]

@[simp] theorem ASL_A_totalCycles (s : Mose) :
    (ASL_A s).totalCycles = s.totalCycles := by simp [ASL_A]

@[simp] theorem LSR_A_cycles (s : Mose) :
    (LSR_A s).cycles = s.cycles := by simp [LSR_A]

@[simp] theorem LSR_A_breakFlag (s : Mose) :
    (LSR_A s).breakFlag = s.breakFlag := by simp [LSR_A]

@[simp] theorem LSR_A_nmiEdge (s : Mose) :
    (LSR_A s).nmiEdge = s.nmiEdge := by simp [LSR_A]

@[simp] theorem LSR_A_totalCycles (s : Mose) :
    (LSR_A s).totalCycles = s.totalCycles := by simp [LSR_A]

@[simp] theorem ROL_A_cycles (s : Mose) :
    (ROL_A s).cycles = s.cycles := by simp [ROL_A]

@[simp] theorem ROL_A_breakFlag (s : Mose) :
    (ROL_A s).breakFlag = s.breakFlag := by simp [ROL_A]

@[simp] theorem ROL_A_nmiEdge (s : Mose) :
    (ROL_A s).nmiEdge = s.nmiEdge := by simp [ROL_A]

@[simp] theorem ROL_A_totalCycles (s : Mose) :
    (ROL_A s).totalCycles = s.totalCycles := by simp [ROL_A]

@[simp] theorem ROR_A_cycles (s : Mose) :
    (ROR_A s).cycles = s.cycles := by simp [ROR_A]

@[simp] theorem ROR_A_breakFlag (s : Mose) :
    (ROR_A s).breakFlag = s.breakFlag := by simp [ROR_A]

@[simp] theorem ROR_A_nmiEdge (s : Mose) :
    (ROR_A s).nmiEdge = s.nmiEdge := by simp [ROR_A]

@[simp] theorem ROR_A_totalCycles (s : Mose) :
    (ROR_A s).totalCycles = s.totalCycles := by simp [ROR_A]

@[simp] theorem LDA_cycles (v : Nat) (s : Mose) :
    (LDA v s).cycles = s.cycles := by simp [LDA]

@[simp] theorem LDA_breakFlag (v : Nat) (s : Mose) :
    (LDA v s).breakFlag = s.breakFlag := by simp [LDA]

@[simp] theorem LDA_nmiEdge (v : Nat) (s : Mose) :
    (LDA v s).nmiEdge = s.nmiEdge := by simp [LDA]

@[simp] theorem LDA_totalCycles (v : Nat) (s : Mose) :
    (LDA v s).totalCycles = s.totalCycles := by simp [LDA]

@[simp] theorem LDX_cycles (v : Nat) (s : Mose) :
    (LDX v s).cycles = s.cycles := by simp [LDX]

@[simp] theorem LDX_breakFlag (v : Nat) (s : Mose) :
    (LDX v s).breakFlag = s.breakFlag := by simp [LDX]

@[simp] theorem LDX_nmiEdge (v : Nat) (s : Mose) :
    (LDX v s).nmiEdge = s.nmiEdge := by simp [LDX]

@[simp] theorem LDX_totalCycles (v : Nat) (s : Mose) :
    (LDX v s).totalCycles = s.totalCycles := by simp [LDX]

@[simp] theorem LDY_cycles (v : Nat) (s : Mose) :
    (LDY v s).cycles = s.cycles := by simp [LDY]

@[simp] theorem LDY_breakFlag (v : Nat) (s : Mose) :
    (LDY v s).breakFlag = s.breakFlag := by simp [LDY]

@[simp] theorem LDY_nmiEdge (v : Nat) (s : Mose) :
    (LDY v s).nmiEdge = s.nmiEdge := by simp [LDY]

@[simp] theorem LDY_totalCycles (v : Nat) (s : Mose) :
    (LDY v s).totalCycles = s.totalCycles := by simp [LDY]

@[simp] theorem AND_cycles (v : Nat) (s : Mose) :
    (AND v s).cycles = s.cycles := by simp [AND]

@[simp] theorem AND_breakFlag (v : Nat) (s : Mose) :
    (AND v s).breakFlag = s.breakFlag := by simp [AND]

@[simp] theorem AND_nmiEdge (v : Nat) (s : Mose) :
    (AND v s).nmiEdge = s.nmiEdge := by simp [AND]

@[simp] theorem AND_totalCycles (v : Nat) (s : Mose) :
    (AND v s).totalCycles = s.totalCycles := by simp [AND]

@[simp] theorem ORA_cycles (v : Nat) (s : Mose) :
    (ORA v s).cycles = s.cycles := by simp [ORA]

@[simp] theorem ORA_breakFlag (v : Nat) (s : Mose) :
    (ORA v s).breakFlag = s.breakFlag := by simp [ORA]

@[simp] theorem ORA_nmiEdge (v : Nat) (s : Mose) :
    (ORA v s).nmiEdge = s.nmiEdge := by simp [ORA]

@[simp] theorem ORA_totalCycles (v : Nat) (s : Mose) :
    (ORA v s).totalCycles = s.totalCycles := by simp [ORA]

@[simp] theorem EOR_cycles (v : Nat) (s : Mose) :
    (EOR v s).cycles = s.cycles := by simp [EOR]

@[simp] theorem EOR_breakFlag (v : Nat) (s : Mose) :
    (EOR v s).breakFlag = s.breakFlag := by simp [EOR]

@[simp] theorem EOR_nmiEdge (v : Nat) (s : Mose) :
    (EOR v s).nmiEdge = s.nmiEdge := by simp [EOR]

@[simp] theorem EOR_totalCycles (v : Nat) (s : Mose) :
    (EOR v s).totalCycles = s.totalCycles := by simp [EOR]

@[simp] theorem CMP_cycles (v : Nat) (s : Mose) :
    (CMP v s).cycles = s.cycles := by simp [CMP]

@[simp] theorem CMP_breakFlag (v : Nat) (s : Mose) :
    (CMP v s).breakFlag = s.breakFlag := by simp [CMP]

@[simp] theorem CMP_nmiEdge (v : Nat) (s : Mose) :
    (CMP v s).nmiEdge = s.nmiEdge := by simp [CMP]

@[simp] theorem CMP_totalCycles (v : Nat) (s : Mose) :
    (CMP v s).totalCycles = s.totalCycles := by simp [CMP]

@[simp] theorem CPX_cycles (v : Nat) (s : Mose) :
    (CPX v s).cycles = s.cycles := by simp [CPX]

@[simp] theorem CPX_breakFlag (v : Nat) (s : Mose) :
    (CPX v s).breakFlag = s.breakFlag := by simp [CPX]

@[simp] theorem CPX_nmiEdge (v : Nat) (s : Mose) :
    (CPX v s).nmiEdge = s.nmiEdge := by simp [CPX]

@[simp] theorem CPX_totalCycles (v : Nat) (s : Mose) :
    (CPX v s).totalCycles = s.totalCycles := by simp [CPX]

@[simp] theorem CPY_cycles (v : Nat) (s : Mose) :
    (CPY v s).cycles = s.cycles := by simp [CPY]

@[simp] theorem CPY_breakFlag (v : Nat) (s : Mose) :
    (CPY v s).breakFlag = s.breakFlag := by simp [CPY]

@[simp] theorem CPY_nmiEdge (v : Nat) (s : Mose) :
    (CPY v s).nmiEdge = s.nmiEdge := by simp [CPY]

@[simp] theorem CPY_totalCycles (v : Nat) (s : Mose) :
    (CPY v s).totalCycles = s.totalCycles := by simp [CPY]

@[simp] theorem BIT_cycles (v : Nat) (s : Mose) :
    (BIT v s).cycles = s.cycles := by simp [BIT]

@[simp] theorem BIT_breakFlag (v : Nat) (s : Mose) :
    (BIT v s).breakFlag = s.breakFlag := by simp [BIT]

@[simp] theorem BIT_nmiEdge (v : Nat) (s : Mose) :
    (BIT v s).nmiEdge = s.nmiEdge := by simp [BIT]

@[simp] theorem BIT_totalCycles (v : Nat) (s : Mose) :
    (BIT v s).totalCycles = s.totalCycles := by simp [BIT]

@[simp] theorem LAX_cycles (v : Nat) (s : Mose) :
    (LAX v s).cycles = s.cycles := by simp [LAX]

@[simp] theorem LAX_breakFlag (v : Nat) (s : Mose) :
    (LAX v s).breakFlag = s.breakFlag := by simp [LAX]

@[simp] theorem LAX_nmiEdge (v : Nat) (s : Mose) :
    (LAX v s).nmiEdge = s.nmiEdge := by simp [LAX]

@[simp] theorem LAX_totalCycles (v : Nat) (s : Mose) :
    (LAX v s).totalCycles = s.totalCycles := by simp [LAX]

@[simp] theorem ANC_cycles (v : Nat) (s : Mose) :
    (ANC v s).cycles = s.cycles := by simp [ANC]

@[simp] theorem ANC_breakFlag (v : Nat) (s : Mose) :
    (ANC v s).breakFlag = s.breakFlag := by simp [ANC]

@[simp] theorem ANC_nmiEdge (v : Nat) (s : Mose) :
    (ANC v s).nmiEdge = s.nmiEdge := by simp [ANC]

@[simp] theorem ANC_totalCycles (v : Nat) (s : Mose) :
    (ANC v s).totalCycles = s.totalCycles := by simp [ANC]

@[simp] theorem ALR_cycles (v : Nat) (s : Mose) :
    (ALR v s).cycles = s.cycles := by simp [ALR]

@[simp] theorem ALR_breakFlag (v : Nat) (s : Mose) :
    (ALR v s).breakFlag = s.breakFlag := by simp [ALR]

@[simp] theorem ALR_nmiEdge (v : Nat) (s : Mose) :
    (ALR v s).nmiEdge = s.nmiEdge := by simp [ALR]

@[simp] theorem ALR_totalCycles (v : Nat) (s : Mose) :
    (ALR v s).totalCycles = s.totalCycles := by simp [ALR]

@[simp] theorem ARR_cycles (v : Nat) (s : Mose) :
    (ARR v s).cycles = s.cycles := by simp [ARR]

@[simp] theorem ARR_breakFlag (v : Nat) (s : Mose) :
    (ARR v s).breakFlag = s.breakFlag := by simp [ARR]

@[simp] theorem ARR_nmiEdge (v : Nat) (s : Mose) :
    (ARR v s).nmiEdge = s.nmiEdge := by simp [ARR]

@[simp] theorem ARR_totalCycles (v : Nat) (s : Mose) :
    (ARR v s).totalCycles = s.totalCycles := by simp [ARR]

@[simp] theorem XAA_cycles (v : Nat) (s : Mose) :
    (XAA v s).cycles = s.cycles := by simp [XAA]

@[simp] theorem XAA_breakFlag (v : Nat) (s : Mose) :
    (XAA v s).breakFlag = s.breakFlag := by simp [XAA]

@[simp] theorem XAA_nmiEdge (v : Nat) (s : Mose) :
    (XAA v s).nmiEdge = s.nmiEdge := by simp [XAA]

@[simp] theorem XAA_totalCycles (v : Nat) (s : Mose) :
    (XAA v s).totalCycles = s.totalCycles := by simp [XAA]

@[simp] theorem AXS_cycles (v : Nat) (s : Mose) :
    (AXS v s).cycles = s.cycles := by simp [AXS]

@[simp] theorem AXS_breakFlag (v : Nat) (s : Mose) :
    (AXS v s).breakFlag = s.breakFlag := by simp [AXS]

@[simp] theorem AXS_nmiEdge (v : Nat) (s : Mose) :
    (AXS v s).nmiEdge = s.nmiEdge := by simp [AXS]

@[simp] theorem AXS_totalCycles (v : Nat) (s : Mose) :
    (AXS v s).totalCycles = s.totalCycles := by simp [AXS]

@[simp] theorem STA_cycles (a : Nat) (s : Mose) :
    (STA a s).cycles = s.cycles := by simp [STA]

@[simp] theorem STA_breakFlag (a : Nat) (s : Mose) :
    (STA a s).breakFlag = s.breakFlag := by simp [STA]

@[simp] theorem STA_nmiEdge (a : Nat) (s : Mose) :
    (STA a s).nmiEdge = s.nmiEdge := by simp [STA]

@[simp] theorem STA_totalCycles (a : Nat) (s : Mose) :
    (STA a s).totalCycles = s.totalCycles := by simp [STA]

@[simp] theorem STX_cycles (a : Nat) (s : Mose) :
    (STX a s).cycles = s.cycles := by simp [STX]

@[simp] theorem STX_breakFlag (a : Nat) (s : Mose) :
    (STX a s).breakFlag = s.breakFlag := by simp [STX]

@[simp] theorem STX_nmiEdge (a : Nat) (s : Mose) :
    (STX a s).nmiEdge = s.nmiEdge := by simp [STX]

@[simp] theorem STX_totalCycles (a : Nat) (s : Mose) :
    (STX a s).totalCycles = s.totalCycles := by simp [STX]

@[simp] theorem STY_cycles (a : Nat) (s : Mose) :
    (STY a s).cycles = s.cycles := by simp [STY]

@[simp] theorem STY_breakFlag (a : Nat) (s : Mose) :
    (STY a s).breakFlag = s.breakFlag := by simp [STY]

@[simp] theorem STY_nmiEdge (a : Nat) (s : Mose) :
    (STY a s).nmiEdge = s.nmiEdge := by simp [STY]

@[simp] theorem STY_totalCycles (a : Nat) (s : Mose) :
    (STY a s).totalCycles = s.totalCycles := by simp [STY]

@[simp] theorem INC_cycles (a : Nat) (s : Mose) :
    (INC a s).cycles = s.cycles := by simp [INC]

@[simp] theorem INC_breakFlag (a : Nat) (s : Mose) :
    (INC a s).breakFlag = s.breakFlag := by simp [INC]

@[simp] theorem INC_nmiEdge (a : Nat) (s : Mose) :
    (INC a s).nmiEdge = s.nmiEdge := by simp [INC]

@[simp] theorem INC_totalCycles (a : Nat) (s : Mose) :
    (INC a s).totalCycles = s.totalCycles := by simp [INC]

@[simp] theorem DEC_cycles (a : Nat) (s : Mose) :
    (DEC a s).cycles = s.cycles := by simp [DEC]

@[simp] theorem DEC_breakFlag (a : Nat) (s : Mose) :
    (DEC a s).breakFlag = s.breakFlag := by simp [DEC]

@[simp] theorem DEC_nmiEdge (a : Nat) (s : Mose) :
    (DEC a s).nmiEdge = s.nmiEdge := by simp [DEC]

@[simp] theorem DEC_totalCycles (a : Nat) (s : Mose) :
    (DEC a s).totalCycles = s.totalCycles := by simp [DEC]

@[simp] theorem ASL_cycles (a : Nat) (s : Mose) :
    (ASL a s).cycles = s.cycles := by simp [ASL]

@[simp] theorem ASL_breakFlag (a : Nat) (s : Mose) :
    (ASL a s).breakFlag = s.breakFlag := by simp [ASL]

@[simp] theorem ASL_nmiEdge (a : Nat) (s : Mose) :
    (ASL a s).nmiEdge = s.nmiEdge := by simp [ASL]

@[simp] theorem ASL_totalCycles (a : Nat) (s : Mose) :
    (ASL a s).totalCycles = s.totalCycles := by simp [ASL]

@[simp] theorem LSR_cycles (a : Nat) (s : Mose) :
    (LSR a s).cycles = s.cycles := by simp [LSR]

@[simp] theorem LSR_breakFlag (a : Nat) (s : Mose) :
    (LSR a s).breakFlag = s.breakFlag := by simp [LSR]

@[simp] theorem LSR_nmiEdge (a : Nat) (s : Mose) :
    (LSR a s).nmiEdge = s.nmiEdge := by simp [LSR]

@[simp] theorem LSR_totalCycles (a : Nat) (s : Mose) :
    (LSR a s).totalCycles = s.totalCycles := by simp [LSR]

@[simp] theorem ROL_cycles (a : Nat) (s : Mose) :
    (ROL a s).cycles = s.cycles := by simp [ROL]

@[simp] theorem ROL_breakFlag (a : Nat) (s : Mose) :
    (ROL a s).breakFlag = s.breakFlag := by simp [ROL]

@[simp] theorem ROL_nmiEdge (a : Nat) (s : Mose) :
    (ROL a s).nmiEdge = s.nmiEdge := by simp [ROL]

@[simp] theorem ROL_totalCycles (a : Nat) (s : Mose) :
    (ROL a s).totalCycles = s.totalCycles := by simp [ROL]

@[simp] theorem ROR_cycles (a : Nat) (s : Mose) :
    (ROR a s).cycles = s.cycles := by simp [ROR]

@[simp] theorem ROR_breakFlag (a : Nat) (s : Mose) :
    (ROR a s).breakFlag = s.breakFlag := by simp [ROR]

@[simp] theorem ROR_nmiEdge (a : Nat) (s : Mose) :
    (ROR a s).nmiEdge = s.nmiEdge := by simp [ROR]

@[simp] theorem ROR_totalCycles (a : Nat) (s : Mose) :
    (ROR a s).totalCycles = s.totalCycles := by simp [ROR]

@[simp] theorem SAX_cycles (a : Nat) (s : Mose) :
    (SAX a s).cycles = s.cycles := by simp [SAX]

@[simp] theorem SAX_breakFlag (a : Nat) (s : Mose) :
    (SAX a s).breakFlag = s.breakFlag := by simp [SAX]

@[simp] theorem SAX_nmiEdge (a : Nat) (s : Mose) :
    (SAX a s).nmiEdge = s.nmiEdge := by simp [SAX]

@[simp] theorem SAX_totalCycles (a : Nat) (s : Mose) :
    (SAX a s).totalCycles = s.totalCycles := by simp [SAX]

@[simp] theorem SHY_cycles (a : Nat) (s : Mose) :
    (SHY a s).cycles = s.cycles := by simp [SHY]

@[simp] theorem SHY_breakFlag (a : Nat) (s : Mose) :
    (SHY a s).breakFlag = s.breakFlag := by simp [SHY]

@[simp] theorem SHY_nmiEdge (a : Nat) (s : Mose) :
    (SHY a s).nmiEdge = s.nmiEdge := by simp [SHY]

@[simp] theorem SHY_totalCycles (a : Nat) (s : Mose) :
    (SHY a s).totalCycles = s.totalCycles := by simp [SHY]

@[simp] theorem SHX_cycles (a : Nat) (s : Mose) :
    (SHX a s).cycles = s.cycles := by simp [SHX]

@[simp] theorem SHX_breakFlag (a : Nat) (s : Mose) :
    (SHX a s).breakFlag = s.breakFlag := by simp [SHX]

@[simp] theorem SHX_nmiEdge (a : Nat) (s : Mose) :
    (SHX a s).nmiEdge = s.nmiEdge := by simp [SHX]

@[simp] theorem SHX_totalCycles (a : Nat) (s : Mose) :
    (SHX a s).totalCycles = s.totalCycles := by simp [SHX]

@[simp] theorem JMP_cycles (a : Nat) (s : Mose) :
    (JMP a s).cycles = s.cycles := by simp [JMP]

@[simp] theorem JMP_breakFlag (a : Nat) (s : Mose) :
    (JMP a s).breakFlag = s.breakFlag := by simp [JMP]

@[simp] theorem JMP_nmiEdge (a : Nat) (s : Mose) :
    (JMP a s).nmiEdge = s.nmiEdge := by simp [JMP]

@[simp] theorem JMP_totalCycles (a : Nat) (s : Mose) :
    (JMP a s).totalCycles = s.totalCycles := by simp [JMP]

@[simp] theorem JSR_cycles (a : Nat) (s : Mose) :
    (JSR a s).cycles = s.cycles := by simp [JSR]

@[simp] theorem JSR_breakFlag (a : Nat) (s : Mose) :
    (JSR a s).breakFlag = s.breakFlag := by simp [JSR]

@[simp] theorem JSR_nmiEdge (a : Nat) (s : Mose) :
    (JSR a s).nmiEdge = s.nmiEdge := by simp [JSR]

@[simp] theorem JSR_totalCycles (a : Nat) (s : Mose) :
    (JSR a s).totalCycles = s.totalCycles := by simp [JSR]

@[simp] theorem ADC_cycles (v : Nat) (s : Mose) :
    (ADC v s).cycles = s.cycles := by simp only [ADC]; split_ifs <;> simp

@[simp] theorem ADC_breakFlag (v : Nat) (s : Mose) :
    (ADC v s).breakFlag = s.breakFlag := by simp only [ADC]; split_ifs <;> simp

@[simp] theorem ADC_nmiEdge (v : Nat) (s : Mose) :
    (ADC v s).nmiEdge = s.nmiEdge := by simp only [ADC]; split_ifs <;> simp

@[simp] theorem ADC_totalCycles (v : Nat) (s : Mose) :
    (ADC v s).totalCycles = s.totalCycles := by simp only [ADC]; split_ifs <;> simp

@[simp] theorem SBC_cycles (v : Nat) (s : Mose) :
    (SBC v s).cycles = s.cycles := by simp only [SBC]; split_ifs <;> simp

@[simp] theorem SBC_breakFlag (v : Nat) (s : Mose) :
    (SBC v s).breakFlag = s.breakFlag := by simp only [SBC]; split_ifs <;> simp

@[simp] theorem SBC_nmiEdge (v : Nat) (s : Mose) :
    (SBC v s).nmiEdge = s.nmiEdge := by simp only [SBC]; split_ifs <;> simp

@[simp] theorem SBC_totalCycles (v : Nat) (s : Mose) :
    (SBC v s).totalCycles = s.totalCycles := by simp only [SBC]; split_ifs <;> simp

@[simp] theorem DCP_cycles (a : Nat) (s : Mose) :
    (DCP a s).cycles = s.cycles := by simp [DCP]

@[simp] theorem DCP_breakFlag (a : Nat) (s : Mose) :
    (DCP a s).breakFlag = s.breakFlag := by simp [DCP]

@[simp] theorem DCP_nmiEdge (a : Nat) (s : Mose) :
    (DCP a s).nmiEdge = s.nmiEdge := by simp [DCP]

@[simp] theorem DCP_totalCycles (a : Nat) (s : Mose) :
    (DCP a s).totalCycles = s.totalCycles := by simp [DCP]

@[simp] theorem ISC_cycles (a : Nat) (s : Mose) :
    (ISC a s).cycles = s.cycles := by simp [ISC]

@[simp] theorem ISC_breakFlag (a : Nat) (s : Mose) :
    (ISC a s).breakFlag = s.breakFlag := by simp [ISC]

@[simp] theorem ISC_nmiEdge (a : Nat) (s : Mose) :
    (ISC a s).nmiEdge = s.nmiEdge := by simp [ISC]

@[simp] theorem ISC_totalCycles (a : Nat) (s : Mose) :
    (ISC a s).totalCycles = s.totalCycles := by simp [ISC]

@[simp] theorem SLO_cycles (a : Nat) (s : Mose) :
    (SLO a s).cycles = s.cycles := by simp [SLO]

@[simp] theorem SLO_breakFlag (a : Nat) (s : Mose) :
    (SLO a s).breakFlag = s.breakFlag := by simp [SLO]

@[simp] theorem SLO_nmiEdge (a : Nat) (s : Mose) :
    (SLO a s).nmiEdge = s.nmiEdge := by simp [SLO]

@[simp] theorem SLO_totalCycles (a : Nat) (s : Mose) :
    (SLO a s).totalCycles = s.totalCycles := by simp [SLO]

@[simp] theorem RLA_cycles (a : Nat) (s : Mose) :
    (RLA a s).cycles = s.cycles := by simp [RLA]

@[simp] theorem RLA_breakFlag (a : Nat) (s : Mose) :
    (RLA a s).breakFlag = s.breakFlag := by simp [RLA]

@[simp] theorem RLA_nmiEdge (a : Nat) (s : Mose) :
    (RLA a s).nmiEdge = s.nmiEdge := by simp [RLA]

@[simp] theorem RLA_totalCycles (a : Nat) (s : Mose) :
    (RLA a s).totalCycles = s.totalCycles := by simp [RLA]

@[simp] theorem SRE_cycles (a : Nat) (s : Mose) :
    (SRE a s).cycles = s.cycles := by simp [SRE]

@[simp] theorem SRE_breakFlag (a : Nat) (s : Mose) :
    (SRE a s).breakFlag = s.breakFlag := by simp [SRE]

@[simp] theorem SRE_nmiEdge (a : Nat) (s : Mose) :
    (SRE a s).nmiEdge = s.nmiEdge := by simp [SRE]

@[simp] theorem SRE_totalCycles (a : Nat) (s : Mose) :
    (SRE a s).totalCycles = s.totalCycles := by simp [SRE]

@[simp] theorem RRA_cycles (a : Nat) (s : Mose) :
    (RRA a s).cycles = s.cycles := by simp [RRA]

@[simp] theorem RRA_breakFlag (a : Nat) (s : Mose) :
    (RRA a s).breakFlag = s.breakFlag := by simp [RRA]

@[simp] theorem RRA_nmiEdge (a : Nat) (s : Mose) :
    (RRA a s).nmiEdge = s.nmiEdge := by simp [RRA]

@[simp] theorem RRA_totalCycles (a : Nat) (s : Mose) :
    (RRA a s).totalCycles = s.totalCycles := by simp [RRA]

@[simp] theorem BCC_cycles (t : Nat) (s : Mose) :
    (BCC t s).cycles =
      if s.C = 0 then
        if checkPageCross s.PC t then s.cycles + 2 else s.cycles + 1
      else s.cycles := by
  simp only [BCC]; split_ifs <;> simp

@[simp] theorem BCC_breakFlag (t : Nat) (s : Mose) :
    (BCC t s).breakFlag = s.breakFlag := by simp only [BCC]; split_ifs <;> simp

@[simp] theorem BCC_nmiEdge (t : Nat) (s : Mose) :
    (BCC t s).nmiEdge = s.nmiEdge := by simp only [BCC]; split_ifs <;> simp

@[simp] theorem BCC_totalCycles (t : Nat) (s : Mose) :
    (BCC t s).totalCycles = s.totalCycles := by simp only [BCC]; split_ifs <;> simp

@[simp] theorem BCS_cycles (t : Nat) (s : Mose) :
    (BCS t s).cycles =
      if s.C = 1 then
        if checkPageCross s.PC t then s.cycles + 2 else s.cycles + 1
      else s.cycles := by
  simp only [BCS]; split_ifs <;> simp

@[simp] theorem BCS_breakFlag (t : Nat) (s : Mose) :
    (BCS t s).breakFlag = s.breakFlag := by simp only [BCS]; split_ifs <;> simp

@[simp] theorem BCS_nmiEdge (t : Nat) (s : Mose) :
    (BCS t s).nmiEdge = s.nmiEdge := by simp only [BCS]; split_ifs <;> simp

@[simp] theorem BCS_totalCycles (t : Nat) (s : Mose) :
    (BCS t s).totalCycles = s.totalCycles := by simp only [BCS]; split_ifs <;> simp

@[simp] theorem BEQ_cycles (t : Nat) (s : Mose) :
    (BEQ t s).cycles =
      if s.Z = 1 then
        if checkPageCross s.PC t then s.cycles + 2 else s.cycles + 1
      else s.cycles := by
  simp only [BEQ]; split_ifs <;> simp

@[simp] theorem BEQ_breakFlag (t : Nat) (s : Mose) :
    (BEQ t s).breakFlag = s.breakFlag := by simp only [BEQ]; split_ifs <;> simp

@[simp] theorem BEQ_nmiEdge (t : Nat) (s : Mose) :
    (BEQ t s).nmiEdge = s.nmiEdge := by simp only [BEQ]; split_ifs <;> simp

@[simp] theorem BEQ_totalCycles (t : Nat) (s : Mose) :
    (BEQ t s).totalCycles = s.totalCycles := by simp only [BEQ]; split_ifs <;> simp

@[simp] theorem BNE_cycles (t : Nat) (s : Mose) :
    (BNE t s).cycles =
      if s.Z = 0 then
        if checkPageCross s.PC t then s.cycles + 2 else s.cycles + 1
      else s.cycles := by
  simp only [BNE]; split_ifs <;> simp

@[simp] theorem BNE_breakFlag (t : Nat) (s : Mose) :
    (BNE t s).breakFlag = s.breakFlag := by simp only [BNE]; split_ifs <;> simp

@[simp] theorem BNE_nmiEdge (t : Nat) (s : Mose) :
    (BNE t s).nmiEdge = s.nmiEdge := by simp only [BNE]; split_ifs <;> simp

@[simp] theorem BNE_totalCycles (t : Nat) (s : Mose) :
    (BNE t s).totalCycles = s.totalCycles := by simp only [BNE]; split_ifs <;> simp

@[simp] theorem BPL_cycles (t : Nat) (s : Mose) :
    (BPL t s).cycles =
      if s.N = 0 then
        if checkPageCross s.PC t then s.cycles + 2 else s.cycles + 1
      else s.cycles := by
  simp only [BPL]; split_ifs <;> simp

@[simp] theorem BPL_breakFlag (t : Nat) (s : Mose) :
    (BPL t s).breakFlag = s.breakFlag := by simp only [BPL]; split_ifs <;> simp

@[simp] theorem BPL_nmiEdge (t : Nat) (s : Mose) :
    (BPL t s).nmiEdge = s.nmiEdge := by simp only [BPL]; split_ifs <;> simp

@[simp] theorem BPL_totalCycles (t : Nat) (s : Mose) :
    (BPL t s).totalCycles = s.totalCycles := by simp only [BPL]; split_ifs <;> simp

@[simp] theorem BMI_cycles (t : Nat) (s : Mose) :
    (BMI t s).cycles =
      if s.N = 1 then
        if checkPageCross s.PC t then s.cycles + 2 else s.cycles + 1
      else s.cycles := by
  simp only [BMI]; split_ifs <;> simp

@[simp] theorem BMI_breakFlag (t : Nat) (s : Mose) :
    (BMI t s).breakFlag = s.breakFlag := by simp only [BMI]; split_ifs <;> simp

@[simp] theorem BMI_nmiEdge (t : Nat) (s : Mose) :
    (BMI t s).nmiEdge = s.nmiEdge := by simp only [BMI]; split_ifs <;> simp

@[simp] theorem BMI_totalCycles (t : Nat) (s : Mose) :
    (BMI t s).totalCycles = s.totalCycles := by simp only [BMI]; split_ifs <;> simp

@[simp] theorem BVC_cycles (t : Nat) (s : Mose) :
    (BVC t s).cycles =
      if s.V = 0 then
        if checkPageCross s.PC t then s.cycles + 2 else s.cycles + 1
      else s.cycles := by
  simp only [BVC]; split_ifs <;> simp

@[simp] theorem BVC_breakFlag (t : Nat) (s : Mose) :
    (BVC t s).breakFlag = s.breakFlag := by simp only [BVC]; split_ifs <;> simp

@[simp] theorem BVC_nmiEdge (t : Nat) (s : Mose) :
    (BVC t s).nmiEdge = s.nmiEdge := by simp only [BVC]; split_ifs <;> simp

@[simp] theorem BVC_totalCycles (t : Nat) (s : Mose) :
    (BVC t s).totalCycles = s.totalCycles := by simp only [BVC]; split_ifs <;> simp

@[simp] theorem BVS_cycles (t : Nat) (s : Mose) :
    (BVS t s).cycles =
      if s.V = 1 then
        if checkPageCross s.PC t then s.cycles + 2 else s.cycles + 1
      else s.cycles := by
  simp only [BVS]; split_ifs <;> simp

@[simp] theorem BVS_breakFlag (t : Nat) (s : Mose) :
    (BVS t s).breakFlag = s.breakFlag := by simp only [BVS]; split_ifs <;> simp

@[simp] theorem BVS_nmiEdge (t : Nat) (s : Mose) :
    (BVS t s).nmiEdge = s.nmiEdge := by simp only [BVS]; split_ifs <;> simp

@[simp] theorem BVS_totalCycles (t : Nat) (s : Mose) :
    (BVS t s).totalCycles = s.totalCycles := by simp only [BVS]; split_ifs <;> simp

@[simp] theorem pxBump_cycles (m : AddrRes) (s : Mose) :
    (pxBump m s).cycles = if m.pageCrossed then s.cycles + 1 else s.cycles := by
  simp only [pxBump]; split_ifs <;> simp

@[simp] theorem pxBump_breakFlag (m : AddrRes) (s : Mose) :
    (pxBump m s).breakFlag = s.breakFlag := by simp only [pxBump]; split_ifs <;> simp

@[simp] theorem pxBump_nmiEdge (m : AddrRes) (s : Mose) :
    (pxBump m s).nmiEdge = s.nmiEdge := by simp only [pxBump]; split_ifs <;> simp

@[simp] theorem pxBump_totalCycles (m : AddrRes) (s : Mose) :
    (pxBump m s).totalCycles = s.totalCycles := by simp only [pxBump]; split_ifs <;> simp


theorem execRow0_frame (lo : Nat) (s t : Mose) (h : execRow0 lo s = some t) :
    KeepsFrame s t := by
  unfold KeepsFrame
  unfold execRow0 at h
  split at h <;>
    first
      | exact Option.noConfusion h
      | (injection h with h; subst h;
         refine ⟨?_, ?_, ?_, ?_⟩ <;>
           simp [imm, zp, zpx, zpy, abs, absx, absy, ind, indx, indy, rel] <;>
           split_ifs <;> omega)

theorem execRow1_frame (lo : Nat) (s t : Mose) (h : execRow1 lo s = some t) :
    KeepsFrame s t := by
  unfold KeepsFrame
  unfold execRow1 at h
  split at h <;>
    first
      | exact Option.noConfusion h
      | (injection h with h; subst h;
         refine ⟨?_, ?_, ?_, ?_⟩ <;>
           simp [imm, zp, zpx, zpy, abs, absx, absy, ind, indx, indy, rel] <;>
           split_ifs <;> omega)

theorem execRow2_frame (lo : Nat) (s t : Mose) (h : execRow2 lo s = some t) :
    KeepsFrame s t := by
  unfold KeepsFrame
  unfold execRow2 at h
  split at h <;>
    first
      | exact Option.noConfusion h
      | (injection h with h; subst h;
         refine ⟨?_, ?_, ?_, ?_⟩ <;>
           simp [imm, zp, zpx, zpy, abs, absx, absy, ind, indx, indy, rel] <;>
           split_ifs <;> omega)

theorem execRow3_frame (lo : Nat) (s t : Mose) (h : execRow3 lo s = some t) :
    KeepsFrame s t := by
  unfold KeepsFrame
  unfold execRow3 at h
  split at h <;>
    first
      | exact Option.noConfusion h
      | (injection h with h; subst h;
         refine ⟨?_, ?_, ?_, ?_⟩ <;>
           simp [imm, zp, zpx, zpy, abs, absx, absy, ind, indx, indy, rel] <;>
           split_ifs <;> omega)

theorem execRow4_frame (lo : Nat) (s t : Mose) (h : execRow4 lo s = some t) :
    KeepsFrame s t := by
  unfold KeepsFrame
  unfold execRow4 at h
  split at h <;>
    first
      | exact Option.noConfusion h
      | (injection h with h; subst h;
         refine ⟨?_, ?_, ?_, ?_⟩ <;>
           simp [imm, zp, zpx, zpy, abs, absx, absy, ind, indx, indy, rel] <;>
           split_ifs <;> omega)

theorem execRow5_frame (lo : Nat) (s t : Mose) (h : execRow5 lo s = some t) :
    KeepsFrame s t := by
  unfold KeepsFrame
  unfold execRow5 at h
  split at h <;>
    first
      | exact Option.noConfusion h
      | (injection h with h; subst h;
         refine ⟨?_, ?_, ?_, ?_⟩ <;>
           simp [imm, zp, zpx, zpy, abs, absx, absy, ind, indx, indy, rel] <;>
           split_ifs <;> omega)

theorem execRow6_frame (lo : Nat) (s t : Mose) (h : execRow6 lo s = some t) :
    KeepsFrame s t := by
  unfold KeepsFrame
  unfold execRow6 at h
  split at h <;>
    first
      | exact Option.noConfusion h
      | (injection h with h; subst h;
         refine ⟨?_, ?_, ?_, ?_⟩ <;>
           simp [imm, zp, zpx, zpy, abs, absx, absy, ind, indx, indy, rel] <;>
           split_ifs <;> omega)

theorem execRow7_frame (lo : Nat) (s t : Mose) (h : execRow7 lo s = some t) :
    KeepsFrame s t := by
  unfold KeepsFrame
  unfold execRow7 at h
  split at h <;>
    first
      | exact Option.noConfusion h
      | (injection h with h; subst h;
         refine ⟨?_, ?_, ?_, ?_⟩ <;>
           simp [imm, zp, zpx, zpy, abs, absx, absy, ind, indx, indy, rel] <;>
           split_ifs <;> omega)

theorem execRow8_frame (lo : Nat) (s t : Mose) (h : execRow8 lo s = some t) :
    KeepsFrame s t := by
  unfold KeepsFrame
  unfold execRow8 at h
  split at h <;>
    first
      | exact Option.noConfusion h
      | (injection h with h; subst h;
         refine ⟨?_, ?_, ?_, ?_⟩ <;>
           simp [imm, zp, zpx, zpy, abs, absx, absy, ind, indx, indy, rel] <;>
           split_ifs <;> omega)

theorem execRow9_frame (lo : Nat) (s t : Mose) (h : execRow9 lo s = some t) :
    KeepsFrame s t := by
  unfold KeepsFrame
  unfold execRow9 at h
  split at h <;>
    first
      | exact Option.noConfusion h
      | (injection h with h; subst h;
         refine ⟨?_, ?_, ?_, ?_⟩ <;>
           simp [imm, zp, zpx, zpy, abs, absx, absy, ind, indx, indy, rel] <;>
           split_ifs <;> omega)

theorem execRowA_frame (lo : Nat) (s t : Mose) (h : execRowA lo s = some t) :
    KeepsFrame s t := by
  unfold KeepsFrame
  unfold execRowA at h
  split at h <;>
    first
      | exact Option.noConfusion h
      | (injection h with h; subst h;
         refine ⟨?_, ?_, ?_, ?_⟩ <;>
           simp [imm, zp, zpx, zpy, abs, absx, absy, ind, indx, indy, rel] <;>
           split_ifs <;> omega)

theorem execRowB_frame (lo : Nat) (s t : Mose) (h : execRowB lo s = some t) :
    KeepsFrame s t := by
  unfold KeepsFrame
  unfold execRowB at h
  split at h <;>
    first
      | exact Option.noConfusion h
      | (injection h with h; subst h;
         refine ⟨?_, ?_, ?_, ?_⟩ <;>
           simp [imm, zp, zpx, zpy, abs, absx, absy, ind, indx, indy, rel] <;>
           split_ifs <;> omega)

theorem execRowC_frame (lo : Nat) (s t : Mose) (h : execRowC lo s = some t) :
    KeepsFrame s t := by
  unfold KeepsFrame
  unfold execRowC at h
  split at h <;>
    first
      | exact Option.noConfusion h
      | (injection h with h; subst h;
         refine ⟨?_, ?_, ?_, ?_⟩ <;>
           simp [imm, zp, zpx, zpy, abs, absx, absy, ind, indx, indy, rel] <;>
           split_ifs <;> omega)

theorem execRowD_frame (lo : Nat) (s t : Mose) (h : execRowD lo s = some t) :
    KeepsFrame s t := by
  unfold KeepsFrame
  unfold execRowD at h
  split at h <;>
    first
      | exact Option.noConfusion h
      | (injection h with h; subst h;
         refine ⟨?_, ?_, ?_, ?_⟩ <;>
           simp [imm, zp, zpx, zpy, abs, absx, absy, ind, indx, indy, rel] <;>
           split_ifs <;> omega)

theorem execRowE_frame (lo : Nat) (s t : Mose) (h : execRowE lo s = some t) :
    KeepsFrame s t := by
  unfold KeepsFrame
  unfold execRowE at h
  split at h <;>
    first
      | exact Option.noConfusion h
      | (injection h with h; subst h;
         refine ⟨?_, ?_, ?_, ?_⟩ <;>
           simp [imm, zp, zpx, zpy, abs, absx, absy, ind, indx, indy, rel] <;>
           split_ifs <;> omega)

theorem execRowF_frame (lo : Nat) (s t : Mose) (h : execRowF lo s = some t) :
    KeepsFrame s t := by
  unfold KeepsFrame
  unfold execRowF at h
  split at h <;>
    first
      | exact Option.noConfusion h
      | (injection h with h; subst h;
         refine ⟨?_, ?_, ?_, ?_⟩ <;>
           simp [imm, zp, zpx, zpy, abs, absx, absy, ind, indx, indy, rel] <;>
           split_ifs <;> omega)

/-- Every handler of the dispatch table satisfies the frame property. -/
theorem execAssigned_frame (op : Nat) (s t : Mose) (h : execAssigned op s = some t) :
    s.cycles ≤ t.cycles ∧ t.breakFlag = s.breakFlag ∧ t.nmiEdge = s.nmiEdge ∧
      t.totalCycles = s.totalCycles := by
  unfold execAssigned at h
  split at h <;>
    first
      | exact Option.noConfusion h
      | exact execRow0_frame _ _ _ h
      | exact execRow1_frame _ _ _ h
      | exact execRow2_frame _ _ _ h
      | exact execRow3_frame _ _ _ h
      | exact execRow4_frame _ _ _ h
      | exact execRow5_frame _ _ _ h
      | exact execRow6_frame _ _ _ h
      | exact execRow7_frame _ _ _ h
      | exact execRow8_frame _ _ _ h
      | exact execRow9_frame _ _ _ h
      | exact execRowA_frame _ _ _ h
      | exact execRowB_frame _ _ _ h
      | exact execRowC_frame _ _ _ h
      | exact execRowD_frame _ _ _ h
      | exact execRowE_frame _ _ _ h
      | exact execRowF_frame _ _ _ h

end Mose

namespace Mose

theorem cycleList_ge_two : ∀ x ∈ cycleList, 2 ≤ x := by decide

theorem cycleTable_ge_two (op : Nat) : 2 ≤ cycleTable op := by
  unfold cycleTable
  rcases h : cycleList[op]? with _ | x
  · simp [List.getD_eq_getElem?_getD, h]
  · have hx : x ∈ cycleList := by
      have := List.getElem?_eq_some_iff.mp h
      obtain ⟨hlt, hget⟩ := this
      exact hget ▸ List.getElem_mem hlt
    simp [List.getD_eq_getElem?_getD, h]
    exact cycleList_ge_two x hx

theorem handleNMI_some (s t : Mose) (h : s.handleNMI = some t) :
    t.cycles = 7 ∧ t.totalCycles = s.totalCycles + 7 ∧ t.breakFlag = s.breakFlag := by
  unfold handleNMI at h
  split at h
  · injection h with h
    subst h
    simp
  · exact Option.noConfusion h

theorem stepNormal_facts (s : Mose) :
    (stepNormal s).totalCycles = s.totalCycles + (stepNormal s).cycles ∧
      2 ≤ (stepNormal s).cycles ∧ (stepNormal s).breakFlag = s.breakFlag := by
  simp only [stepNormal]
  split
  next t heq =>
    have hf := execAssigned_frame _ _ _ heq
    obtain ⟨h1, h2, h3, h4⟩ := hf
    simp at h1 h4 ⊢
    refine ⟨h4, ?_, h2⟩
    exact le_trans (cycleTable_ge_two _) h1
  next heq =>
    simp [cycleTable_ge_two]

theorem step_progress (s : Mose) (h : s.breakFlag = false) :
    (step s).totalCycles = s.totalCycles + (step s).cycles ∧
      2 ≤ (step s).cycles ∧ (step s).breakFlag = false := by
  unfold step
  rw [h]
  simp only [Bool.false_eq_true, if_false]
  cases hn : s.handleNMI with
  | some t =>
    obtain ⟨h1, h2, h3⟩ := handleNMI_some s t hn
    simp [h1, h2, h3, h]
  | none =>
    have := stepNormal_facts s
    rw [h] at this
    exact this

theorem runCyclesAux_spec (goal : Nat) : ∀ (fuel : Nat) (s : Mose),
    s.breakFlag = false → s.totalCycles < goal → goal ≤ s.totalCycles + 2 * fuel →
    goal ≤ (runCyclesAux goal fuel s).totalCycles ∧
      (runCyclesAux goal fuel s).totalCycles - goal < (runCyclesAux goal fuel s).cycles := by
  intro fuel
  induction fuel with
  | zero => intro s _ h2 h3; omega
  | succ n ih =>
    intro s hb hlt hfu
    rw [runCyclesAux, if_pos hlt]
    obtain ⟨hp1, hp2, hp3⟩ := step_progress s hb
    rcases Nat.lt_or_ge (step s).totalCycles goal with h2 | h2
    · exact ih (step s) hp3 h2 (by omega)
    · have hstop : runCyclesAux goal n (step s) = step s := by
        cases n with
        | zero => rfl
        | succ m => rw [runCyclesAux, if_neg (by omega)]
      rw [hstop]
      omega

theorem step_break (s : Mose) (h : s.breakFlag = true) :
    step s = { s with breakFlag := false } := by
  unfold step
  rw [h]
  simp

/-- C9 (amended): for every positive target and every starting state,
`runCycles(target)` terminates and returns an elapsed count
`r = totalCycles increase ≥ target`, overshooting by less than the cycle
cost of the final instruction executed; each `step()` from a state whose
break latch is clear increases `totalCycles` by at least 2 (every base
cycle-table entry is at least 2), while a step that merely consumes a
pending break latch leaves `totalCycles` unchanged. -/
theorem c9_runCycles_total (s : Mose) (target : Nat) (h0 : 0 < target) :
    target ≤ (runCycles target s).totalCycles - s.totalCycles ∧
      (runCycles target s).totalCycles - s.totalCycles - target <
        (runCycles target s).cycles ∧
      (∀ u : Mose, u.breakFlag = false → u.totalCycles + 2 ≤ (step u).totalCycles) ∧
      (∀ op : Nat, 2 ≤ cycleTable op) ∧
      (∀ u : Mose, u.breakFlag = true → (step u).totalCycles = u.totalCycles) := by
  have hmain : s.totalCycles + target ≤ (runCycles target s).totalCycles ∧
      (runCycles target s).totalCycles - (s.totalCycles + target) <
        (runCycles target s).cycles := by
    unfold runCycles
    cases hbf : s.breakFlag
    · have hspec := runCyclesAux_spec (s.totalCycles + target) (target + 1) s hbf
        (by omega) (by omega)
      exact ⟨hspec.1, hspec.2⟩
    · have hlt : s.totalCycles < s.totalCycles + target := by omega
      rw [show runCyclesAux (s.totalCycles + target) (target + 1) s =
            runCyclesAux (s.totalCycles + target) target (step s) from by
          rw [runCyclesAux, if_pos hlt]]
      have hsb := step_break s hbf
      have hspec := runCyclesAux_spec (s.totalCycles + target) target (step s)
        (by rw [hsb]) (by rw [hsb]; simpa using hlt) (by rw [hsb]; simp; omega)
      exact ⟨hspec.1, hspec.2⟩
  refine ⟨by omega, by omega, ?_, cycleTable_ge_two, ?_⟩
  · intro u hu
    obtain ⟨h1, h2, _⟩ := step_progress u hu
    omega
  · intro u hu
    rw [step_break u hu]

/-- Witness for C9 at a CPU whose break latch is set (the case the fuel
bound must absorb) and target 1: the latch step elapses nothing, the
following BRK elapses 7 ≥ 1. -/
theorem c9_runCycles_total_witness :
    0 < 1 ∧
      (1 ≤ (runCycles 1 (triggerBreak initMose)).totalCycles -
          (triggerBreak initMose).totalCycles ∧
        (runCycles 1 (triggerBreak initMose)).totalCycles -
            (triggerBreak initMose).totalCycles - 1 <
          (runCycles 1 (triggerBreak initMose)).cycles ∧
        (∀ u : Mose, u.breakFlag = false → u.totalCycles + 2 ≤ (step u).totalCycles) ∧
        (∀ op : Nat, 2 ≤ cycleTable op) ∧
        (∀ u : Mose, u.breakFlag = true → (step u).totalCycles = u.totalCycles)) :=
  ⟨Nat.one_pos, c9_runCycles_total (triggerBreak initMose) 1 Nat.one_pos⟩

/-- Counterexample for C9 as frozen: in a state whose break latch has
been set by `triggerBreak()`, `step()` consumes the latch and leaves
`totalCycles` unchanged (charging zero cycles), so the claim's "each
step() increases totalCycles" is false on the code. -/
theorem c9_break_step_counterexample :
    (triggerBreak initMose).breakFlag = true ∧
      (step (triggerBreak initMose)).totalCycles =
        (triggerBreak initMose).totalCycles ∧
      (step (triggerBreak initMose)).cycles = 0 := by decide

theorem and_ffff (n : Nat) : n &&& 0xFFFF = n % 0x10000 := by
  simpa using Nat.and_pow_two_sub_one_eq_mod n 16

theorem and_ff (n : Nat) : n &&& 0xFF = n % 0x100 := by
  simpa using Nat.and_pow_two_sub_one_eq_mod n 8

theorem and_f (n : Nat) : n &&& 0xF = n % 0x10 := by
  simpa using Nat.and_pow_two_sub_one_eq_mod n 4

/-- C5: an address whose 16-bit masked value falls outside the configured
backing region reads as the fill value 0xFF and is a silent no-op to
write, leaving the whole state unchanged. -/
theorem c5_out_of_range_memory (s : Mose) (addr val : Nat)
    (h : s.ramLen ≤ addr % 0x10000) :
    s.read addr = 0xFF ∧ s.write addr val = s := by
  constructor
  · simp only [read, and_ffff]
    rw [if_neg (by omega)]
  · simp only [write, and_ffff]
    rw [if_neg (by omega)]

/-- Witness for C5: a 4KB-configured CPU and the address 0x2000. -/
theorem c5_out_of_range_memory_witness :
    ({ initMose with ramLen := 0x1000 } : Mose).ramLen ≤ 0x2000 % 0x10000 ∧
      (({ initMose with ramLen := 0x1000 } : Mose).read 0x2000 = 0xFF ∧
        ({ initMose with ramLen := 0x1000 } : Mose).write 0x2000 0xAB =
          { initMose with ramLen := 0x1000 }) :=
  ⟨by decide, c5_out_of_range_memory { initMose with ramLen := 0x1000 } 0x2000 0xAB (by decide)⟩

theorem status_bits :
    ∀ (n v b d i z c : Fin 2),
      ((((n : Nat) <<< 7) ||| ((v : Nat) <<< 6) ||| (1 <<< 5) ||| ((b : Nat) <<< 4) ||| ((d : Nat) <<< 3) ||| ((i : Nat) <<< 2) ||| ((z : Nat) <<< 1) ||| (c : Nat)) >>> 7) &&& 1 = (n : Nat) ∧
      ((((n : Nat) <<< 7) ||| ((v : Nat) <<< 6) ||| (1 <<< 5) ||| ((b : Nat) <<< 4) ||| ((d : Nat) <<< 3) ||| ((i : Nat) <<< 2) ||| ((z : Nat) <<< 1) ||| (c : Nat)) >>> 6) &&& 1 = (v : Nat) ∧
      ((((n : Nat) <<< 7) ||| ((v : Nat) <<< 6) ||| (1 <<< 5) ||| ((b : Nat) <<< 4) ||| ((d : Nat) <<< 3) ||| ((i : Nat) <<< 2) ||| ((z : Nat) <<< 1) ||| (c : Nat)) >>> 4) &&& 1 = (b : Nat) ∧
      ((((n : Nat) <<< 7) ||| ((v : Nat) <<< 6) ||| (1 <<< 5) ||| ((b : Nat) <<< 4) ||| ((d : Nat) <<< 3) ||| ((i : Nat) <<< 2) ||| ((z : Nat) <<< 1) ||| (c : Nat)) >>> 3) &&& 1 = (d : Nat) ∧
      ((((n : Nat) <<< 7) ||| ((v : Nat) <<< 6) ||| (1 <<< 5) ||| ((b : Nat) <<< 4) ||| ((d : Nat) <<< 3) ||| ((i : Nat) <<< 2) ||| ((z : Nat) <<< 1) ||| (c : Nat)) >>> 2) &&& 1 = (i : Nat) ∧
      ((((n : Nat) <<< 7) ||| ((v : Nat) <<< 6) ||| (1 <<< 5) ||| ((b : Nat) <<< 4) ||| ((d : Nat) <<< 3) ||| ((i : Nat) <<< 2) ||| ((z : Nat) <<< 1) ||| (c : Nat)) >>> 1) &&& 1 = (z : Nat) ∧
      (((n : Nat) <<< 7) ||| ((v : Nat) <<< 6) ||| (1 <<< 5) ||| ((b : Nat) <<< 4) ||| ((d : Nat) <<< 3) ||| ((i : Nat) <<< 2) ||| ((z : Nat) <<< 1) ||| (c : Nat)) &&& 1 = (c : Nat) ∧
      (((n : Nat) <<< 7) ||| ((v : Nat) <<< 6) ||| (1 <<< 5) ||| ((b : Nat) <<< 4) ||| ((d : Nat) <<< 3) ||| ((i : Nat) <<< 2) ||| ((z : Nat) <<< 1) ||| (c : Nat)) &&& 0x20 = 0x20 := by decide

/-- C6: for flags stored as 0/1 values, `setStatus (getStatus)` is the
identity on the processor state (every flag is restored; bit 5 carries no
flag), and bit 5 of the packed status byte is always 1. -/
theorem c6_status_roundtrip (s : Mose) (hC : s.C ≤ 1) (hZ : s.Z ≤ 1) (hI : s.I ≤ 1)
    (hD : s.D ≤ 1) (hB : s.B ≤ 1) (hV : s.V ≤ 1) (hN : s.N ≤ 1) :
    s.setStatus s.getStatus = s ∧ s.getStatus &&& 0x20 = 0x20 := by
  obtain ⟨h7, h6, h4, h3, h2, h1, h0, h5⟩ :=
    status_bits ⟨s.N, by omega⟩ ⟨s.V, by omega⟩ ⟨s.B, by omega⟩ ⟨s.D, by omega⟩
      ⟨s.I, by omega⟩ ⟨s.Z, by omega⟩ ⟨s.C, by omega⟩
  dsimp only at h7 h6 h4 h3 h2 h1 h0 h5
  simp at h7 h6 h4 h3 h2 h1 h0
  constructor
  · ext <;> simp [setStatus, getStatus] <;>
      first
        | rfl
        | exact h7 | exact h6 | exact h4 | exact h3 | exact h2 | exact h1 | exact h0
  · exact h5

/-- Witness for C6 at a state with a mixed flag combination. -/
theorem c6_status_roundtrip_witness :
    ({ initMose with C := 1, Z := 0, I := 1, D := 0, B := 1, V := 0, N := 1 } : Mose).setStatus
        ({ initMose with C := 1, Z := 0, I := 1, D := 0, B := 1, V := 0, N := 1 } : Mose).getStatus =
        { initMose with C := 1, Z := 0, I := 1, D := 0, B := 1, V := 0, N := 1 } ∧
      ({ initMose with C := 1, Z := 0, I := 1, D := 0, B := 1, V := 0, N := 1 } : Mose).getStatus &&&
        0x20 = 0x20 :=
  c6_status_roundtrip _ (by decide) (by decide) (by decide) (by decide) (by decide)
    (by decide) (by decide)

/-- C3: for an indirect-JMP pointer whose low byte is 0xFF, the resolved
target takes its high byte from the start of the same page
(`ptr & 0xFF00`) when the hardware-bug toggle is enabled, and from
`(ptr + 1) & 0xFFFF` (crossing the page) when it is disabled; the toggle
defaults to enabled in the constructor state. -/
theorem c3_indirect_jmp_bug (s : Mose) (hlow : s.indPtr &&& 0xFF = 0xFF) :
    (s.emulateIndirectJMPBug = true →
      (s.ind).1.address =
        ((s.read (s.indPtr &&& 0xFF00)) <<< 8 ||| s.read s.indPtr) &&& 0xFFFF) ∧
    (s.emulateIndirectJMPBug = false →
      (s.ind).1.address =
        ((s.read ((s.indPtr + 1) &&& 0xFFFF)) <<< 8 ||| s.read s.indPtr) &&& 0xFFFF) ∧
    initMose.emulateIndirectJMPBug = true := by
  unfold indPtr at hlow
  refine ⟨?_, ?_, rfl⟩ <;> intro hbug <;> simp [ind, indPtr, hbug, hlow]

/-- Witness for C3: `JMP ($02FF)`. -/
theorem c3_indirect_jmp_bug_witness :
    c3State.indPtr &&& 0xFF = 0xFF ∧
      ((c3State.emulateIndirectJMPBug = true →
        (c3State.ind).1.address =
          ((c3State.read (c3State.indPtr &&& 0xFF00)) <<< 8 |||
            c3State.read c3State.indPtr) &&& 0xFFFF) ∧
      (c3State.emulateIndirectJMPBug = false →
        (c3State.ind).1.address =
          ((c3State.read ((c3State.indPtr + 1) &&& 0xFFFF)) <<< 8 |||
            c3State.read c3State.indPtr) &&& 0xFFFF) ∧
      initMose.emulateIndirectJMPBug = true) :=
  ⟨by decide, c3_indirect_jmp_bug c3State (by decide)⟩

theorem or_shl8 (hi lo : Nat) (h : lo < 256) : (hi <<< 8) ||| lo = 256 * hi + lo := by
  apply Nat.eq_of_testBit_eq
  intro k
  rw [Nat.testBit_lor, Nat.testBit_shiftLeft]
  rcases Nat.lt_or_ge k 8 with hk | hk
  · have h1 : ¬ (8 ≤ k) := by omega
    simp only [h1, decide_eq_false_iff_not, Bool.false_and, Bool.false_or,
      Nat.testBit_to_div_mod, decide_eq_decide]
    interval_cases k <;> (norm_num; omega)
  · obtain ⟨j, rfl⟩ : ∃ j, k = 8 + j := ⟨k - 8, by omega⟩
    have h1 : (8 : Nat) ≤ 8 + j := by omega
    have hlo : lo.testBit (8 + j) = false := by
      apply Nat.testBit_lt_two_pow
      have h2 : (2:Nat) ^ 8 ≤ 2 ^ (8 + j) := Nat.pow_le_pow_right (by norm_num) (by omega)
      omega
    have hdiv : (256 * hi + lo) / 2 ^ (8 + j) = hi / 2 ^ j := by
      rw [pow_add, show ((2:Nat)^8) = 256 by norm_num, ← Nat.div_div_eq_div_mul]
      congr 1
      omega
    simp [h1, hlo, Nat.testBit_to_div_mod, decide_eq_decide, hdiv]

theorem or_shl4 (hi lo : Nat) (h : lo < 16) : (hi <<< 4) ||| lo = 16 * hi + lo := by
  apply Nat.eq_of_testBit_eq
  intro k
  rw [Nat.testBit_lor, Nat.testBit_shiftLeft]
  rcases Nat.lt_or_ge k 4 with hk | hk
  · have h1 : ¬ (4 ≤ k) := by omega
    simp only [h1, decide_eq_false_iff_not, Bool.false_and, Bool.false_or,
      Nat.testBit_to_div_mod, decide_eq_decide]
    interval_cases k <;> (norm_num; omega)
  · obtain ⟨j, rfl⟩ : ∃ j, k = 4 + j := ⟨k - 4, by omega⟩
    have h1 : (4 : Nat) ≤ 4 + j := by omega
    have hlo : lo.testBit (4 + j) = false := by
      apply Nat.testBit_lt_two_pow
      have h2 : (2:Nat) ^ 4 ≤ 2 ^ (4 + j) := Nat.pow_le_pow_right (by norm_num) (by omega)
      omega
    have hdiv : (16 * hi + lo) / 2 ^ (4 + j) = hi / 2 ^ j := by
      rw [pow_add, show ((2:Nat)^4) = 16 by norm_num, ← Nat.div_div_eq_div_mul]
      congr 1
      omega
    simp [h1, hlo, Nat.testBit_to_div_mod, decide_eq_decide, hdiv]

theorem shr4 (n : Nat) : n >>> 4 = n / 16 := by
  simpa using Nat.shiftRight_eq_div_pow n 4

theorem shr8 (n : Nat) : n >>> 8 = n / 256 := by
  simpa using Nat.shiftRight_eq_div_pow n 8

theorem and_80 (x : Nat) : x &&& 0x80 = x / 128 % 2 * 128 := by
  have h := Nat.and_two_pow x 7
  norm_num at h
  rw [h, Nat.testBit_to_div_mod]
  norm_num
  rcases Nat.mod_two_eq_zero_or_one (x / 128) with h2 | h2 <;> simp [h2]

/-- C2: decimal-mode ADC corrects each nibble by +6 when it exceeds the
BCD range (9), propagates the low-nibble carry into the high nibble,
takes C from the corrected high nibble exceeding 15, and takes Z and N
from the binary (uncorrected) 8-bit sum; concretely, executing `ADC #$01`
with A = 0x09, D = 1, C = 0 leaves A = 0x10 (packed BCD for ten) and
C = 0. -/
theorem c2_adc_decimal (s : Mose) (v : Nat) (hD : s.D ≠ 0) :
    (let v8 := v % 256
     let cin : Nat := if s.C = 0 then 0 else 1
     let al := s.A % 16 + v8 % 16 + cin
     let al2 := if 9 < al then al + 6 else al
     let ah := s.A / 16 + v8 / 16 + (if 9 < al then 1 else 0)
     let ah2 := if 9 < ah then ah + 6 else ah
     let bin := s.A + v8 + cin
     (ADC v s).A = ah2 % 16 * 16 + al2 % 16 ∧
       (ADC v s).C = (if 15 < ah2 then 1 else 0) ∧
       (ADC v s).Z = (if bin % 256 = 0 then 1 else 0) ∧
       (ADC v s).N = (if 128 ≤ bin % 256 then 1 else 0)) ∧
    (step c2State).A = 0x10 ∧ (step c2State).C = 0 := by
  refine ⟨?_, by decide, by decide⟩
  simp only [ADC, if_neg hD, setZN, and_f, and_ff, shr4, and_80]
  split_ifs <;> (try rw [or_shl4 _ _ (by omega)]) <;> omega

/-- Witness for C2 at the decimal-mode state `c2State` and operand 1. -/
theorem c2_adc_decimal_witness :
    c2State.D ≠ 0 ∧
      ((let v8 := 1 % 256
        let cin : Nat := if c2State.C = 0 then 0 else 1
        let al := c2State.A % 16 + v8 % 16 + cin
        let al2 := if 9 < al then al + 6 else al
        let ah := c2State.A / 16 + v8 / 16 + (if 9 < al then 1 else 0)
        let ah2 := if 9 < ah then ah + 6 else ah
        let bin := c2State.A + v8 + cin
        (ADC 1 c2State).A = ah2 % 16 * 16 + al2 % 16 ∧
          (ADC 1 c2State).C = (if 15 < ah2 then 1 else 0) ∧
          (ADC 1 c2State).Z = (if bin % 256 = 0 then 1 else 0) ∧
          (ADC 1 c2State).N = (if 128 ≤ bin % 256 then 1 else 0)) ∧
      (step c2State).A = 0x10 ∧ (step c2State).C = 0) :=
  ⟨by decide, c2_adc_decimal c2State 1 (by decide)⟩

theorem handleNMI_none (s : Mose) (hn : s.nmiEdge = false) : s.handleNMI = none := by
  simp [handleNMI, hn]

/-- C7 (failing-input evaluation): from a well-formed state with
PC = 0xFFFF and a NOP (0xEA) stored there, one `step()` leaves
PC = 0x10000, outside the declared 16-bit range, because the JS
`this.PC++` of the opcode fetch is not masked; the claimed invariant
would require PC to have wrapped to 0. -/
theorem c7_pc_escapes_16_bits :
    c7State.PC ≤ 0xFFFF ∧ c7State.A ≤ 0xFF ∧ c7State.X ≤ 0xFF ∧ c7State.Y ≤ 0xFF ∧
      c7State.S ≤ 0xFF ∧ c7State.C ≤ 1 ∧ c7State.Z ≤ 1 ∧ c7State.I ≤ 1 ∧
      c7State.D ≤ 1 ∧ c7State.B ≤ 1 ∧ c7State.V ≤ 1 ∧ c7State.N ≤ 1 ∧
      (step c7State).PC = 0x10000 ∧ ¬ (step c7State).PC ≤ 0xFFFF := by decide

/-- C8: an opcode with no assigned operation (a KIL/jam opcode) makes the
step rewind PC back to the opcode's own address, so PC, the registers,
all seven flags and all memory are unchanged; only the observability
fields change: `opcode` holds the fetched opcode and `cycles`/`totalCycles`
advance by its base table cost; nothing is raised (the step is total). -/
theorem c8_kil_rewinds_pc (s : Mose) (hb : s.breakFlag = false)
    (hn : s.nmiEdge = false) (hpc : s.PC ≤ 0xFFFF)
    (hk : ∀ t : Mose, execAssigned (s.read s.PC &&& 0xFF) t = none) :
    (step s).PC = s.PC ∧
      (step s).A = s.A ∧
      (step s).X = s.X ∧
      (step s).Y = s.Y ∧
      (step s).S = s.S ∧
      (step s).C = s.C ∧
      (step s).Z = s.Z ∧
      (step s).I = s.I ∧
      (step s).D = s.D ∧
      (step s).B = s.B ∧
      (step s).V = s.V ∧
      (step s).N = s.N ∧
      (step s).ram = s.ram ∧
      (step s).ramLen = s.ramLen ∧
      (step s).emulateIndirectJMPBug = s.emulateIndirectJMPBug ∧
      (step s).breakFlag = false ∧
      (step s).nmiEdge = false ∧
      (step s).nmiPending = s.nmiPending ∧
      (step s).opcode = s.read s.PC ∧
      (step s).cycles = cycleTable (s.read s.PC) ∧
      (step s).totalCycles = s.totalCycles + cycleTable (s.read s.PC) := by
  have hnmi : s.handleNMI = none := handleNMI_none s hn
  unfold step
  rw [hb, hnmi]
  simp only [Bool.false_eq_true, if_false]
  simp only [stepNormal]
  rw [hk]
  have hdec : dec16 (s.PC + 1) = s.PC := by unfold dec16; omega
  simp [hdec, hb, hn]

/-- Witness for C8 at the unassigned opcode 0x02. -/
theorem c8_kil_rewinds_pc_witness :
    c8State.breakFlag = false ∧ c8State.nmiEdge = false ∧ c8State.PC ≤ 0xFFFF ∧
      (∀ t : Mose, execAssigned (c8State.read c8State.PC &&& 0xFF) t = none) ∧
      ((step c8State).PC = c8State.PC ∧
      (step c8State).A = c8State.A ∧
      (step c8State).X = c8State.X ∧
      (step c8State).Y = c8State.Y ∧
      (step c8State).S = c8State.S ∧
      (step c8State).C = c8State.C ∧
      (step c8State).Z = c8State.Z ∧
      (step c8State).I = c8State.I ∧
      (step c8State).D = c8State.D ∧
      (step c8State).B = c8State.B ∧
      (step c8State).V = c8State.V ∧
      (step c8State).N = c8State.N ∧
      (step c8State).ram = c8State.ram ∧
      (step c8State).ramLen = c8State.ramLen ∧
      (step c8State).emulateIndirectJMPBug = c8State.emulateIndirectJMPBug ∧
      (step c8State).breakFlag = false ∧
      (step c8State).nmiEdge = false ∧
      (step c8State).nmiPending = c8State.nmiPending ∧
      (step c8State).opcode = c8State.read c8State.PC ∧
      (step c8State).cycles = cycleTable (c8State.read c8State.PC) ∧
      (step c8State).totalCycles = c8State.totalCycles + cycleTable (c8State.read c8State.PC)) :=
  ⟨rfl, rfl, by decide, fun t => rfl,
    c8_kil_rewinds_pc c8State rfl rfl (by decide) (fun t => rfl)⟩

theorem execAssigned_BD (t : Mose) :
    execAssigned 0xBD t = some (let (m, u) := absx t; LDA m.value (pxBump m u)) := rfl

theorem execAssigned_9D (t : Mose) :
    execAssigned 0x9D t = some (let (m, u) := absx t; STA m.address u) := rfl

/-- C4: a read instruction with absolute,X addressing (LDA abs,X, opcode
0xBD) costs its base cycle-table entry plus exactly one when the
effective address crosses a page boundary and exactly the base entry when
it does not, while the corresponding store (STA abs,X, opcode 0x9D) at
the same base address and index always costs exactly its base entry,
crossing or not. -/
theorem c4_page_cross_penalty (s : Mose) (hb : s.breakFlag = false)
    (hn : s.nmiEdge = false) :
    (s.read s.PC = 0xBD →
      checkPageCross ((s.read (s.PC + 2) <<< 8 ||| s.read (s.PC + 1)) &&& 0xFFFF) ((((s.read (s.PC + 2) <<< 8 ||| s.read (s.PC + 1)) &&& 0xFFFF) + s.X) &&& 0xFFFF) = true →
      (step s).cycles = cycleTable 0xBD + 1) ∧
    (s.read s.PC = 0xBD →
      checkPageCross ((s.read (s.PC + 2) <<< 8 ||| s.read (s.PC + 1)) &&& 0xFFFF) ((((s.read (s.PC + 2) <<< 8 ||| s.read (s.PC + 1)) &&& 0xFFFF) + s.X) &&& 0xFFFF) = false →
      (step s).cycles = cycleTable 0xBD) ∧
    (s.read s.PC = 0x9D → (step s).cycles = cycleTable 0x9D) := by
  have hnmi : s.handleNMI = none := handleNMI_none s hn
  unfold step
  rw [hb, hnmi]
  simp only [Bool.false_eq_true, if_false, stepNormal]
  refine ⟨?_, ?_, ?_⟩ <;> intro hop
  · intro hcross
    rw [hop]
    rw [show ((0xBD : Nat) &&& 0xFF) = 0xBD from rfl, execAssigned_BD]
    simp only [read, Nat.add_assoc] at hcross ⊢
    norm_num at hcross ⊢
    simp [absx, read, hcross]
  · intro hcross
    rw [hop]
    rw [show ((0xBD : Nat) &&& 0xFF) = 0xBD from rfl, execAssigned_BD]
    simp only [read, Nat.add_assoc] at hcross ⊢
    norm_num at hcross ⊢
    simp [absx, read, hcross]
  · rw [hop]
    rw [show ((0x9D : Nat) &&& 0xFF) = 0x9D from rfl, execAssigned_9D]
    simp [absx]

/-- Witness for C4: `LDA $12F0,X` and `STA $12F0,X` with X = 0x20, whose
effective address 0x1310 crosses the page of base 0x12F0. -/
theorem c4_page_cross_penalty_witness :
    c4LdaState.breakFlag = false ∧ c4LdaState.nmiEdge = false ∧
      c4LdaState.read c4LdaState.PC = 0xBD ∧
      checkPageCross ((c4LdaState.read (c4LdaState.PC + 2) <<< 8 ||| c4LdaState.read (c4LdaState.PC + 1)) &&& 0xFFFF) ((((c4LdaState.read (c4LdaState.PC + 2) <<< 8 ||| c4LdaState.read (c4LdaState.PC + 1)) &&& 0xFFFF) + c4LdaState.X) &&& 0xFFFF) = true ∧
      (step c4LdaState).cycles = cycleTable 0xBD + 1 ∧
      c4StaState.read c4StaState.PC = 0x9D ∧
      (step c4StaState).cycles = cycleTable 0x9D :=
  ⟨rfl, rfl, by decide, by decide,
    (c4_page_cross_penalty c4LdaState rfl rfl).1 (by decide) (by decide),
    by decide,
    (c4_page_cross_penalty c4StaState rfl rfl).2.2 (by decide)⟩

theorem execAssigned_EA (t : Mose) : execAssigned 0xEA t = some (NOP t) := rfl

/-- C10 (amended): `reset()` discards a pending NMI request: after
`triggerNMI()` then `reset()`, no NMI edge is latched, the next `step()`
runs the ordinary fetch-execute path on the instruction at the
reset-vector target rather than the NMI handler, and it performs no
interrupt-entry push: when the target instruction is itself non-pushing
(for instance NOP), the stack pointer and all memory are unchanged by
that step. -/
theorem c10_reset_discards_nmi (s : Mose) :
    (reset (triggerNMI s)).nmiEdge = false ∧
      (reset (triggerNMI s)).breakFlag = false ∧
      (reset (triggerNMI s)).PC = ((s.read 0xFFFD) <<< 8 ||| s.read 0xFFFC) &&& 0xFFFF ∧
      step (reset (triggerNMI s)) = stepNormal (reset (triggerNMI s)) ∧
      ((reset (triggerNMI s)).read (reset (triggerNMI s)).PC = 0xEA →
        (step (reset (triggerNMI s))).S = (reset (triggerNMI s)).S ∧
        (step (reset (triggerNMI s))).ram = (reset (triggerNMI s)).ram) := by
  refine ⟨by simp [reset, triggerNMI], by simp [reset, triggerNMI],
    by simp [reset, triggerNMI, read], ?_, ?_⟩
  · unfold step
    rw [show (reset (triggerNMI s)).breakFlag = false by simp [reset, triggerNMI]]
    rw [handleNMI_none _ (by simp [reset, triggerNMI])]
    simp
  · intro hop
    unfold step
    rw [show (reset (triggerNMI s)).breakFlag = false by simp [reset, triggerNMI]]
    rw [handleNMI_none _ (by simp [reset, triggerNMI])]
    simp only [stepNormal]
    rw [hop, show ((0xEA : Nat) &&& 0xFF) = 0xEA from rfl, execAssigned_EA]
    simp [NOP]

/-- Witness for C10 at a CPU whose reset vector leads to a NOP. -/
theorem c10_reset_discards_nmi_witness :
    (reset (triggerNMI c10NopState)).nmiEdge = false ∧
      (reset (triggerNMI c10NopState)).read (reset (triggerNMI c10NopState)).PC = 0xEA ∧
      (step (reset (triggerNMI c10NopState))).S = (reset (triggerNMI c10NopState)).S ∧
      (step (reset (triggerNMI c10NopState))).ram = (reset (triggerNMI c10NopState)).ram :=
  ⟨(c10_reset_discards_nmi c10NopState).1, by decide,
    ((c10_reset_discards_nmi c10NopState).2.2.2.2 (by decide)).1,
    ((c10_reset_discards_nmi c10NopState).2.2.2.2 (by decide)).2⟩

/-- Counterexample for C10 as frozen: with a PHA at the reset-vector
target, the step after `triggerNMI(); reset()` does push onto the stack
(the stack pointer drops from 0xFF to 0xFE and the pushed byte lands at
0x01FF), even though no NMI is serviced — so "nothing is pushed on the
stack by that step" is false at this input. -/
theorem c10_push_counterexample :
    (reset (triggerNMI c10State)).nmiEdge = false ∧
      (reset (triggerNMI c10State)).S = 0xFF ∧
      (reset (triggerNMI c10State)).opcode = 0 ∧
      (step (reset (triggerNMI c10State))).opcode = 0x48 ∧
      (step (reset (triggerNMI c10State))).S = 0xFE := by decide

theorem read_write_same (s : Mose) (a v : Nat) (ha : a < 0x10000)
    (hr : a < s.ramLen) :
    (s.write a v).read a = v &&& 0xFF := by
  have hmask : a &&& 0xFFFF = a := by rw [and_ffff]; omega
  simp only [write, read, hmask]
  rw [if_pos hr]
  simp only [hmask]
  rw [if_pos hr]
  simp [Nat.land_assoc]

theorem read_write_other (s : Mose) (a b v : Nat)
    (hab : b &&& 0xFFFF ≠ a &&& 0xFFFF) :
    (s.write a v).read b = s.read b := by
  simp only [write, read]
  split
  · simp only []
    rw [if_neg hab]
  · rfl

@[simp] theorem read_set_S (s : Mose) (x b : Nat) :
    ({ s with S := x } : Mose).read b = s.read b := by simp [read]

@[simp] theorem read_set_I (s : Mose) (x b : Nat) :
    ({ s with I := x } : Mose).read b = s.read b := by simp [read]

@[simp] theorem read_set_PC (s : Mose) (x b : Nat) :
    ({ s with PC := x } : Mose).read b = s.read b := by simp [read]

@[simp] theorem read_set_latches (s : Mose) (b : Nat) :
    ({ s with nmiEdge := false, nmiPending := false } : Mose).read b = s.read b := by
  simp [read]

@[simp] theorem read_set_cycles (s : Mose) (x y b : Nat) :
    ({ s with cycles := x, totalCycles := y } : Mose).read b = s.read b := by
  simp [read]

theorem and_ef_ff (x : Nat) : (x &&& 0xEF) &&& 0xFF = x &&& 0xEF := by
  rw [Nat.land_assoc, show ((0xEF &&& 0xFF : Nat)) = 0xEF from rfl]

theorem and_ef_10 (x : Nat) : (x &&& 0xEF) &&& 0x10 = 0 := by
  rw [Nat.land_assoc, show ((0xEF &&& 0x10 : Nat)) = 0 from rfl]
  simp

theorem and_ff_ff (x : Nat) : (x &&& 0xFF) &&& 0xFF = x &&& 0xFF := by
  rw [Nat.land_assoc, show ((0xFF &&& 0xFF : Nat)) = 0xFF from rfl]

theorem push_S (s : Mose) (v : Nat) : (s.push v).S = (s.S + 0xFF) % 0x100 := by
  simp [push]

theorem read_congr (s t : Mose) (h1 : s.ramLen = t.ramLen)
    (h2 : s.ram = t.ram) (b : Nat) : s.read b = t.read b := by
  simp [read, h1, h2]

theorem read_push_same (s : Mose) (v : Nat) (hS1 : s.S ≤ 0xFF)
    (hram : 0x1FF < s.ramLen) : (s.push v).read (0x100 + s.S) = v &&& 0xFF := by
  simp only [push]
  rw [read_set_S]
  rw [show s.S &&& 0xFF = s.S from by rw [and_ff]; omega]
  rw [read_write_same _ _ _ (by omega) (by omega)]
  exact and_ff_ff v

theorem read_push_other (s : Mose) (v b : Nat)
    (h : b &&& 0xFFFF ≠ (0x100 + (s.S &&& 0xFF)) &&& 0xFFFF) :
    (s.push v).read b = s.read b := by
  simp only [push]
  rw [read_set_S]
  exact read_write_other _ _ _ _ h

theorem step_eq_stepNormal (u : Mose) (h1 : u.breakFlag = false)
    (h2 : u.nmiEdge = false) : step u = stepNormal u := by
  unfold step
  rw [h1, handleNMI_none u h2]
  simp

/-- C1 (amended): from any processor state whose break latch
(`triggerBreak`) is clear — with S and PC in range and at least 0x200
bytes of backing memory, as every constructor-reachable state has —
calling `triggerNMI()` and then `step()` makes that step, before fetching
any opcode, push the high byte of PC, then the low byte of PC, then the
status byte with bit 4 (B) cleared, set I = 1, load PC from the
little-endian vector at 0xFFFA/0xFFFB, and charge exactly 7 cycles; a
second `step()` without another trigger does not service the NMI handler
again but runs the ordinary fetch-execute path. -/
theorem c1_nmi_service (s : Mose) (hb : s.breakFlag = false) (hS : s.S ≤ 0xFF)
    (hPC : s.PC ≤ 0xFFFF) (hram : 0x1FF < s.ramLen) :
    (step (triggerNMI s)).read (0x100 + s.S) = s.PC / 0x100 ∧
      (step (triggerNMI s)).read (0x100 + (s.S + 0xFF) % 0x100) = s.PC % 0x100 ∧
      (step (triggerNMI s)).read (0x100 + (s.S + 0xFE) % 0x100) =
        s.getStatus &&& 0xEF ∧
      (step (triggerNMI s)).read (0x100 + (s.S + 0xFE) % 0x100) &&& 0x10 = 0 ∧
      (step (triggerNMI s)).S = (s.S + 0xFD) % 0x100 ∧
      (step (triggerNMI s)).I = 1 ∧
      (step (triggerNMI s)).PC =
        (((step (triggerNMI s)).read 0xFFFB) <<< 8 |||
          (step (triggerNMI s)).read 0xFFFA) &&& 0xFFFF ∧
      (step (triggerNMI s)).cycles = 7 ∧
      (step (triggerNMI s)).totalCycles = s.totalCycles + 7 ∧
      (step (triggerNMI s)).opcode = s.opcode ∧
      (step (triggerNMI s)).nmiEdge = false ∧
      step (step (triggerNMI s)) = stepNormal (step (triggerNMI s)) := by
  have e0 : s.S &&& 0xFF = s.S := by rw [and_ff]; omega
  have e1 : ∀ x : Nat, (x % 0x100) &&& 0xFF = x % 0x100 := fun x => by
    rw [and_ff]; omega
  have hstep : step (triggerNMI s) = { ({ ({ (push (push (push ({ s with nmiEdge := false, nmiPending := false } : Mose) ((s.PC >>> 8) &&& 0xFF)) (s.PC &&& 0xFF)) (getStatus (push (push ({ s with nmiEdge := false, nmiPending := false } : Mose) ((s.PC >>> 8) &&& 0xFF)) (s.PC &&& 0xFF)) &&& 0xEF)) with I := 1 } : Mose) with PC := ((read ({ (push (push (push ({ s with nmiEdge := false, nmiPending := false } : Mose) ((s.PC >>> 8) &&& 0xFF)) (s.PC &&& 0xFF)) (getStatus (push (push ({ s with nmiEdge := false, nmiPending := false } : Mose) ((s.PC >>> 8) &&& 0xFF)) (s.PC &&& 0xFF)) &&& 0xEF)) with I := 1 } : Mose) 0xFFFB <<< 8) ||| read ({ (push (push (push ({ s with nmiEdge := false, nmiPending := false } : Mose) ((s.PC >>> 8) &&& 0xFF)) (s.PC &&& 0xFF)) (getStatus (push (push ({ s with nmiEdge := false, nmiPending := false } : Mose) ((s.PC >>> 8) &&& 0xFF)) (s.PC &&& 0xFF)) &&& 0xEF)) with I := 1 } : Mose) 0xFFFA) &&& 0xFFFF } : Mose) with cycles := 7, totalCycles := Mose.totalCycles ({ ({ (push (push (push ({ s with nmiEdge := false, nmiPending := false } : Mose) ((s.PC >>> 8) &&& 0xFF)) (s.PC &&& 0xFF)) (getStatus (push (push ({ s with nmiEdge := false, nmiPending := false } : Mose) ((s.PC >>> 8) &&& 0xFF)) (s.PC &&& 0xFF)) &&& 0xEF)) with I := 1 } : Mose) with PC := ((read ({ (push (push (push ({ s with nmiEdge := false, nmiPending := false } : Mose) ((s.PC >>> 8) &&& 0xFF)) (s.PC &&& 0xFF)) (getStatus (push (push ({ s with nmiEdge := false, nmiPending := false } : Mose) ((s.PC >>> 8) &&& 0xFF)) (s.PC &&& 0xFF)) &&& 0xEF)) with I := 1 } : Mose) 0xFFFB <<< 8) ||| read ({ (push (push (push ({ s with nmiEdge := false, nmiPending := false } : Mose) ((s.PC >>> 8) &&& 0xFF)) (s.PC &&& 0xFF)) (getStatus (push (push ({ s with nmiEdge := false, nmiPending := false } : Mose) ((s.PC >>> 8) &&& 0xFF)) (s.PC &&& 0xFF)) &&& 0xEF)) with I := 1 } : Mose) 0xFFFA) &&& 0xFFFF } : Mose) + 7 } := by
    unfold step
    rw [show (triggerNMI s).breakFlag = false by simp [triggerNMI, hb]]
    simp only [Bool.false_eq_true, if_false]
    unfold handleNMI
    rw [if_pos (show (triggerNMI s).nmiEdge = true by simp [triggerNMI])]
    simp [triggerNMI, read]
  have h1S : (push ({ s with nmiEdge := false, nmiPending := false } : Mose) ((s.PC >>> 8) &&& 0xFF)).S = (s.S + 0xFF) % 0x100 := by simp [push]
  have h2S : (push (push ({ s with nmiEdge := false, nmiPending := false } : Mose) ((s.PC >>> 8) &&& 0xFF)) (s.PC &&& 0xFF)).S = (s.S + 0xFE) % 0x100 := by simp [push]; omega
  have h3S : (push (push (push ({ s with nmiEdge := false, nmiPending := false } : Mose) ((s.PC >>> 8) &&& 0xFF)) (s.PC &&& 0xFF)) (getStatus (push (push ({ s with nmiEdge := false, nmiPending := false } : Mose) ((s.PC >>> 8) &&& 0xFF)) (s.PC &&& 0xFF)) &&& 0xEF)).S = (s.S + 0xFD) % 0x100 := by simp [push]; omega
  have hGS : getStatus (push (push ({ s with nmiEdge := false, nmiPending := false } : Mose) ((s.PC >>> 8) &&& 0xFF)) (s.PC &&& 0xFF)) = getStatus s := by simp [getStatus, push]
  have hrl1 : (push ({ s with nmiEdge := false, nmiPending := false } : Mose) ((s.PC >>> 8) &&& 0xFF)).ramLen = s.ramLen := by simp [push]
  have hrl2 : (push (push ({ s with nmiEdge := false, nmiPending := false } : Mose) ((s.PC >>> 8) &&& 0xFF)) (s.PC &&& 0xFF)).ramLen = s.ramLen := by simp [push]
  have hr3a : read (push (push (push ({ s with nmiEdge := false, nmiPending := false } : Mose) ((s.PC >>> 8) &&& 0xFF)) (s.PC &&& 0xFF)) (getStatus (push (push ({ s with nmiEdge := false, nmiPending := false } : Mose) ((s.PC >>> 8) &&& 0xFF)) (s.PC &&& 0xFF)) &&& 0xEF)) (0x100 + s.S) = read (push (push ({ s with nmiEdge := false, nmiPending := false } : Mose) ((s.PC >>> 8) &&& 0xFF)) (s.PC &&& 0xFF)) (0x100 + s.S) := by
    apply read_push_other
    rw [h2S]
    simp only [and_ffff, and_ff]
    omega
  have hr2a : read (push (push ({ s with nmiEdge := false, nmiPending := false } : Mose) ((s.PC >>> 8) &&& 0xFF)) (s.PC &&& 0xFF)) (0x100 + s.S) = read (push ({ s with nmiEdge := false, nmiPending := false } : Mose) ((s.PC >>> 8) &&& 0xFF)) (0x100 + s.S) := by
    apply read_push_other
    rw [h1S]
    simp only [and_ffff, and_ff]
    omega
  have hr1a : read (push ({ s with nmiEdge := false, nmiPending := false } : Mose) ((s.PC >>> 8) &&& 0xFF)) (0x100 + s.S) = ((s.PC >>> 8) &&& 0xFF) &&& 0xFF := by
    apply read_push_same
    · exact hS
    · exact hram
  have hr3b : read (push (push (push ({ s with nmiEdge := false, nmiPending := false } : Mose) ((s.PC >>> 8) &&& 0xFF)) (s.PC &&& 0xFF)) (getStatus (push (push ({ s with nmiEdge := false, nmiPending := false } : Mose) ((s.PC >>> 8) &&& 0xFF)) (s.PC &&& 0xFF)) &&& 0xEF)) (0x100 + (s.S + 0xFF) % 0x100) =
      read (push (push ({ s with nmiEdge := false, nmiPending := false } : Mose) ((s.PC >>> 8) &&& 0xFF)) (s.PC &&& 0xFF)) (0x100 + (s.S + 0xFF) % 0x100) := by
    apply read_push_other
    rw [h2S]
    simp only [and_ffff, and_ff]
    omega
  have hr2b : read (push (push ({ s with nmiEdge := false, nmiPending := false } : Mose) ((s.PC >>> 8) &&& 0xFF)) (s.PC &&& 0xFF)) (0x100 + (s.S + 0xFF) % 0x100) =
      (s.PC &&& 0xFF) &&& 0xFF := by
    rw [show 0x100 + (s.S + 0xFF) % 0x100 = 0x100 + (push ({ s with nmiEdge := false, nmiPending := false } : Mose) ((s.PC >>> 8) &&& 0xFF)).S from by rw [h1S]]
    apply read_push_same
    · rw [h1S]; omega
    · rw [hrl1]; omega
  have hr3c : read (push (push (push ({ s with nmiEdge := false, nmiPending := false } : Mose) ((s.PC >>> 8) &&& 0xFF)) (s.PC &&& 0xFF)) (getStatus (push (push ({ s with nmiEdge := false, nmiPending := false } : Mose) ((s.PC >>> 8) &&& 0xFF)) (s.PC &&& 0xFF)) &&& 0xEF)) (0x100 + (s.S + 0xFE) % 0x100) =
      (getStatus (push (push ({ s with nmiEdge := false, nmiPending := false } : Mose) ((s.PC >>> 8) &&& 0xFF)) (s.PC &&& 0xFF)) &&& 0xEF) &&& 0xFF := by
    rw [show 0x100 + (s.S + 0xFE) % 0x100 = 0x100 + (push (push ({ s with nmiEdge := false, nmiPending := false } : Mose) ((s.PC >>> 8) &&& 0xFF)) (s.PC &&& 0xFF)).S from by rw [h2S]]
    apply read_push_same
    · rw [h2S]; omega
    · rw [hrl2]; omega
  rw [hstep]
  refine ⟨?_, ?_, ?_, ?_, ?_, ?_, ?_, ?_, ?_, ?_, ?_,
    step_eq_stepNormal _ (by simp [push, hb]) (by simp [push])⟩
  · rw [read_congr ({ ({ ({ (push (push (push ({ s with nmiEdge := false, nmiPending := false } : Mose) ((s.PC >>> 8) &&& 0xFF)) (s.PC &&& 0xFF)) (getStatus (push (push ({ s with nmiEdge := false, nmiPending := false } : Mose) ((s.PC >>> 8) &&& 0xFF)) (s.PC &&& 0xFF)) &&& 0xEF)) with I := 1 } : Mose) with PC := ((read ({ (push (push (push ({ s with nmiEdge := false, nmiPending := false } : Mose) ((s.PC >>> 8) &&& 0xFF)) (s.PC &&& 0xFF)) (getStatus (push (push ({ s with nmiEdge := false, nmiPending := false } : Mose) ((s.PC >>> 8) &&& 0xFF)) (s.PC &&& 0xFF)) &&& 0xEF)) with I := 1 } : Mose) 0xFFFB <<< 8) ||| read ({ (push (push (push ({ s with nmiEdge := false, nmiPending := false } : Mose) ((s.PC >>> 8) &&& 0xFF)) (s.PC &&& 0xFF)) (getStatus (push (push ({ s with nmiEdge := false, nmiPending := false } : Mose) ((s.PC >>> 8) &&& 0xFF)) (s.PC &&& 0xFF)) &&& 0xEF)) with I := 1 } : Mose) 0xFFFA) &&& 0xFFFF } : Mose) with cycles := 7, totalCycles := Mose.totalCycles ({ ({ (push (push (push ({ s with nmiEdge := false, nmiPending := false } : Mose) ((s.PC >>> 8) &&& 0xFF)) (s.PC &&& 0xFF)) (getStatus (push (push ({ s with nmiEdge := false, nmiPending := false } : Mose) ((s.PC >>> 8) &&& 0xFF)) (s.PC &&& 0xFF)) &&& 0xEF)) with I := 1 } : Mose) with PC := ((read ({ (push (push (push ({ s with nmiEdge := false, nmiPending := false } : Mose) ((s.PC >>> 8) &&& 0xFF)) (s.PC &&& 0xFF)) (getStatus (push (push ({ s with nmiEdge := false, nmiPending := false } : Mose) ((s.PC >>> 8) &&& 0xFF)) (s.PC &&& 0xFF)) &&& 0xEF)) with I := 1 } : Mose) 0xFFFB <<< 8) ||| read ({ (push (push (push ({ s with nmiEdge := false, nmiPending := false } : Mose) ((s.PC >>> 8) &&& 0xFF)) (s.PC &&& 0xFF)) (getStatus (push (push ({ s with nmiEdge := false, nmiPending := false } : Mose) ((s.PC >>> 8) &&& 0xFF)) (s.PC &&& 0xFF)) &&& 0xEF)) with I := 1 } : Mose) 0xFFFA) &&& 0xFFFF } : Mose) + 7 } : Mose) (push (push (push ({ s with nmiEdge := false, nmiPending := false } : Mose) ((s.PC >>> 8) &&& 0xFF)) (s.PC &&& 0xFF)) (getStatus (push (push ({ s with nmiEdge := false, nmiPending := false } : Mose) ((s.PC >>> 8) &&& 0xFF)) (s.PC &&& 0xFF)) &&& 0xEF)) (by simp) (by simp)]
    rw [hr3a, hr2a, hr1a, shr8, and_ff, and_ff]
    omega
  · rw [read_congr ({ ({ ({ (push (push (push ({ s with nmiEdge := false, nmiPending := false } : Mose) ((s.PC >>> 8) &&& 0xFF)) (s.PC &&& 0xFF)) (getStatus (push (push ({ s with nmiEdge := false, nmiPending := false } : Mose) ((s.PC >>> 8) &&& 0xFF)) (s.PC &&& 0xFF)) &&& 0xEF)) with I := 1 } : Mose) with PC := ((read ({ (push (push (push ({ s with nmiEdge := false, nmiPending := false } : Mose) ((s.PC >>> 8) &&& 0xFF)) (s.PC &&& 0xFF)) (getStatus (push (push ({ s with nmiEdge := false, nmiPending := false } : Mose) ((s.PC >>> 8) &&& 0xFF)) (s.PC &&& 0xFF)) &&& 0xEF)) with I := 1 } : Mose) 0xFFFB <<< 8) ||| read ({ (push (push (push ({ s with nmiEdge := false, nmiPending := false } : Mose) ((s.PC >>> 8) &&& 0xFF)) (s.PC &&& 0xFF)) (getStatus (push (push ({ s with nmiEdge := false, nmiPending := false } : Mose) ((s.PC >>> 8) &&& 0xFF)) (s.PC &&& 0xFF)) &&& 0xEF)) with I := 1 } : Mose) 0xFFFA) &&& 0xFFFF } : Mose) with cycles := 7, totalCycles := Mose.totalCycles ({ ({ (push (push (push ({ s with nmiEdge := false, nmiPending := false } : Mose) ((s.PC >>> 8) &&& 0xFF)) (s.PC &&& 0xFF)) (getStatus (push (push ({ s with nmiEdge := false, nmiPending := false } : Mose) ((s.PC >>> 8) &&& 0xFF)) (s.PC &&& 0xFF)) &&& 0xEF)) with I := 1 } : Mose) with PC := ((read ({ (push (push (push ({ s with nmiEdge := false, nmiPending := false } : Mose) ((s.PC >>> 8) &&& 0xFF)) (s.PC &&& 0xFF)) (getStatus (push (push ({ s with nmiEdge := false, nmiPending := false } : Mose) ((s.PC >>> 8) &&& 0xFF)) (s.PC &&& 0xFF)) &&& 0xEF)) with I := 1 } : Mose) 0xFFFB <<< 8) ||| read ({ (push (push (push ({ s with nmiEdge := false, nmiPending := false } : Mose) ((s.PC >>> 8) &&& 0xFF)) (s.PC &&& 0xFF)) (getStatus (push (push ({ s with nmiEdge := false, nmiPending := false } : Mose) ((s.PC >>> 8) &&& 0xFF)) (s.PC &&& 0xFF)) &&& 0xEF)) with I := 1 } : Mose) 0xFFFA) &&& 0xFFFF } : Mose) + 7 } : Mose) (push (push (push ({ s with nmiEdge := false, nmiPending := false } : Mose) ((s.PC >>> 8) &&& 0xFF)) (s.PC &&& 0xFF)) (getStatus (push (push ({ s with nmiEdge := false, nmiPending := false } : Mose) ((s.PC >>> 8) &&& 0xFF)) (s.PC &&& 0xFF)) &&& 0xEF)) (by simp) (by simp)]
    rw [hr3b, hr2b, and_ff, and_ff]
    omega
  · rw [read_congr ({ ({ ({ (push (push (push ({ s with nmiEdge := false, nmiPending := false } : Mose) ((s.PC >>> 8) &&& 0xFF)) (s.PC &&& 0xFF)) (getStatus (push (push ({ s with nmiEdge := false, nmiPending := false } : Mose) ((s.PC >>> 8) &&& 0xFF)) (s.PC &&& 0xFF)) &&& 0xEF)) with I := 1 } : Mose) with PC := ((read ({ (push (push (push ({ s with nmiEdge := false, nmiPending := false } : Mose) ((s.PC >>> 8) &&& 0xFF)) (s.PC &&& 0xFF)) (getStatus (push (push ({ s with nmiEdge := false, nmiPending := false } : Mose) ((s.PC >>> 8) &&& 0xFF)) (s.PC &&& 0xFF)) &&& 0xEF)) with I := 1 } : Mose) 0xFFFB <<< 8) ||| read ({ (push (push (push ({ s with nmiEdge := false, nmiPending := false } : Mose) ((s.PC >>> 8) &&& 0xFF)) (s.PC &&& 0xFF)) (getStatus (push (push ({ s with nmiEdge := false, nmiPending := false } : Mose) ((s.PC >>> 8) &&& 0xFF)) (s.PC &&& 0xFF)) &&& 0xEF)) with I := 1 } : Mose) 0xFFFA) &&& 0xFFFF } : Mose) with cycles := 7, totalCycles := Mose.totalCycles ({ ({ (push (push (push ({ s with nmiEdge := false, nmiPending := false } : Mose) ((s.PC >>> 8) &&& 0xFF)) (s.PC &&& 0xFF)) (getStatus (push (push ({ s with nmiEdge := false, nmiPending := false } : Mose) ((s.PC >>> 8) &&& 0xFF)) (s.PC &&& 0xFF)) &&& 0xEF)) with I := 1 } : Mose) with PC := ((read ({ (push (push (push ({ s with nmiEdge := false, nmiPending := false } : Mose) ((s.PC >>> 8) &&& 0xFF)) (s.PC &&& 0xFF)) (getStatus (push (push ({ s with nmiEdge := false, nmiPending := false } : Mose) ((s.PC >>> 8) &&& 0xFF)) (s.PC &&& 0xFF)) &&& 0xEF)) with I := 1 } : Mose) 0xFFFB <<< 8) ||| read ({ (push (push (push ({ s with nmiEdge := false, nmiPending := false } : Mose) ((s.PC >>> 8) &&& 0xFF)) (s.PC &&& 0xFF)) (getStatus (push (push ({ s with nmiEdge := false, nmiPending := false } : Mose) ((s.PC >>> 8) &&& 0xFF)) (s.PC &&& 0xFF)) &&& 0xEF)) with I := 1 } : Mose) 0xFFFA) &&& 0xFFFF } : Mose) + 7 } : Mose) (push (push (push ({ s with nmiEdge := false, nmiPending := false } : Mose) ((s.PC >>> 8) &&& 0xFF)) (s.PC &&& 0xFF)) (getStatus (push (push ({ s with nmiEdge := false, nmiPending := false } : Mose) ((s.PC >>> 8) &&& 0xFF)) (s.PC &&& 0xFF)) &&& 0xEF)) (by simp) (by simp)]
    rw [hr3c, and_ef_ff, hGS]
  · rw [read_congr ({ ({ ({ (push (push (push ({ s with nmiEdge := false, nmiPending := false } : Mose) ((s.PC >>> 8) &&& 0xFF)) (s.PC &&& 0xFF)) (getStatus (push (push ({ s with nmiEdge := false, nmiPending := false } : Mose) ((s.PC >>> 8) &&& 0xFF)) (s.PC &&& 0xFF)) &&& 0xEF)) with I := 1 } : Mose) with PC := ((read ({ (push (push (push ({ s with nmiEdge := false, nmiPending := false } : Mose) ((s.PC >>> 8) &&& 0xFF)) (s.PC &&& 0xFF)) (getStatus (push (push ({ s with nmiEdge := false, nmiPending := false } : Mose) ((s.PC >>> 8) &&& 0xFF)) (s.PC &&& 0xFF)) &&& 0xEF)) with I := 1 } : Mose) 0xFFFB <<< 8) ||| read ({ (push (push (push ({ s with nmiEdge := false, nmiPending := false } : Mose) ((s.PC >>> 8) &&& 0xFF)) (s.PC &&& 0xFF)) (getStatus (push (push ({ s with nmiEdge := false, nmiPending := false } : Mose) ((s.PC >>> 8) &&& 0xFF)) (s.PC &&& 0xFF)) &&& 0xEF)) with I := 1 } : Mose) 0xFFFA) &&& 0xFFFF } : Mose) with cycles := 7, totalCycles := Mose.totalCycles ({ ({ (push (push (push ({ s with nmiEdge := false, nmiPending := false } : Mose) ((s.PC >>> 8) &&& 0xFF)) (s.PC &&& 0xFF)) (getStatus (push (push ({ s with nmiEdge := false, nmiPending := false } : Mose) ((s.PC >>> 8) &&& 0xFF)) (s.PC &&& 0xFF)) &&& 0xEF)) with I := 1 } : Mose) with PC := ((read ({ (push (push (push ({ s with nmiEdge := false, nmiPending := false } : Mose) ((s.PC >>> 8) &&& 0xFF)) (s.PC &&& 0xFF)) (getStatus (push (push ({ s with nmiEdge := false, nmiPending := false } : Mose) ((s.PC >>> 8) &&& 0xFF)) (s.PC &&& 0xFF)) &&& 0xEF)) with I := 1 } : Mose) 0xFFFB <<< 8) ||| read ({ (push (push (push ({ s with nmiEdge := false, nmiPending := false } : Mose) ((s.PC >>> 8) &&& 0xFF)) (s.PC &&& 0xFF)) (getStatus (push (push ({ s with nmiEdge := false, nmiPending := false } : Mose) ((s.PC >>> 8) &&& 0xFF)) (s.PC &&& 0xFF)) &&& 0xEF)) with I := 1 } : Mose) 0xFFFA) &&& 0xFFFF } : Mose) + 7 } : Mose) (push (push (push ({ s with nmiEdge := false, nmiPending := false } : Mose) ((s.PC >>> 8) &&& 0xFF)) (s.PC &&& 0xFF)) (getStatus (push (push ({ s with nmiEdge := false, nmiPending := false } : Mose) ((s.PC >>> 8) &&& 0xFF)) (s.PC &&& 0xFF)) &&& 0xEF)) (by simp) (by simp)]
    rw [hr3c, and_ef_ff, hGS, and_ef_10]
  · simp only [Mose.S]
    simp [h3S]
  · simp
  · have hA : read ({ ({ ({ (push (push (push ({ s with nmiEdge := false, nmiPending := false } : Mose) ((s.PC >>> 8) &&& 0xFF)) (s.PC &&& 0xFF)) (getStatus (push (push ({ s with nmiEdge := false, nmiPending := false } : Mose) ((s.PC >>> 8) &&& 0xFF)) (s.PC &&& 0xFF)) &&& 0xEF)) with I := 1 } : Mose) with PC := ((read ({ (push (push (push ({ s with nmiEdge := false, nmiPending := false } : Mose) ((s.PC >>> 8) &&& 0xFF)) (s.PC &&& 0xFF)) (getStatus (push (push ({ s with nmiEdge := false, nmiPending := false } : Mose) ((s.PC >>> 8) &&& 0xFF)) (s.PC &&& 0xFF)) &&& 0xEF)) with I := 1 } : Mose) 0xFFFB <<< 8) ||| read ({ (push (push (push ({ s with nmiEdge := false, nmiPending := false } : Mose) ((s.PC >>> 8) &&& 0xFF)) (s.PC &&& 0xFF)) (getStatus (push (push ({ s with nmiEdge := false, nmiPending := false } : Mose) ((s.PC >>> 8) &&& 0xFF)) (s.PC &&& 0xFF)) &&& 0xEF)) with I := 1 } : Mose) 0xFFFA) &&& 0xFFFF } : Mose) with cycles := 7, totalCycles := Mose.totalCycles ({ ({ (push (push (push ({ s with nmiEdge := false, nmiPending := false } : Mose) ((s.PC >>> 8) &&& 0xFF)) (s.PC &&& 0xFF)) (getStatus (push (push ({ s with nmiEdge := false, nmiPending := false } : Mose) ((s.PC >>> 8) &&& 0xFF)) (s.PC &&& 0xFF)) &&& 0xEF)) with I := 1 } : Mose) with PC := ((read ({ (push (push (push ({ s with nmiEdge := false, nmiPending := false } : Mose) ((s.PC >>> 8) &&& 0xFF)) (s.PC &&& 0xFF)) (getStatus (push (push ({ s with nmiEdge := false, nmiPending := false } : Mose) ((s.PC >>> 8) &&& 0xFF)) (s.PC &&& 0xFF)) &&& 0xEF)) with I := 1 } : Mose) 0xFFFB <<< 8) ||| read ({ (push (push (push ({ s with nmiEdge := false, nmiPending := false } : Mose) ((s.PC >>> 8) &&& 0xFF)) (s.PC &&& 0xFF)) (getStatus (push (push ({ s with nmiEdge := false, nmiPending := false } : Mose) ((s.PC >>> 8) &&& 0xFF)) (s.PC &&& 0xFF)) &&& 0xEF)) with I := 1 } : Mose) 0xFFFA) &&& 0xFFFF } : Mose) + 7 } : Mose) 0xFFFB = read (push (push (push ({ s with nmiEdge := false, nmiPending := false } : Mose) ((s.PC >>> 8) &&& 0xFF)) (s.PC &&& 0xFF)) (getStatus (push (push ({ s with nmiEdge := false, nmiPending := false } : Mose) ((s.PC >>> 8) &&& 0xFF)) (s.PC &&& 0xFF)) &&& 0xEF)) 0xFFFB :=
      read_congr _ _ (by simp) (by simp) 0xFFFB
    have hB : read ({ ({ ({ (push (push (push ({ s with nmiEdge := false, nmiPending := false } : Mose) ((s.PC >>> 8) &&& 0xFF)) (s.PC &&& 0xFF)) (getStatus (push (push ({ s with nmiEdge := false, nmiPending := false } : Mose) ((s.PC >>> 8) &&& 0xFF)) (s.PC &&& 0xFF)) &&& 0xEF)) with I := 1 } : Mose) with PC := ((read ({ (push (push (push ({ s with nmiEdge := false, nmiPending := false } : Mose) ((s.PC >>> 8) &&& 0xFF)) (s.PC &&& 0xFF)) (getStatus (push (push ({ s with nmiEdge := false, nmiPending := false } : Mose) ((s.PC >>> 8) &&& 0xFF)) (s.PC &&& 0xFF)) &&& 0xEF)) with I := 1 } : Mose) 0xFFFB <<< 8) ||| read ({ (push (push (push ({ s with nmiEdge := false, nmiPending := false } : Mose) ((s.PC >>> 8) &&& 0xFF)) (s.PC &&& 0xFF)) (getStatus (push (push ({ s with nmiEdge := false, nmiPending := false } : Mose) ((s.PC >>> 8) &&& 0xFF)) (s.PC &&& 0xFF)) &&& 0xEF)) with I := 1 } : Mose) 0xFFFA) &&& 0xFFFF } : Mose) with cycles := 7, totalCycles := Mose.totalCycles ({ ({ (push (push (push ({ s with nmiEdge := false, nmiPending := false } : Mose) ((s.PC >>> 8) &&& 0xFF)) (s.PC &&& 0xFF)) (getStatus (push (push ({ s with nmiEdge := false, nmiPending := false } : Mose) ((s.PC >>> 8) &&& 0xFF)) (s.PC &&& 0xFF)) &&& 0xEF)) with I := 1 } : Mose) with PC := ((read ({ (push (push (push ({ s with nmiEdge := false, nmiPending := false } : Mose) ((s.PC >>> 8) &&& 0xFF)) (s.PC &&& 0xFF)) (getStatus (push (push ({ s with nmiEdge := false, nmiPending := false } : Mose) ((s.PC >>> 8) &&& 0xFF)) (s.PC &&& 0xFF)) &&& 0xEF)) with I := 1 } : Mose) 0xFFFB <<< 8) ||| read ({ (push (push (push ({ s with nmiEdge := false, nmiPending := false } : Mose) ((s.PC >>> 8) &&& 0xFF)) (s.PC &&& 0xFF)) (getStatus (push (push ({ s with nmiEdge := false, nmiPending := false } : Mose) ((s.PC >>> 8) &&& 0xFF)) (s.PC &&& 0xFF)) &&& 0xEF)) with I := 1 } : Mose) 0xFFFA) &&& 0xFFFF } : Mose) + 7 } : Mose) 0xFFFA = read (push (push (push ({ s with nmiEdge := false, nmiPending := false } : Mose) ((s.PC >>> 8) &&& 0xFF)) (s.PC &&& 0xFF)) (getStatus (push (push ({ s with nmiEdge := false, nmiPending := false } : Mose) ((s.PC >>> 8) &&& 0xFF)) (s.PC &&& 0xFF)) &&& 0xEF)) 0xFFFA :=
      read_congr _ _ (by simp) (by simp) 0xFFFA
    have hC : read ({ (push (push (push ({ s with nmiEdge := false, nmiPending := false } : Mose) ((s.PC >>> 8) &&& 0xFF)) (s.PC &&& 0xFF)) (getStatus (push (push ({ s with nmiEdge := false, nmiPending := false } : Mose) ((s.PC >>> 8) &&& 0xFF)) (s.PC &&& 0xFF)) &&& 0xEF)) with I := 1 } : Mose) 0xFFFB = read (push (push (push ({ s with nmiEdge := false, nmiPending := false } : Mose) ((s.PC >>> 8) &&& 0xFF)) (s.PC &&& 0xFF)) (getStatus (push (push ({ s with nmiEdge := false, nmiPending := false } : Mose) ((s.PC >>> 8) &&& 0xFF)) (s.PC &&& 0xFF)) &&& 0xEF)) 0xFFFB :=
      read_congr _ _ (by simp) (by simp) 0xFFFB
    have hD : read ({ (push (push (push ({ s with nmiEdge := false, nmiPending := false } : Mose) ((s.PC >>> 8) &&& 0xFF)) (s.PC &&& 0xFF)) (getStatus (push (push ({ s with nmiEdge := false, nmiPending := false } : Mose) ((s.PC >>> 8) &&& 0xFF)) (s.PC &&& 0xFF)) &&& 0xEF)) with I := 1 } : Mose) 0xFFFA = read (push (push (push ({ s with nmiEdge := false, nmiPending := false } : Mose) ((s.PC >>> 8) &&& 0xFF)) (s.PC &&& 0xFF)) (getStatus (push (push ({ s with nmiEdge := false, nmiPending := false } : Mose) ((s.PC >>> 8) &&& 0xFF)) (s.PC &&& 0xFF)) &&& 0xEF)) 0xFFFA :=
      read_congr _ _ (by simp) (by simp) 0xFFFA
    rw [hA, hB]
    dsimp only
    rw [hC, hD]
  · simp
  · simp [push]
  · simp [push]
  · simp [push]

/-- Witness for C1 at a fresh CPU with PC = 0x0600 and an NMI vector of
0x1234. -/
theorem c1_nmi_service_witness :
    c1State.breakFlag = false ∧ c1State.S ≤ 0xFF ∧ c1State.PC ≤ 0xFFFF ∧
      0x1FF < c1State.ramLen ∧
      ((step (triggerNMI c1State)).read (0x100 + c1State.S) = c1State.PC / 0x100 ∧
        (step (triggerNMI c1State)).read (0x100 + (c1State.S + 0xFF) % 0x100) =
          c1State.PC % 0x100 ∧
        (step (triggerNMI c1State)).read (0x100 + (c1State.S + 0xFE) % 0x100) =
          c1State.getStatus &&& 0xEF ∧
        (step (triggerNMI c1State)).read (0x100 + (c1State.S + 0xFE) % 0x100) &&&
          0x10 = 0 ∧
        (step (triggerNMI c1State)).S = (c1State.S + 0xFD) % 0x100 ∧
        (step (triggerNMI c1State)).I = 1 ∧
        (step (triggerNMI c1State)).PC =
          (((step (triggerNMI c1State)).read 0xFFFB) <<< 8 |||
            (step (triggerNMI c1State)).read 0xFFFA) &&& 0xFFFF ∧
        (step (triggerNMI c1State)).cycles = 7 ∧
        (step (triggerNMI c1State)).totalCycles = c1State.totalCycles + 7 ∧
        (step (triggerNMI c1State)).opcode = c1State.opcode ∧
        (step (triggerNMI c1State)).nmiEdge = false ∧
        step (step (triggerNMI c1State)) = stepNormal (step (triggerNMI c1State))) :=
  ⟨rfl, by decide, by decide, by decide,
    c1_nmi_service c1State rfl (by decide) (by decide) (by decide)⟩

/-- Counterexample for C1 as frozen: the claim quantifies over every
processor state, but in a state whose break latch has been set by
`triggerBreak()`, the step after `triggerNMI()` only consumes the break
latch: nothing is pushed (S stays 0xFF), I stays 0, no cycles are
charged, and PC stays 0x0600 instead of being loaded with the NMI vector
0x1234. -/
theorem c1_break_latch_counterexample :
    (step (triggerNMI (triggerBreak c1State))).PC = 0x0600 ∧
      (step (triggerNMI (triggerBreak c1State))).PC ≠
        (((step (triggerNMI (triggerBreak c1State))).read 0xFFFB) <<< 8 |||
          (step (triggerNMI (triggerBreak c1State))).read 0xFFFA) &&& 0xFFFF ∧
      (step (triggerNMI (triggerBreak c1State))).S = 0xFF ∧
      (step (triggerNMI (triggerBreak c1State))).I = 0 ∧
      (step (triggerNMI (triggerBreak c1State))).cycles = 0 ∧
      (step (triggerNMI (triggerBreak c1State))).totalCycles = 0 := by decide

end Mose
